import Mathlib

/-!
# Texture residency in the GL 4.5 backend

A shallow embedding of the texture residency code of
`libraries/gpu-gl/src/gpu/gl/GLTexture.cpp`,
`libraries/gpu-gl/src/gpu/gl45/GL45BackendTexture.cpp` and
`libraries/gpu-gl/src/gpu/gl45/GL45TextureManager.cpp`.

Conventions.

* `uint16_t` fields are natural numbers below `U16`; every operation whose C++
  result is converted back to `uint16_t` is written with `add16` / `sub16`.
* `gpu::Texture` lives in another library; the member functions the backend
  calls are the fields of `Texture`.
* The OpenGL device is a log of the calls made, plus the supply of texture
  names that `glCreateTextures` draws from.
* `Q_ASSERT` / `assert` compile to nothing in release builds, so the state
  transformers below are the release-build behaviour; each asserted condition
  is kept as a separate Boolean so that it can be stated and proved.
-/

namespace gpu

/-- Number of values of a `uint16_t`. -/
def U16 : Nat := 65536

/-- Addition with the result converted to `uint16_t`. -/
def add16 (a b : Nat) : Nat := (a + b) % U16

/-- Subtraction with the result converted to `uint16_t`. -/
def sub16 (a b : Nat) : Nat := (a + U16 - b % U16) % U16

/-- The `glm::uvec3` type. -/
structure UVec3 where
  x : Nat
  y : Nat
  z : Nat
deriving DecidableEq, Repr

/-- The test `glm::all(glm::lessThanEqual(a, b))`. -/
def UVec3.allLessThanEqual (a b : UVec3) : Bool :=
  decide (a.x ≤ b.x) && decide (a.y ≤ b.y) && decide (a.z ≤ b.z)

/-- The values of `TextureUsageType`. -/
inductive TextureUsageType where
  | RENDERBUFFER
  | RESOURCE
  | STRICT_RESOURCE
  | EXTERNAL
deriving DecidableEq, Repr

/-- The part of `gpu::Texture` that the backend reads.  The class is defined
outside the files embedded here, so each member function is a field. -/
structure Texture where
  /-- The result of `getStamp()`: the definition stamp. -/
  stamp : Int
  /-- The result of `getDataStamp()`: the content stamp. -/
  dataStamp : Int
  /-- Whether `getType()` is `TEX_CUBE` (otherwise `TEX_2D`). -/
  cube : Bool
  /-- The result of `getUsageType()`. -/
  usageType : TextureUsageType
  /-- The result of `isDefined()`. -/
  defined : Bool
  /-- The result of `evalNumMips()`, a `uint16`. -/
  evalNumMips : Nat
  /-- The result of `minMip()`. -/
  minMip : Nat
  /-- The result of `maxMip()`. -/
  maxMip : Nat
  /-- The function `evalMipDimensions(mip)`. -/
  evalMipDimensions : Nat → UVec3
  /-- The function `evalMipSize(mip)`: the byte size of one mip. -/
  evalMipSize : Nat → Nat
  /-- The function `evalTotalSize(startingMip)`. -/
  evalTotalSize : Nat → Nat
  /-- The function `isStoredMipFaceAvailable(mip, face)`. -/
  isStoredMipFaceAvailable : Nat → Nat → Bool
  /-- The result of `isAutogenerateMips()`. -/
  isAutogenerateMips : Bool
  /-- The result of `getTexelFormat().isCompressed()`. -/
  isCompressed : Bool
  /-- The result of `getSize()`. -/
  getSize : Nat

namespace gl

/-- The calls made to the OpenGL device that create, size, fill, copy and
destroy texture objects.  Sampler parameters and error polling are not
recorded. -/
inductive GLCall where
  /-- The call `glCreateTextures(target, 1, &name)`, with the name returned. -/
  | createTextures (name : Nat)
  /-- The call `glDeleteTextures(1, &name)`. -/
  | deleteTextures (name : Nat)
  /-- The call `glTextureStorage2D(name, levels, format, width, height)`. -/
  | textureStorage2D (name : Nat) (levels : Int) (width height : Nat)
  /-- One `glTextureSubImage2D` / `2DEXT` / `3D` upload of a stored mip face. -/
  | textureSubImage (name level face width height : Nat)
  /-- One `glCopyImageSubData` from a level of `src` to a level of `dst`. -/
  | copyImageSubData (src srcLevel dst dstLevel face width height : Nat)
  /-- The call `glGenerateTextureMipmap(name)`. -/
  | generateTextureMipmap (name : Nat)
  /-- The call `glTexturePageCommitmentEXT(name, level, .., w, h, faces, commit)`. -/
  | texturePageCommitment (name level width height faces : Nat) (commit : Bool)
  /-- One `glFramebufferTexture2D` + `glCopyTextureSubImage2D` pair of `stripToMip`. -/
  | copyTextureSubImage2D (src srcLevel dst dstLevel face width height : Nat)
deriving DecidableEq, Repr

/-- The device as seen by the backend: the next unused texture name and the
calls made so far (oldest first). -/
structure GLContext where
  nextName : Nat
  calls : List GLCall
deriving DecidableEq, Repr

/-- Record one call. -/
def GLContext.call (gl : GLContext) (c : GLCall) : GLContext :=
  { gl with calls := gl.calls ++ [c] }

/-- Record a list of calls in order. -/
def GLContext.callAll (gl : GLContext) (cs : List GLCall) : GLContext :=
  { gl with calls := gl.calls ++ cs }

/-- The function `GLTexture::getFaceCount`. -/
def getFaceCount (cube : Bool) : Nat := if cube then 6 else 1

/-- The function `GLTexture::getFaceTargets`, as the list of face indices. -/
def getFaceTargets (cube : Bool) : List Nat := List.range (getFaceCount cube)

end gl

namespace gl45

open gl

/-- The function `GL45Texture::allocate`: `glCreateTextures` returns a name
that was not in use. -/
def allocate (gl : GLContext) : GLContext × Nat :=
  ({ nextName := gl.nextName + 1, calls := gl.calls ++ [GLCall.createTextures gl.nextName] },
    gl.nextName)

/-- The constant `GL45VariableAllocationTexture::INITIAL_MIP_TRANSFER_DIMENSIONS`. -/
def INITIAL_MIP_TRANSFER_DIMENSIONS : UVec3 := ⟨64, 64, 1⟩

/-- The mutable fields of a `GL45ResourceTexture` (the dense variable
allocation handle). -/
structure GL45ResourceTexture where
  /-- The device object name `_id`. -/
  id : Nat
  /-- The field `_allocatedMip`. -/
  allocatedMip : Nat
  /-- The field `_populatedMip`. -/
  populatedMip : Nat
  /-- The field `_maxAllocatedMip`. -/
  maxAllocatedMip : Nat
  /-- The value that `size()` reports.  The member behind it is declared in the class,
  outside the embedded files; no member function embedded here assigns it. -/
  size : Nat
deriving DecidableEq, Repr

/-- The calls of `GL45Texture::copyMipFromTexture(sourceMip, targetMip)`: one
upload per face when the stored mip is available, none otherwise. -/
def copyMipFromTextureCalls (tex : Texture) (id sourceMip targetMip : Nat) : List GLCall :=
  if !tex.isStoredMipFaceAvailable sourceMip 0 then []
  else (List.range (getFaceCount tex.cube)).map fun face =>
    GLCall.textureSubImage id targetMip face
      (tex.evalMipDimensions sourceMip).x (tex.evalMipDimensions sourceMip).y

/-- The function `GL45Texture::copyMipFromTexture`. -/
def copyMipFromTexture (tex : Texture) (gl : GLContext) (id sourceMip targetMip : Nat) :
    GLContext :=
  gl.callAll (copyMipFromTextureCalls tex id sourceMip targetMip)

namespace GL45ResourceTexture

/-- The function `GL45ResourceTexture::allocateStorage(allocatedMip)`. -/
def allocateStorage (tex : Texture) (gl : GLContext) (t : GL45ResourceTexture)
    (allocatedMip : Nat) : GLContext × GL45ResourceTexture :=
  let t1 := { t with allocatedMip := allocatedMip % U16 }
  let dimensions := tex.evalMipDimensions t1.allocatedMip
  let totalMips := tex.evalNumMips
  let mips : Int := (totalMips : Int) - (t1.allocatedMip : Int)
  (gl.call (GLCall.textureStorage2D t1.id mips dimensions.x dimensions.y), t1)

/-- The function `GL45ResourceTexture::copyMipsFromTexture`. -/
def copyMipsFromTexture (tex : Texture) (gl : GLContext) (t : GL45ResourceTexture) :
    GLContext :=
  (List.range' t.populatedMip (tex.evalNumMips - t.populatedMip)).foldl
    (fun g sourceMip => copyMipFromTexture tex g t.id sourceMip (sub16 sourceMip t.allocatedMip))
    gl

/-- The first mip below `mipLevels` whose dimensions fit in
`INITIAL_MIP_TRANSFER_DIMENSIONS`: the search loop of the constructor. -/
def initialMip (tex : Texture) : Option Nat :=
  (List.range tex.evalNumMips).find? fun mip =>
    (tex.evalMipDimensions mip).allLessThanEqual INITIAL_MIP_TRANSFER_DIMENSIONS

/-- The constructor `GL45ResourceTexture::GL45ResourceTexture`.  The in-class
initialisers of `_populatedMip` and `_maxAllocatedMip` are in the class
declaration, outside the embedded files, and are the parameters
`populatedMip0` and `maxAllocatedMip0`; so is the initial value `size0` of the size. -/
def create (tex : Texture) (gl : GLContext) (populatedMip0 maxAllocatedMip0 size0 : Nat) :
    GLContext × GL45ResourceTexture :=
  let created := allocate gl
  let t0 : GL45ResourceTexture :=
    match initialMip tex with
    | some mip =>
      { id := created.2, allocatedMip := 0, populatedMip := mip, maxAllocatedMip := mip,
        size := size0 }
    | none =>
      { id := created.2, allocatedMip := 0, populatedMip := populatedMip0,
        maxAllocatedMip := maxAllocatedMip0, size := size0 }
  let allocatedMip := t0.populatedMip - min t0.populatedMip 2
  let stored := allocateStorage tex created.1 t0 allocatedMip
  (copyMipsFromTexture tex stored.1 stored.2, stored.2)

/-- The calls of one reallocation copy loop: for each mip from `populatedMip`
up to the last one, one `glCopyImageSubData` per face from the old object to
the new one. -/
def copyCalls (tex : Texture) (oldId newId populatedMip : Nat)
    (sourceLevel targetLevel : Nat → Nat) : List GLCall :=
  (List.range' populatedMip (tex.evalNumMips - populatedMip)).flatMap fun mip =>
    (getFaceTargets tex.cube).map fun target =>
      GLCall.copyImageSubData oldId (sourceLevel mip) newId (targetLevel mip) target
        (tex.evalMipDimensions mip).x (tex.evalMipDimensions mip).y

/-- The condition of the first assertion of `promote`: `_populatedMip > 0`. -/
def promoteAssert (t : GL45ResourceTexture) : Bool := decide (0 < t.populatedMip)

/-- The block of `promote` that runs when `_populatedMip == _allocatedMip`: a new device
object with storage from a lower `allocatedMip`, the resident mips copied into it, the old
object deleted. -/
def promoteReallocate (tex : Texture) (gl : GLContext) (t : GL45ResourceTexture) :
    GLContext × GL45ResourceTexture :=
  let oldId := t.id
  let created := allocate gl
  let t1 := { t with id := created.2 }
  let oldAllocatedMip := t1.allocatedMip
  let stored := allocateStorage tex created.1 t1 (t1.allocatedMip - min t1.allocatedMip 2)
  let gl2 := stored.1.callAll (copyCalls tex oldId stored.2.id stored.2.populatedMip
    (fun mip => sub16 mip oldAllocatedMip) (fun mip => sub16 mip stored.2.allocatedMip))
  (gl2.call (GLCall.deleteTextures oldId), stored.2)

/-- The function `GL45ResourceTexture::promote`. -/
def promote (tex : Texture) (gl : GLContext) (t : GL45ResourceTexture) :
    GLContext × GL45ResourceTexture :=
  let r := if t.populatedMip = t.allocatedMip then promoteReallocate tex gl t else (gl, t)
  let t4 := { r.2 with populatedMip := sub16 r.2.populatedMip 1 }
  (copyMipFromTexture tex r.1 t4.id t4.populatedMip (sub16 t4.populatedMip t4.allocatedMip), t4)

/-- The condition of the assertion of `demote`: `_allocatedMip < _maxAllocatedMip`. -/
def demoteAssert (t : GL45ResourceTexture) : Bool := decide (t.allocatedMip < t.maxAllocatedMip)

/-- The function `GL45ResourceTexture::demote`. -/
def demote (tex : Texture) (gl : GLContext) (t : GL45ResourceTexture) :
    GLContext × GL45ResourceTexture :=
  let oldId := t.id
  let created := allocate gl
  let t1 := { t with id := created.2 }
  let stored := allocateStorage tex created.1 t1 (t1.allocatedMip + 1)
  let t3 := { stored.2 with populatedMip := max stored.2.populatedMip stored.2.allocatedMip }
  let gl3 := stored.1.callAll (copyCalls tex oldId t3.id t3.populatedMip
    (fun mip => add16 (sub16 mip t3.allocatedMip) 1) (fun mip => sub16 mip t3.allocatedMip))
  (gl3.call (GLCall.deleteTextures oldId), t3)

/-- The mip ordering of a dense handle: `allocatedMip ≤ populatedMip ≤ maxAllocatedMip`. -/
def MipsOrdered (t : GL45ResourceTexture) : Prop :=
  t.allocatedMip ≤ t.populatedMip ∧ t.populatedMip ≤ t.maxAllocatedMip

instance (t : GL45ResourceTexture) : Decidable (MipsOrdered t) := by
  unfold MipsOrdered; infer_instance

/-- The fields hold `uint16` values. -/
def InRange (t : GL45ResourceTexture) : Prop :=
  t.allocatedMip < U16 ∧ t.populatedMip < U16 ∧ t.maxAllocatedMip < U16

instance (t : GL45ResourceTexture) : Decidable (InRange t) := by
  unfold InRange; infer_instance

/-- A 256 x 256 two-dimensional RGBA texture with its nine mips, all stored. -/
def tex256 : Texture where
  stamp := 1
  dataStamp := 1
  cube := false
  usageType := TextureUsageType.RESOURCE
  defined := true
  evalNumMips := 9
  minMip := 0
  maxMip := 8
  evalMipDimensions := fun mip => ⟨max (256 >>> mip) 1, max (256 >>> mip) 1, 1⟩
  evalMipSize := fun mip => 4 * max (256 >>> mip) 1 * max (256 >>> mip) 1
  evalTotalSize := fun start =>
    ((List.range' start (9 - start)).map fun mip =>
      4 * max (256 >>> mip) 1 * max (256 >>> mip) 1).sum
  isStoredMipFaceAvailable := fun _ _ => true
  isAutogenerateMips := false
  isCompressed := false
  getSize := 349524

/-- A device on which no texture has been created yet. -/
def gl0 : GLContext := ⟨1, []⟩

/-- The handle that the constructor builds for `tex256`. -/
def fresh256 : GL45ResourceTexture := ⟨1, 0, 2, 2, 349524⟩

end GL45ResourceTexture

end gl45

/-! ### The managed handle of the transfer worker

The classes below are the `GLTexture` / `GL45Texture` pair that the transfer
worker `GLTextureTransferHelper` drives. -/

/-- Number of values of a 32-bit unsigned integer (`GLuint`, `uint32_t`). -/
def U32 : Nat := 4294967296

/-- Number of values of a `size_t` (64-bit targets). -/
def USIZE : Nat := 18446744073709551616

/-- Subtraction of two `size_t` values, with the wrap-around of unsigned arithmetic. -/
def subSize (a b : Nat) : Nat := (a + USIZE - b % USIZE) % USIZE

/-- Addition of two `size_t` values. -/
def addSize (a b : Nat) : Nat := (a + b) % USIZE

/-- The ways in which a call does not return to its caller. -/
inductive Abort where
  /-- The call `qFatal` ended the process. -/
  | fatal
  /-- A loop whose `uint16` counter wraps around before its bound is reached never exits. -/
  | hang
deriving DecidableEq, Repr

namespace gl

/-- The constant `GLTexture::INVALID_MIP`, which is `(uint16_t)-1`. -/
def INVALID_MIP : Nat := 65535

/-- The values of `GLSyncState`. -/
inductive GLSyncState where
  | Idle
  | Pending
  | Transferred
deriving DecidableEq, Repr

/-- The data members of `GLTexture` that the residency code reads and writes. -/
structure GLTexture where
  /-- The device object name `_id`. -/
  id : Nat
  /-- The member `_external`. -/
  external : Bool
  /-- The member `_transferrable`. -/
  transferrable : Bool
  /-- The member `_storageStamp`. -/
  storageStamp : Int
  /-- The member `_contentStamp`. -/
  contentStamp : Int
  /-- The member `_transferCount`. -/
  transferCount : Nat
  /-- The member `_syncState`. -/
  syncState : GLSyncState
  /-- The member `_maxMip`. -/
  maxMip : Nat
  /-- The member `_minMip`. -/
  minMip : Nat
  /-- The member `_virtualSize`. -/
  virtualSize : Nat
  /-- The member `_size`, the size recorded by `setSize`. -/
  size : Nat
deriving DecidableEq, Repr

namespace GLTexture

/-- The function `GLTexture::isInvalid`. -/
def isInvalid (t : GLTexture) (tex : Texture) : Bool :=
  decide (t.storageStamp < tex.stamp)

/-- The function `GLTexture::isOutdated`. -/
def isOutdated (t : GLTexture) (tex : Texture) : Bool :=
  decide (GLSyncState.Idle = t.syncState) && decide (t.contentStamp < tex.dataStamp)

/-- The function `GLTexture::isReady`. -/
def isReady (t : GLTexture) (tex : Texture) : Bool :=
  if t.isInvalid tex then false
  else
    let syncState := t.syncState
    if t.isOutdated tex || decide (GLSyncState.Idle ≠ syncState) then false
    else true

/-- The function `GLTexture::usedMipLevels`, a `uint16`. -/
def usedMipLevels (t : GLTexture) : Nat := add16 (sub16 t.maxMip t.minMip) 1

/-- The function `GLTexture::setSize`; the global memory counters it also updates are
not part of the handle. -/
def setSize (t : GLTexture) (size : Nat) : GLTexture := { t with size := size % U32 }

end GLTexture

end gl

namespace gl45

open gl

/-- The data members of `SparseInfo`. -/
structure SparseInfo where
  /-- The member `sparse`. -/
  sparse : Bool
  /-- The member `pageDimensions`. -/
  pageDimensions : UVec3
  /-- The member `maxSparseLevel`, a `GLuint`. -/
  maxSparseLevel : Nat
  /-- The member `allocatedMip`. -/
  allocatedMip : Nat
  /-- The member `maxPages`. -/
  maxPages : Nat
  /-- The member `allocatedPages`, a `uint32_t`. -/
  allocatedPages : Nat
  /-- The member `pageBytes`, a `uint32_t`. -/
  pageBytes : Nat
deriving DecidableEq, Repr

namespace SparseInfo

/-- The function `getPageCounts` (its body is that of
`GL45SparseResourceTexture::getPageCounts`): per axis `dimensions / pageDimensions` plus
`clamp(dimensions % pageDimensions, 0, 1)`, in 32-bit unsigned arithmetic. -/
def getPageCounts (pageDimensions dimensions : UVec3) : UVec3 :=
  ⟨(dimensions.x / pageDimensions.x + min (max (dimensions.x % pageDimensions.x) 0) 1) % U32,
   (dimensions.y / pageDimensions.y + min (max (dimensions.y % pageDimensions.y) 0) 1) % U32,
   (dimensions.z / pageDimensions.z + min (max (dimensions.z % pageDimensions.z) 0) 1) % U32⟩

/-- The function `getPageCount`: the product of the three page counts, a `uint32_t`. -/
def getPageCount (pageDimensions dimensions : UVec3) : Nat :=
  ((getPageCounts pageDimensions dimensions).x * (getPageCounts pageDimensions dimensions).y *
    (getPageCounts pageDimensions dimensions).z) % U32

/-- The function `SparseInfo::getSize`. -/
def getSize (s : SparseInfo) : Nat := (s.allocatedPages * s.pageBytes) % U32

end SparseInfo

/-- The data members of the managed `GL45Texture`: those of `GLTexture` and its own. -/
structure GL45Texture extends GLTexture where
  /-- The member `_sparseInfo`. -/
  sparseInfo : SparseInfo
  /-- The member `_mipOffset`. -/
  mipOffset : Nat
  /-- The member `_targetMinMip`. -/
  targetMinMip : Nat
  /-- The member `_populatedMip`. -/
  populatedMip : Nat
deriving DecidableEq, Repr

namespace GL45Texture

/-- The function `GL45Texture::updateSize`. -/
def updateSize (tex : Texture) (t : GL45Texture) : Except Abort GL45Texture :=
  if tex.isCompressed then Except.error Abort.fatal
  else if t.transferrable && t.sparseInfo.sparse then
    Except.ok { t with toGLTexture := t.toGLTexture.setSize t.sparseInfo.getSize }
  else
    Except.ok { t with toGLTexture := t.toGLTexture.setSize (tex.evalTotalSize t.mipOffset) }

/-- The function `GL45Texture::derezable`. -/
def derezable (t : GL45Texture) : Bool :=
  if t.external then false
  else
    let maxMinMip := if t.sparseInfo.sparse then t.sparseInfo.maxSparseLevel else t.maxMip
    t.transferrable && decide (t.targetMinMip < maxMinMip)

/-- The function `GL45Texture::getMipByteCount`, a `size_t`. -/
def getMipByteCount (tex : Texture) (t : GL45Texture) (mip : Nat) : Nat :=
  if !t.sparseInfo.sparse then tex.evalMipSize mip % USIZE
  else
    let dimensions := tex.evalMipDimensions t.targetMinMip
    (SparseInfo.getPageCount t.sparseInfo.pageDimensions dimensions * t.sparseInfo.pageBytes) % U32

/-- The condition asserted on entry to `preDerez`. -/
def preDerezAssert (t : GL45Texture) : Bool :=
  !t.sparseInfo.sparse || decide (t.targetMinMip < t.sparseInfo.maxSparseLevel)

/-- The function `GL45Texture::preDerez`: the handle after the call and the pair
`(freedMemory, liveMip)` it returns. -/
def preDerez (tex : Texture) (t : GL45Texture) : GL45Texture × (Nat × Bool) :=
  let freedMemory := getMipByteCount tex t t.targetMinMip
  let liveMip := decide (t.populatedMip ≠ INVALID_MIP) && decide (t.populatedMip ≤ t.targetMinMip)
  ({ t with targetMinMip := add16 t.targetMinMip 1 }, (freedMemory, liveMip))

/-- The device calls of the sparse branch of `stripToMip`: one page decommit per mip from
`minMip` up to `newMinMip`. -/
def stripSparseCalls (tex : Texture) (t : GL45Texture) (newMinMip : Nat) : List GLCall :=
  (List.range' t.minMip (newMinMip - t.minMip)).map fun mip =>
    GLCall.texturePageCommitment t.id mip (tex.evalMipDimensions mip).x
      (tex.evalMipDimensions mip).y (getFaceCount tex.cube) false

/-- The page accounting of the sparse branch of `stripToMip`: the value of
`allocatedPages` after the pages of the mips from `minMip` up to `newMinMip` have been
subtracted, in `uint32_t` arithmetic. -/
def stripSparsePages (tex : Texture) (t : GL45Texture) (newMinMip : Nat) : Nat :=
  (List.range' t.minMip (newMinMip - t.minMip)).foldl
    (fun allocatedPages mip =>
      let deallocatedPages :=
        (SparseInfo.getPageCount t.sparseInfo.pageDimensions (tex.evalMipDimensions mip) *
          getFaceCount tex.cube) % U32
      (allocatedPages + U32 - deallocatedPages) % U32)
    t.sparseInfo.allocatedPages

/-- The device calls of the copy loop of the dense branch of `stripToMip`, for the
handle as it is after `_mipOffset` and `_maxMip` were adjusted. -/
def stripCopyCalls (tex : Texture) (t : GL45Texture) (oldId mipDelta : Nat) : List GLCall :=
  (List.range' t.minMip (t.maxMip + 1 - t.minMip)).flatMap fun targetMip =>
    (getFaceTargets tex.cube).map fun target =>
      GLCall.copyTextureSubImage2D oldId (add16 targetMip mipDelta) t.id targetMip target
        (tex.evalMipDimensions (add16 targetMip t.mipOffset)).x
        (tex.evalMipDimensions (add16 targetMip t.mipOffset)).y

/-- The function `GL45Texture::stripToMip`. -/
def stripToMip (tex : Texture) (gl : GLContext) (t : GL45Texture) (newMinMip : Nat) :
    Except Abort (GLContext × GL45Texture) :=
  if newMinMip < t.minMip then Except.ok (gl, t)
  else if t.sparseInfo.sparse && decide (newMinMip > t.sparseInfo.maxSparseLevel) then
    Except.ok (gl, t)
  else
    let gl1 := if !tex.isAutogenerateMips then gl.call (GLCall.generateTextureMipmap t.id) else gl
    if t.sparseInfo.sparse then
      let gl2 := gl1.callAll (stripSparseCalls tex t newMinMip)
      let t2 : GL45Texture :=
        { t with
          sparseInfo := { t.sparseInfo with allocatedPages := stripSparsePages tex t newMinMip }
          minMip := newMinMip }
      (updateSize tex t2).map fun t3 => (gl2, t3)
    else
      let oldId := t.id
      let mipDelta := sub16 newMinMip t.minMip
      let t1 : GL45Texture :=
        { t with mipOffset := add16 t.mipOffset mipDelta, maxMip := sub16 t.maxMip mipDelta }
      let newLevels := t1.usedMipLevels
      let created := allocate gl1
      let t2 : GL45Texture := { t1 with id := created.2 }
      let newDimensions := tex.evalMipDimensions t2.mipOffset
      let gl3 :=
        created.1.call (GLCall.textureStorage2D t2.id newLevels newDimensions.x newDimensions.y)
      if t2.maxMip = 65535 then Except.error Abort.hang
      else
        let gl4 := gl3.callAll (stripCopyCalls tex t2 oldId mipDelta)
        let gl5 := gl4.call (GLCall.deleteTextures oldId)
        (updateSize tex t2).map fun t3 => (gl5, t3)

/-- The conditions asserted on entry to `derez`. -/
def derezAssert (t : GL45Texture) : Bool :=
  (!t.sparseInfo.sparse || decide (t.minMip < t.sparseInfo.maxSparseLevel)) &&
    decide (t.minMip < t.maxMip) && t.transferrable

/-- The function `GL45Texture::derez`. -/
def derez (tex : Texture) (gl : GLContext) (t : GL45Texture) :
    Except Abort (GLContext × GL45Texture) :=
  stripToMip tex gl t (add16 t.minMip 1)

/-- The function `GL45Texture::getTargetGpuSize`, a `size_t`.  The counter of the loop of
the sparse branch is a `uint16`, so the loop only exits when `maxSparseLevel` is below
65535. -/
def getTargetGpuSize (tex : Texture) (t : GL45Texture) : Except Abort Nat :=
  if !t.sparseInfo.sparse then Except.ok (t.virtualSize % USIZE)
  else if 65535 ≤ t.sparseInfo.maxSparseLevel then Except.error Abort.hang
  else
    Except.ok
      ((List.range' t.targetMinMip (t.sparseInfo.maxSparseLevel + 1 - t.targetMinMip)).foldl
        (fun result mip =>
          addSize result
            ((t.sparseInfo.pageBytes *
              SparseInfo.getPageCount t.sparseInfo.pageDimensions (tex.evalMipDimensions mip)) % U32))
        0)

end GL45Texture

/-! ### The transfer worker and its eviction sweep -/

/-- A `gpu::TexturePointer`: the identity of a texture.  The texture and its device handle
are looked up in the `Backend`. -/
abbrev TexturePointer := Nat

/-- A `std::weak_ptr<gpu::Texture>`, as the result of its `lock()`: the pointer, or nothing
once the texture has been destroyed. -/
abbrev TextureWeakPointer := Option TexturePointer

/-- The objects the worker reaches through a texture pointer: the texture itself, its
device handle (`Backend::getGPUObject`), and the device. -/
structure Backend where
  textures : TexturePointer → Texture
  objects : TexturePointer → GL45Texture
  gl : GLContext

/-- The lists of `GLTextureTransferHelper`. -/
structure GLTextureTransferHelper where
  /-- The member `_pendingTextures`. -/
  pendingTextures : List TexturePointer
  /-- The member `_transferringTextures`. -/
  transferringTextures : List TexturePointer
  /-- The member `_transferredTextures`. -/
  transferredTextures : List TextureWeakPointer
deriving DecidableEq, Repr

/-- The local struct `TextureAndSize` of `recomputeTextureLoad`. -/
structure TextureAndSize where
  texture : TexturePointer
  size : Nat
deriving DecidableEq, Repr

/-- The entries of a priority queue that no entry exceeds under `operator<`. -/
def maxEntries (q : List TextureAndSize) : List TextureAndSize :=
  q.filter fun e => q.all fun other => decide (other.size ≤ e.size)

/-- The call `std::priority_queue::top`: an entry that no entry exceeds.  Which of several
entries of equal size is on top is left to the library; `choice` selects it. -/
def top (choice : Nat) (q : List TextureAndSize) : Option TextureAndSize :=
  (maxEntries q)[choice % (maxEntries q).length]?

/-- The local variables of `recomputeTextureLoad` during its demotion loop, with the handles
and the device they act on. -/
structure SweepState where
  objects : TexturePointer → GL45Texture
  gl : GLContext
  /-- The priority queue `allTextures`, as the list of its entries. -/
  allTextures : List TextureAndSize
  /-- The running total `allTexturesTargetMemory`. -/
  allTexturesTargetMemory : Nat
  /-- The set `demotedLiveTextures`. -/
  demotedLiveTextures : List TexturePointer

/-- One round of either queue-building loop of `recomputeTextureLoad`, for a texture that
is alive: add its target size to the total, and push it when it is derezable. -/
def visitTexture (b : Backend) (acc : Nat × List TextureAndSize) (texturePointer : TexturePointer) :
    Except Abort (Nat × List TextureAndSize) :=
  match GL45Texture.getTargetGpuSize (b.textures texturePointer) (b.objects texturePointer) with
  | Except.error e => Except.error e
  | Except.ok targetMemory =>
    Except.ok (addSize acc.1 targetMemory,
      if (b.objects texturePointer).derezable then acc.2 ++ [⟨texturePointer, targetMemory⟩]
      else acc.2)

/-- A queue-building loop of `recomputeTextureLoad` over the textures of a list that are
alive. -/
def visitTextures (b : Backend) :
    Nat × List TextureAndSize → List TexturePointer → Except Abort (Nat × List TextureAndSize)
  | acc, [] => Except.ok acc
  | acc, texturePointer :: rest =>
    match visitTexture b acc texturePointer with
    | Except.error e => Except.error e
    | Except.ok acc1 => visitTextures b acc1 rest

/-- The block `BuildPriorityQueue` of `recomputeTextureLoad`: the total target memory and
the queue, over the transferred textures that are still alive and then the transferring
ones. -/
def buildPriorityQueue (b : Backend) (h : GLTextureTransferHelper) :
    Except Abort (Nat × List TextureAndSize) :=
  match visitTextures b (0, []) (h.transferredTextures.filterMap id) with
  | Except.error e => Except.error e
  | Except.ok acc => visitTextures b acc h.transferringTextures

/-- The condition of the demotion loop of `recomputeTextureLoad`. -/
def sweepCond (allowedTextureMemory : Nat) (s : SweepState) : Bool :=
  !s.allTextures.isEmpty && decide (s.allTexturesTargetMemory > allowedTextureMemory)

/-- The body of the demotion loop of `recomputeTextureLoad` from `allTextures.pop()` on,
for the entry `derezTarget` that `top()` returned. -/
def sweepStepOn (textures : TexturePointer → Texture) (s : SweepState)
    (derezTarget : TextureAndSize) : Except Abort SweepState :=
  let popped := s.allTextures.erase derezTarget
  let texture := derezTarget.texture
  let object := s.objects texture
  let derezData := GL45Texture.preDerez (textures texture) object
  let freedMemory := derezData.2.1
  let liveDerez := derezData.2.2
  let stepped : Except Abort (GLContext × GL45Texture × List TexturePointer) :=
    if liveDerez then
      Except.ok (s.gl, derezData.1, s.demotedLiveTextures.insert texture)
    else
      match GL45Texture.derez (textures texture) s.gl derezData.1 with
      | Except.error e => Except.error e
      | Except.ok r => Except.ok (r.1, r.2, s.demotedLiveTextures)
  match stepped with
  | Except.error e => Except.error e
  | Except.ok r =>
    Except.ok
      { objects := Function.update s.objects texture r.2.1
        gl := r.1
        allTextures :=
          if r.2.1.derezable then popped ++ [⟨texture, subSize derezTarget.size freedMemory⟩]
          else popped
        allTexturesTargetMemory := subSize s.allTexturesTargetMemory freedMemory
        demotedLiveTextures := r.2.2 }

/-- The body of the demotion loop of `recomputeTextureLoad`.  The loop only runs it on a
queue that is not empty. -/
def sweepStep (textures : TexturePointer → Texture) (choice : Nat) (s : SweepState) :
    Except Abort SweepState :=
  match top choice s.allTextures with
  | none => Except.ok s
  | some derezTarget => sweepStepOn textures s derezTarget

/-- The demotion loop of `recomputeTextureLoad`, run for at most `fuel` rounds: `none` when
the rounds did not suffice, otherwise the state in which the loop ended or the way in which
a round did not return.  The `n`-th round takes its choice among equal entries from
`tie n`. -/
def sweepLoop (textures : TexturePointer → Texture) (allowedTextureMemory : Nat) :
    (Nat → Nat) → Nat → SweepState → Option (Except Abort SweepState)
  | tie, fuel, s =>
    if sweepCond allowedTextureMemory s then
      match fuel with
      | 0 => none
      | fuel1 + 1 =>
        match sweepStep textures (tie 0) s with
        | Except.error e => some (Except.error e)
        | Except.ok s1 => sweepLoop textures allowedTextureMemory (fun n => tie (n + 1)) fuel1 s1
    else some (Except.ok s)

/-- The state of the demotion loop before its round number `n` (counting from 0), when
the loop gets that far: every earlier round was entered and returned. -/
def sweepAfter (textures : TexturePointer → Texture) (allowedTextureMemory : Nat) :
    (Nat → Nat) → Nat → SweepState → Option SweepState
  | _, 0, s => some s
  | tie, n + 1, s =>
    if sweepCond allowedTextureMemory s then
      match sweepStep textures (tie 0) s with
      | Except.error _ => none
      | Except.ok s1 => sweepAfter textures allowedTextureMemory (fun k => tie (k + 1)) n s1
    else none

/-- The loop state with which the demotion loop of `recomputeTextureLoad` starts. -/
def sweepStart (b : Backend) (built : Nat × List TextureAndSize) : SweepState :=
  { objects := b.objects, gl := b.gl, allTextures := built.2,
    allTexturesTargetMemory := built.1, demotedLiveTextures := [] }

/-- The function `GLTextureTransferHelper::recomputeTextureLoad`, with the value
`allowedTextureMemory` that `GLTexture::getAllowedTextureSize()` returns. -/
def recomputeTextureLoad (allowedTextureMemory : Nat) (tie : Nat → Nat) (fuel : Nat)
    (b : Backend) (h : GLTextureTransferHelper) :
    Option (Except Abort (Backend × GLTextureTransferHelper)) :=
  match buildPriorityQueue b h with
  | Except.error e => some (Except.error e)
  | Except.ok built =>
    match sweepLoop b.textures allowedTextureMemory tie fuel (sweepStart b built) with
    | none => none
    | some (Except.error e) => some (Except.error e)
    | some (Except.ok s) =>
      some (Except.ok
        ({ textures := b.textures, objects := s.objects, gl := s.gl },
         { pendingTextures := h.pendingTextures
           transferringTextures :=
             h.transferringTextures.insertionSort
               fun a c => (b.textures a).getSize ≤ (b.textures c).getSize
           transferredTextures := h.transferredTextures.filter Option.isSome }))

/-! ### Concrete textures, handles and worker states -/

/-- A 4 x 4 two-dimensional RGBA texture with its three mips of 64, 16 and 4 bytes. -/
def tex4 : Texture where
  stamp := 1
  dataStamp := 1
  cube := false
  usageType := TextureUsageType.RESOURCE
  defined := true
  evalNumMips := 3
  minMip := 0
  maxMip := 2
  evalMipDimensions := fun mip => ⟨max (4 >>> mip) 1, max (4 >>> mip) 1, 1⟩
  evalMipSize := fun mip => 4 * max (4 >>> mip) 1 * max (4 >>> mip) 1
  evalTotalSize := fun start =>
    ((List.range' start (3 - start)).map fun mip =>
      4 * max (4 >>> mip) 1 * max (4 >>> mip) 1).sum
  isStoredMipFaceAvailable := fun _ _ => true
  isAutogenerateMips := true
  isCompressed := false
  getSize := 84

/-- A 2 x 2 two-dimensional RGBA texture with its two mips of 16 and 4 bytes. -/
def tex2 : Texture where
  stamp := 1
  dataStamp := 1
  cube := false
  usageType := TextureUsageType.RESOURCE
  defined := true
  evalNumMips := 2
  minMip := 0
  maxMip := 1
  evalMipDimensions := fun mip => ⟨max (2 >>> mip) 1, max (2 >>> mip) 1, 1⟩
  evalMipSize := fun mip => 4 * max (2 >>> mip) 1 * max (2 >>> mip) 1
  evalTotalSize := fun start =>
    ((List.range' start (2 - start)).map fun mip =>
      4 * max (2 >>> mip) 1 * max (2 >>> mip) 1).sum
  isStoredMipFaceAvailable := fun _ _ => true
  isAutogenerateMips := true
  isCompressed := false
  getSize := 20

/-- The `SparseInfo` of a handle that is not sparse. -/
def notSparse : SparseInfo :=
  { sparse := false, pageDimensions := ⟨1, 1, 1⟩, maxSparseLevel := 0, allocatedMip := 65535,
    maxPages := 0, allocatedPages := 0, pageBytes := 0 }

/-- The handle of `tex4` once its transfer has completed: every mip is populated
(`populatedMip = minMip`), and no demotion has been requested yet. -/
def transferred4 : GL45Texture :=
  { id := 1, external := false, transferrable := true, storageStamp := 1, contentStamp := 1,
    transferCount := 0, syncState := GLSyncState.Transferred, maxMip := 2, minMip := 0,
    virtualSize := 84, size := 84, sparseInfo := notSparse, mipOffset := 0, targetMinMip := 0,
    populatedMip := 0 }

/-- The handle of `tex4` right after `startTransfer`: `populatedMip = maxMip + 1`. -/
def started4 : GL45Texture :=
  { transferred4 with syncState := GLSyncState.Pending, populatedMip := 3 }

/-- The handle of `tex2` right after `startTransfer`: `populatedMip = maxMip + 1`. -/
def started2 : GL45Texture :=
  { id := 1, external := false, transferrable := true, storageStamp := 1, contentStamp := 1,
    transferCount := 0, syncState := GLSyncState.Pending, maxMip := 1, minMip := 0,
    virtualSize := 20, size := 20, sparseInfo := notSparse, mipOffset := 0, targetMinMip := 0,
    populatedMip := 2 }

/-- A backend whose texture 0 is `tex4`, fully transferred. -/
def backendTransferred4 : Backend :=
  { textures := fun _ => tex4, objects := fun _ => transferred4, gl := ⟨2, []⟩ }

/-- A worker whose only texture, number 0, is in the transferred list. -/
def helperTransferred : GLTextureTransferHelper :=
  { pendingTextures := [], transferringTextures := [], transferredTextures := [some 0] }

/-- A backend whose texture 0 is `tex4`, its transfer just started. -/
def backendStarted4 : Backend :=
  { textures := fun _ => tex4, objects := fun _ => started4, gl := ⟨2, []⟩ }

/-- A backend whose texture 0 is `tex2`, its transfer just started. -/
def backendStarted2 : Backend :=
  { textures := fun _ => tex2, objects := fun _ => started2, gl := ⟨2, []⟩ }

/-- A worker whose texture 0 was transferred once and has been submitted again: it is in
the transferred list and in the transferring list. -/
def helperResubmitted : GLTextureTransferHelper :=
  { pendingTextures := [], transferringTextures := [0], transferredTextures := [some 0] }

/-- What a test observes of a run of `recomputeTextureLoad`: nothing when the rounds did
not suffice, the abort when there was one, and otherwise the handle of texture 0, the
device and the lists of the worker. -/
def observe (r : Option (Except Abort (Backend × GLTextureTransferHelper))) :
    Option (Abort ⊕ (GL45Texture × GLContext × GLTextureTransferHelper)) :=
  match r with
  | none => none
  | some (Except.error e) => some (Sum.inl e)
  | some (Except.ok bh) => some (Sum.inr (bh.1.objects 0, bh.1.gl, bh.2))

/-- Two runs of `recomputeTextureLoad` in a row, the second on the state the first one
left. -/
def recomputeTextureLoadTwice (allowedTextureMemory : Nat) (tie : Nat → Nat) (fuel : Nat)
    (b : Backend) (h : GLTextureTransferHelper) :
    Option (Except Abort (Backend × GLTextureTransferHelper)) :=
  match recomputeTextureLoad allowedTextureMemory tie fuel b h with
  | some (Except.ok bh) => recomputeTextureLoad allowedTextureMemory tie fuel bh.1 bh.2
  | r => r

/-- What a test observes of a loop state: the queue, the running total and the handle of
texture 0. -/
def observeState (s : Option SweepState) : Option (List TextureAndSize × Nat × GL45Texture) :=
  s.map fun s => (s.allTextures, s.allTexturesTargetMemory, s.objects 0)

/-- What a test observes of one round of the loop: the abort, or the queue, the running
total and the handle of texture 0 after the round. -/
def observeStep (r : Except Abort SweepState) :
    Abort ⊕ (List TextureAndSize × Nat × GL45Texture) :=
  match r with
  | Except.error e => Sum.inl e
  | Except.ok s => Sum.inr (s.allTextures, s.allTexturesTargetMemory, s.objects 0)

/-- The value of `getTargetGpuSize()` for the handle of a texture, when the call returns
(0 stands in when it does not). -/
def targetSize (b : Backend) (texturePointer : TexturePointer) : Nat :=
  match GL45Texture.getTargetGpuSize (b.textures texturePointer) (b.objects texturePointer) with
  | Except.ok targetMemory => targetMemory
  | Except.error _ => 0

/-- The textures that the queue-building loops of `recomputeTextureLoad` visit, in order:
the transferred ones that are still alive, then the transferring ones. -/
def visitedTextures (h : GLTextureTransferHelper) : List TexturePointer :=
  h.transferredTextures.filterMap id ++ h.transferringTextures

/-- The loop states that the scenario of two handles `x` (16 MB when the queue is built) and
`y` (4 MB) passes through: either both are queued, `x` with the size `r` and the running
total is `r` plus 4 MB in `size_t` arithmetic, or only entries of `y` are queued and `x` is
no longer derezable. -/
def TwoHandleInv (x y : TexturePointer) (s : SweepState) : Prop :=
  (∃ r, (s.allTextures = [⟨x, r⟩, ⟨y, 4194304⟩] ∨ s.allTextures = [⟨y, 4194304⟩, ⟨x, r⟩]) ∧
    s.allTexturesTargetMemory = (r + 4194304) % USIZE ∧ r < USIZE) ∨
  ((∀ e ∈ s.allTextures, e.texture = y) ∧ (s.objects x).derezable = false)

/-- A backend with two fully transferred, derezable handles: texture 0 with a target size
of 16 MB and every other texture with a target size of 4 MB. -/
def backendTwoHandles : Backend :=
  { textures := fun _ => tex4
    objects := fun p =>
      if p = 0 then { transferred4 with virtualSize := 16777216 }
      else { transferred4 with virtualSize := 4194304 }
    gl := ⟨3, []⟩ }

/-- A worker whose transferred list holds the textures 0 and 1. -/
def helperTwoHandles : GLTextureTransferHelper :=
  { pendingTextures := [], transferringTextures := [], transferredTextures := [some 0, some 1] }

/-! ### Creation of handles: `GL45Backend::syncGPUObject` -/

/-- The classes of handle that `GL45Backend::syncGPUObject` constructs. -/
inductive HandleClass where
  | GL45AttachmentTexture
  | GL45StrictResourceTexture
  | GL45ResourceTexture
  | GL45SparseResourceTexture
deriving DecidableEq, Repr

/-- Whether a class derives from `GL45FixedAllocationTexture` (storage for every mip is
allocated in the constructor and never changed) rather than from
`GL45VariableAllocationTexture`. -/
def HandleClass.fixedAllocation : HandleClass → Bool
  | HandleClass.GL45AttachmentTexture => true
  | HandleClass.GL45StrictResourceTexture => true
  | HandleClass.GL45ResourceTexture => false
  | HandleClass.GL45SparseResourceTexture => false

/-- A device handle as an object: its identity and its class. -/
structure Handle where
  object : Nat
  handleClass : HandleClass
deriving DecidableEq, Repr

/-- The association of textures with their handles (`Backend::getGPUObject` and
`Backend::setGPUObject`, which every handle constructor calls), with the supply of object
identities for `new`. -/
structure GPUObjects where
  getGPUObject : TexturePointer → Option Handle
  nextObject : Nat

/-- The expression `new C(shared_from_this(), texture)`: the handle is constructed and
registered as the GPU object of the texture. -/
def GPUObjects.construct (g : GPUObjects) (texturePointer : TexturePointer) (c : HandleClass) :
    GPUObjects × Handle :=
  ({ getGPUObject := Function.update g.getGPUObject texturePointer (some ⟨g.nextObject, c⟩)
     nextObject := g.nextObject + 1 }, ⟨g.nextObject, c⟩)

/-- The function `GL45Texture::isSparseEligible`: after its assertion it returns `false`;
the code below the `return` is never reached. -/
def isSparseEligible (_texture : Texture) : Bool := false

/-- The condition asserted by `GL45Texture::isSparseEligible`. -/
def isSparseEligibleAssert (texture : Texture) : Bool :=
  decide (texture.usageType = TextureUsageType.RESOURCE)

/-- The function `GL45Backend::syncGPUObject`.  A null `texturePointer` is `none`.  The
function `Parent::syncGPUObject`, which handles external textures, is outside the embedded
files and is the parameter `parentSync`; `sparseEnabled` is the value of
`isTextureManagementSparseEnabled()`. -/
def syncGPUObject (sparseEnabled : Bool)
    (parentSync : GPUObjects → TexturePointer → GPUObjects × Option Handle)
    (textures : TexturePointer → Texture) (g : GPUObjects)
    (texturePointer : Option TexturePointer) : GPUObjects × Option Handle :=
  match texturePointer with
  | none => (g, none)
  | some p =>
    let texture := textures p
    if texture.usageType = TextureUsageType.EXTERNAL then parentSync g p
    else if !texture.defined then (g, none)
    else
      match g.getGPUObject p with
      | some object => (g, some object)
      | none =>
        match texture.usageType with
        | TextureUsageType.RENDERBUFFER =>
          ((g.construct p HandleClass.GL45AttachmentTexture).1,
            some (g.construct p HandleClass.GL45AttachmentTexture).2)
        | TextureUsageType.STRICT_RESOURCE =>
          ((g.construct p HandleClass.GL45ResourceTexture).1,
            some (g.construct p HandleClass.GL45ResourceTexture).2)
        | TextureUsageType.RESOURCE =>
          if sparseEnabled && isSparseEligible texture then
            ((g.construct p HandleClass.GL45SparseResourceTexture).1,
              some (g.construct p HandleClass.GL45SparseResourceTexture).2)
          else
            ((g.construct p HandleClass.GL45ResourceTexture).1,
              some (g.construct p HandleClass.GL45ResourceTexture).2)
        | TextureUsageType.EXTERNAL => (g, none)

/-- A parent `syncGPUObject` that returns the handle registered for the texture. -/
def parentReturnsRegistered (g : GPUObjects) (p : TexturePointer) : GPUObjects × Option Handle :=
  (g, g.getGPUObject p)

/-- An external texture, which is not defined. -/
def texExternal : Texture := { tex4 with usageType := TextureUsageType.EXTERNAL, defined := false }

/-- A defined texture of usage `STRICT_RESOURCE`. -/
def texStrict : Texture := { tex4 with usageType := TextureUsageType.STRICT_RESOURCE }

/-- No texture has a handle yet. -/
def noObjects : GPUObjects := { getGPUObject := fun _ => none, nextObject := 1 }

/-- Texture 0 has the handle 7. -/
def oneObject : GPUObjects :=
  { getGPUObject := fun p => if p = 0 then some ⟨7, HandleClass.GL45ResourceTexture⟩ else none
    nextObject := 8 }

/-! ### The allowed texture memory -/

/-- The macro `MB_TO_BYTES`, defined outside the embedded files: `bytesPerMegabyte` bytes for
each megabyte, as a `size_t`. -/
def MB_TO_BYTES (bytesPerMegabyte x : Nat) : Nat := (x * bytesPerMegabyte) % USIZE

/-- The macro `TEXTURE_MEMORY_MIN_BYTES`. -/
def TEXTURE_MEMORY_MIN_BYTES (bytesPerMegabyte : Nat) : Nat := MB_TO_BYTES bytesPerMegabyte 256

/-- The function `GLTexture::getAllowedTextureSize`, where `allowedGPUMemoryUsage` is the
value of `Texture::getAllowedGPUMemoryUsage()`. -/
def getAllowedTextureSize (bytesPerMegabyte allowedGPUMemoryUsage : Nat) : Nat :=
  let availableTextureMemory := allowedGPUMemoryUsage
  if availableTextureMemory = 0 then TEXTURE_MEMORY_MIN_BYTES bytesPerMegabyte
  else availableTextureMemory

/-! ### Incremental transfer of a managed handle -/

/-- The function `SparseInfo::allocateToMip(targetMip)`: the device calls it appends and
the `SparseInfo` it leaves. -/
def allocateToMip (tex : Texture) (gl : GLContext) (t : GL45Texture) (targetMip : Nat) :
    GLContext × SparseInfo :=
  if !t.sparseInfo.sparse then (gl, t.sparseInfo)
  else
    let allocatedMip :=
      if t.sparseInfo.allocatedMip = INVALID_MIP then (t.sparseInfo.maxSparseLevel + 1) % U16
      else t.sparseInfo.allocatedMip
    let s1 : SparseInfo := { t.sparseInfo with allocatedMip := allocatedMip }
    let targetMip1 :=
      if targetMip > s1.maxSparseLevel then s1.maxSparseLevel % U16 else targetMip
    if s1.allocatedMip ≤ targetMip1 then (gl, s1)
    else
      let maxFace := if tex.cube then 6 else 1
      let mips := List.range' targetMip1 (s1.allocatedMip - targetMip1)
      (gl.callAll (mips.map fun mip =>
          GLCall.texturePageCommitment t.id mip (tex.evalMipDimensions mip).x
            (tex.evalMipDimensions mip).y maxFace true),
        { s1 with
          allocatedPages := mips.foldl
            (fun allocatedPages mip =>
              (allocatedPages +
                SparseInfo.getPageCount s1.pageDimensions (tex.evalMipDimensions mip)) % U32)
            s1.allocatedPages
          allocatedMip := targetMip1 })

/-- The loop `while (targetMip > 0 && !isStoredMipFaceAvailable(targetMip)) --targetMip` of
`continueTransfer`. -/
def skipUnavailable (tex : Texture) : Nat → Nat
  | 0 => 0
  | targetMip + 1 =>
    if !tex.isStoredMipFaceAvailable (targetMip + 1) 0 then skipUnavailable tex targetMip
    else targetMip + 1

/-- The upload calls of the face loop of `continueTransfer`: the loop leaves with `break`
after the first face whose stored data is available. -/
def continueTransferUploads (tex : Texture) (id targetMip : Nat) : List GLCall :=
  match (List.range (if tex.cube then 6 else 1)).find?
      (fun face => tex.isStoredMipFaceAvailable targetMip face) with
  | some face =>
    [GLCall.textureSubImage id targetMip face (tex.evalMipDimensions targetMip).x
      (tex.evalMipDimensions targetMip).y]
  | none => []

namespace GL45Texture

/-- The function `GL45Texture::continueTransfer`: the device, the handle and the value
returned. -/
def continueTransfer (tex : Texture) (gl : GLContext) (t : GL45Texture) :
    GLContext × GL45Texture × Bool :=
  if t.populatedMip = t.minMip then (gl, t, false)
  else
    let targetMip := skipUnavailable tex (sub16 t.populatedMip 1)
    let allocated := allocateToMip tex gl t targetMip
    let gl2 := allocated.1.callAll (continueTransferUploads tex t.id targetMip)
    let t2 : GL45Texture := { t with sparseInfo := allocated.2, populatedMip := targetMip }
    (gl2, t2, decide (t2.populatedMip ≠ t2.minMip))

/-- The function `SparseInfo::update`, where `numSparseLevels` is the value that the device
reports for `GL_NUM_SPARSE_LEVELS_ARB`.  The counter of its loop is a `uint16`. -/
def sparseInfoUpdate (tex : Texture) (numSparseLevels : Nat) (s : SparseInfo) :
    Except Abort SparseInfo :=
  if !s.sparse then Except.ok s
  else
    let maxSparseLevel := numSparseLevels % U32
    if 65535 ≤ maxSparseLevel then Except.error Abort.hang
    else
      let maxPages := (List.range (maxSparseLevel + 1)).foldl
        (fun maxPages mipLevel =>
          (maxPages + SparseInfo.getPageCount s.pageDimensions
            (tex.evalMipDimensions mipLevel)) % U32)
        s.maxPages
      Except.ok
        { s with maxSparseLevel := maxSparseLevel
                 maxPages := if tex.cube then (maxPages * 6) % U32 else maxPages }

/-- The function `GL45Texture::startTransfer`.  `Parent::startTransfer` runs the virtual
`allocateStorage() const`, whose override is outside the embedded files: being `const` it
leaves the handle as it is, and its effect on the device (or its abort) is the parameter
`allocateStorage`. -/
def startTransfer (allocateStorage : Texture → GLContext → GL45Texture → Except Abort GLContext)
    (numSparseLevels : Nat) (tex : Texture) (gl : GLContext) (t : GL45Texture) :
    Except Abort (GLContext × GL45Texture) :=
  match allocateStorage tex gl t with
  | Except.error e => Except.error e
  | Except.ok gl1 =>
    match sparseInfoUpdate tex numSparseLevels t.sparseInfo with
    | Except.error e => Except.error e
    | Except.ok s1 =>
      Except.ok (gl1, { t with sparseInfo := s1, populatedMip := add16 t.maxMip 1 })

/-- The function `GL45Texture::finishTransfer`: `GLTexture::finishTransfer` generates the
mips when the texture asks for it. -/
def finishTransfer (tex : Texture) (gl : GLContext) (t : GL45Texture) : GLContext :=
  if tex.isAutogenerateMips then gl.call (GLCall.generateTextureMipmap t.id) else gl

/-- The value of `allocatedPages` when the destructor `~GL45Texture` of a sparse handle has
decommitted its mips, or the abort when the `uint16` counter of the loop cannot pass its
bound; `none` stands for a handle that is not sparse, for which the destructor does
nothing. -/
def destroyPages (tex : Texture) (t : GL45Texture) : Except Abort (Option Nat) :=
  if !t.sparseInfo.sparse then Except.ok none
  else
    let maxFace := if tex.cube then 6 else 1
    let maxSparseMip := min (t.maxMip % U16) (t.sparseInfo.maxSparseLevel % U16)
    if maxSparseMip = 65535 then Except.error Abort.hang
    else
      Except.ok (some
        ((List.range' t.minMip (maxSparseMip + 1 - t.minMip)).foldl
          (fun allocatedPages mipLevel =>
            let deallocatedPages :=
              (SparseInfo.getPageCount t.sparseInfo.pageDimensions
                (tex.evalMipDimensions mipLevel) * maxFace) % U32
            (allocatedPages + U32 - deallocatedPages) % U32)
          t.sparseInfo.allocatedPages))

/-- The condition that the destructor asserts before each subtraction, for the first mip
it decommits. -/
def destroyAssertFirst (tex : Texture) (t : GL45Texture) : Bool :=
  decide ((SparseInfo.getPageCount t.sparseInfo.pageDimensions
    (tex.evalMipDimensions t.minMip) * (if tex.cube then 6 else 1)) % U32 ≤
      t.sparseInfo.allocatedPages)

end GL45Texture

/-- A 4 x 4 cube map with three mips, every face of every mip stored. -/
def texCube4 : Texture := { tex4 with cube := true }

/-- A 4 x 4 texture with three mips of which mip 1 is not stored, and whose `minMip()` is 1. -/
def texGap : Texture :=
  { tex4 with minMip := 1
              isStoredMipFaceAvailable := fun mip _ => decide (mip = 0 ∨ mip = 2) }

/-- The handle of `texGap` right after `startTransfer`. -/
def startedGap : GL45Texture := { started4 with minMip := 1, targetMinMip := 1 }

/-- The `SparseInfo` of a sparse handle with pages of 2 x 2 x 1 texels, all three mips
sparse, nothing committed yet. -/
def sparse2x2 : SparseInfo :=
  { sparse := true, pageDimensions := ⟨2, 2, 1⟩, maxSparseLevel := 2, allocatedMip := 65535,
    maxPages := 0, allocatedPages := 0, pageBytes := 16 }

/-- A sparse handle right after `startTransfer`. -/
def startedSparse : GL45Texture := { started4 with sparseInfo := sparse2x2 }

/-- The handle after `n` calls of `continueTransfer`, the device being left aside. -/
def continueTransferTimes (tex : Texture) : Nat → GL45Texture → GL45Texture
  | 0, t => t
  | n + 1, t => continueTransferTimes tex n (GL45Texture.continueTransfer tex ⟨1, []⟩ t).2.1

/-- The sum of the byte sizes of the mips from `allocatedFloor` through the last mip of the
texture: what the recorded size of a handle allocated from `allocatedFloor` is compared
with. -/
def residentBytes (tex : Texture) (allocatedFloor : Nat) : Nat :=
  ((List.range' allocatedFloor (tex.evalNumMips - allocatedFloor)).map tex.evalMipSize).sum

/-! ### The worker loop: `transferTexture`, `process` and `postTransfer` -/

/-- The macro `MAX_TRANSFERS_PER_PASS`. -/
def MAX_TRANSFERS_PER_PASS : Nat := 2

/-- The worker with the objects it reaches and the global count of textures whose transfer
is owed (`Backend::incrementTextureGPUTransferCount` / `decrement...`, a 32-bit counter). -/
structure TransferState where
  backend : Backend
  helper : GLTextureTransferHelper
  textureGPUTransferCount : Nat

/-- The function `GLTextureTransferHelper::transferTexture`. -/
def transferTexture (s : TransferState) (texturePointer : TexturePointer) : TransferState :=
  { backend :=
      { s.backend with
        objects := Function.update s.backend.objects texturePointer
          { s.backend.objects texturePointer with syncState := GLSyncState.Pending } }
    helper := { s.helper with pendingTextures := s.helper.pendingTextures ++ [texturePointer] }
    textureGPUTransferCount := (s.textureGPUTransferCount + 1) % U32 }

/-- The function `GLTexture::postTransfer`, on the handle of a texture: the state becomes
`Idle` and `_transferCount` is incremented; the notifications to the texture that follow are
not part of the handle. -/
def postTransfer (s : TransferState) (texturePointer : TexturePointer) : TransferState :=
  { s with
    backend :=
      { s.backend with
        objects := Function.update s.backend.objects texturePointer
          { s.backend.objects texturePointer with
            syncState := GLSyncState.Idle
            transferCount := (s.backend.objects texturePointer).transferCount + 1 } } }

/-- What one round of the servicing loop of `process` leaves: the objects, the global
count, the transferred list, and whether the entry stays in the transferring list. -/
structure Serviced where
  backend : Backend
  textureGPUTransferCount : Nat
  transferredTextures : List TextureWeakPointer
  stays : Bool

/-- One round of the servicing loop of `process` on the entry `texture`, after the test of
`transferCount`: one call of `continueTransfer`, and when it returns false the handle is
finished, stamped, sized, marked `Transferred`, counted down and appended to the transferred
list. -/
def serviceEntry (b : Backend) (count : Nat) (transferred : List TextureWeakPointer)
    (texture : TexturePointer) : Except Abort Serviced :=
  let r := GL45Texture.continueTransfer (b.textures texture) b.gl (b.objects texture)
  if r.2.2 then
    Except.ok
      { backend := { b with objects := Function.update b.objects texture r.2.1, gl := r.1 }
        textureGPUTransferCount := count
        transferredTextures := transferred
        stays := true }
  else
    let gl2 := GL45Texture.finishTransfer (b.textures texture) r.1 r.2.1
    let stamped : GL45Texture := { r.2.1 with contentStamp := (b.textures texture).dataStamp }
    match GL45Texture.updateSize (b.textures texture) stamped with
    | Except.error e => Except.error e
    | Except.ok sized =>
      Except.ok
        { backend :=
            { b with
              objects := Function.update b.objects texture
                { sized with syncState := GLSyncState.Transferred }
              gl := gl2 }
          textureGPUTransferCount := (count + U32 - 1) % U32
          transferredTextures := transferred ++ [some texture]
          stays := false }

/-- The servicing loop of `process` from the iterator position on: `transferCount` rounds
have been made, `rest` are the entries from the iterator to the end of the transferring list.
The result carries the entries that are left of `rest`. -/
def serviceLoop : Nat → Backend → Nat → List TextureWeakPointer → List TexturePointer →
    Except Abort (Serviced × List TexturePointer)
  | _, b, count, transferred, [] =>
    Except.ok (⟨b, count, transferred, true⟩, [])
  | transferCount, b, count, transferred, texture :: rest =>
    if transferCount + 1 > MAX_TRANSFERS_PER_PASS then
      Except.ok (⟨b, count, transferred, true⟩, texture :: rest)
    else
      match serviceEntry b count transferred texture with
      | Except.error e => Except.error e
      | Except.ok r =>
        match serviceLoop (transferCount + 1) r.backend r.textureGPUTransferCount
            r.transferredTextures rest with
        | Except.error e => Except.error e
        | Except.ok done =>
          Except.ok (done.1, if r.stays then texture :: done.2 else done.2)

/-- The loop of `process` over the new textures: `startTransfer` on each handle. -/
def startTransfers
    (allocateStorage : Texture → GLContext → GL45Texture → Except Abort GLContext)
    (numSparseLevels : Nat) : Backend → List TexturePointer → Except Abort Backend
  | b, [] => Except.ok b
  | b, texturePointer :: rest =>
    match GL45Texture.startTransfer allocateStorage numSparseLevels (b.textures texturePointer)
        b.gl (b.objects texturePointer) with
    | Except.error e => Except.error e
    | Except.ok r =>
      startTransfers allocateStorage numSparseLevels
        { b with objects := Function.update b.objects texturePointer r.2, gl := r.1 } rest

/-- The function `GLTextureTransferHelper::process`, with an empty queue of commands.
`none` when the rounds given to the eviction sweep did not suffice. -/
def process (allocateStorage : Texture → GLContext → GL45Texture → Except Abort GLContext)
    (numSparseLevels allowedTextureMemory : Nat) (tie : Nat → Nat) (fuel : Nat)
    (s : TransferState) : Option (Except Abort TransferState) :=
  let newTransferTextures := s.helper.pendingTextures
  let h0 : GLTextureTransferHelper := { s.helper with pendingTextures := [] }
  let started : Option (Except Abort (Backend × GLTextureTransferHelper)) :=
    if newTransferTextures.isEmpty then some (Except.ok (s.backend, h0))
    else
      match startTransfers allocateStorage numSparseLevels s.backend newTransferTextures with
      | Except.error e => some (Except.error e)
      | Except.ok b1 =>
        recomputeTextureLoad allowedTextureMemory tie fuel b1
          { h0 with transferringTextures := h0.transferringTextures ++ newTransferTextures }
  match started with
  | none => none
  | some (Except.error e) => some (Except.error e)
  | some (Except.ok bh) =>
    match serviceLoop 0 bh.1 s.textureGPUTransferCount bh.2.transferredTextures
        bh.2.transferringTextures with
    | Except.error e => some (Except.error e)
    | Except.ok done =>
      some (Except.ok
        { backend := done.1.backend
          helper :=
            { pendingTextures := bh.2.pendingTextures
              transferringTextures := done.2
              transferredTextures := done.1.transferredTextures }
          textureGPUTransferCount := done.1.textureGPUTransferCount })

/-- A model of `allocateStorage` that makes no device call. -/
def allocateNothing (_tex : Texture) (gl : GLContext) (_t : GL45Texture) : Except Abort GLContext :=
  Except.ok gl

/-- A worker with nothing queued, whose texture 0 is the 4 x 4 texture with an idle
handle. -/
def idleWorker : TransferState :=
  { backend :=
      { textures := fun _ => tex4
        objects := fun _ => { transferred4 with syncState := GLSyncState.Idle }
        gl := ⟨2, []⟩ }
    helper := { pendingTextures := [], transferringTextures := [], transferredTextures := [] }
    textureGPUTransferCount := 0 }

/-- What a test observes of a run of `process`: the handle of texture 0, the lists and the
global count. -/
def observeProcess (r : Option (Except Abort TransferState)) :
    Option (GL45Texture × GLTextureTransferHelper × Nat) :=
  match r with
  | some (Except.ok s) => some (s.backend.objects 0, s.helper, s.textureGPUTransferCount)
  | _ => none

/-! ### What the eviction sweep preserves -/

/-- The bound `maxMinMip` that `derezable` compares `_targetMinMip` with: the last sparse
level of a sparse handle, `_maxMip` of a dense one. -/
def GL45Texture.maxMinMip (t : GL45Texture) : Nat :=
  if t.sparseInfo.sparse then t.sparseInfo.maxSparseLevel else t.maxMip

/-- The fields of a handle that no demotion step writes have the same values in `r` as
in `t`. -/
def sameIdentity (t r : GL45Texture) : Prop :=
  r.syncState = t.syncState ∧ r.external = t.external ∧ r.transferrable = t.transferrable ∧
  r.sparseInfo.sparse = t.sparseInfo.sparse ∧
  r.sparseInfo.maxSparseLevel = t.sparseInfo.maxSparseLevel ∧ r.virtualSize = t.virtualSize

/-- A handle of a texture whose format `updateSize` supports, with `_maxMip` a `uint16`
value and, when it is sparse, a last sparse level that the 16-bit loop counters of
`getTargetGpuSize` can pass. -/
def Supported (tex : Texture) (t : GL45Texture) : Prop :=
  tex.isCompressed = false ∧ t.maxMip < U16 ∧
  (t.sparseInfo.sparse = true → t.sparseInfo.maxSparseLevel < 65535)

/-- The number of demotion steps after which a handle stops being derezable. -/
def stepsLeft (t : GL45Texture) : Nat := t.maxMinMip - t.targetMinMip

/-- The loop states of a sweep in which no texture has two entries in the queue: every
entry is of a visited texture whose handle is derezable, and every visited handle is
supported and, when it is derezable, has its entry. -/
def SweepInv (textures : TexturePointer → Texture) (visited : List TexturePointer)
    (s : SweepState) : Prop :=
  (s.allTextures.map fun e => e.texture).Nodup ∧
  (∀ e ∈ s.allTextures, e.texture ∈ visited ∧ (s.objects e.texture).derezable = true) ∧
  (∀ p ∈ visited, Supported (textures p) (s.objects p)) ∧
  ∀ p ∈ visited, (s.objects p).derezable = true → ∃ e ∈ s.allTextures, e.texture = p

/-- The number of demotion steps that the handles of the visited textures have left. -/
def sweepMeasure (objects : TexturePointer → GL45Texture) (visited : List TexturePointer) : Nat :=
  (visited.map fun p => stepsLeft (objects p)).sum

/-! ### The handles that the worker has queued -/

/-- The textures in the pending queue or in the transferring list. -/
def queuedTextures (s : TransferState) : List TexturePointer :=
  s.helper.pendingTextures ++ s.helper.transferringTextures

/-- No texture is queued twice, and every queued handle has the sync state `Pending`. -/
def QueuedPending (s : TransferState) : Prop :=
  (queuedTextures s).Nodup ∧
  ∀ p ∈ queuedTextures s, (s.backend.objects p).syncState = GLSyncState.Pending

/-- A worker with nothing queued, whose texture 0 is the 2 x 2 texture with an idle handle
whose two mips are populated. -/
def idleWorker2 : TransferState :=
  { backend :=
      { textures := fun _ => tex2
        objects := fun _ => { started2 with syncState := GLSyncState.Idle, populatedMip := 0 }
        gl := ⟨2, []⟩ }
    helper := { pendingTextures := [], transferringTextures := [], transferredTextures := [] }
    textureGPUTransferCount := 0 }

/-- The loop states of a sweep over dense handles in which the recorded sizes bound what a
round can free, whether or not a texture has several entries in the queue: the queue is no
longer than the list of visited textures; every entry is of a visited texture with a dense
handle whose `_maxMip` is a mip of the texture, whose `targetMinMip` is so far below 65535
that the rounds still to come cannot wrap it, and records at least the bytes of the mips
from `targetMinMip` (or from the last mip, once `targetMinMip` has passed it) on; and the
running total is a `size_t` value that is at least the sum of the recorded sizes. -/
def SizeInv (textures : TexturePointer → Texture) (visited : List TexturePointer)
    (s : SweepState) : Prop :=
  s.allTextures.length ≤ visited.length ∧
  (∀ e ∈ s.allTextures, e.texture ∈ visited ∧
    (s.objects e.texture).sparseInfo.sparse = false ∧
    (s.objects e.texture).maxMip < (textures e.texture).evalNumMips ∧
    (s.objects e.texture).targetMinMip + s.allTextures.length + 1 ≤
      (textures e.texture).evalNumMips + visited.length ∧
    residentBytes (textures e.texture)
      (min (s.objects e.texture).targetMinMip ((textures e.texture).evalNumMips - 1)) ≤
        e.size) ∧
  (s.allTextures.map fun e => e.size).sum ≤ s.allTexturesTargetMemory ∧
  s.allTexturesTargetMemory < USIZE

/-- A worker that has texture 0 in the transferred list and twice in the transferring list:
the sweep visits it three times. -/
def helperThrice : GLTextureTransferHelper :=
  { pendingTextures := [], transferringTextures := [0, 0], transferredTextures := [some 0] }

end gl45

/-! ## Definitions end here; lemmas and theorems follow -/

/-! ### Arithmetic on `uint16` values -/

theorem sub16_of_le {a b : Nat} (hb : b ≤ a) (ha : a < U16) : sub16 a b = a - b := by
  unfold sub16 U16 at *
  have hb' : b % 65536 = b := Nat.mod_eq_of_lt (by omega)
  rw [hb']
  omega

theorem mod16_of_lt {a : Nat} (ha : a < U16) : a % U16 = a := Nat.mod_eq_of_lt ha

namespace gl45

open gl

namespace GL45ResourceTexture

/-! ### Field projections of `promote` and `demote` -/

theorem promoteReallocate_snd (tex : Texture) (gl : GLContext) (t : GL45ResourceTexture) :
    (promoteReallocate tex gl t).2 =
      { t with id := gl.nextName
               allocatedMip := (t.allocatedMip - min t.allocatedMip 2) % U16 } := rfl

theorem promote_snd (tex : Texture) (gl : GLContext) (t : GL45ResourceTexture) :
    (promote tex gl t).2 =
      if t.populatedMip = t.allocatedMip then
        { id := gl.nextName, allocatedMip := (t.allocatedMip - min t.allocatedMip 2) % U16,
          populatedMip := sub16 t.populatedMip 1, maxAllocatedMip := t.maxAllocatedMip,
          size := t.size }
      else { t with populatedMip := sub16 t.populatedMip 1 } := by
  by_cases h : t.populatedMip = t.allocatedMip
  · rw [if_pos h]
    show ({ (if t.populatedMip = t.allocatedMip then promoteReallocate tex gl t
      else (gl, t)).2 with populatedMip := _ } : GL45ResourceTexture) = _
    rw [if_pos h]
    rfl
  · rw [if_neg h]
    show ({ (if t.populatedMip = t.allocatedMip then promoteReallocate tex gl t
      else (gl, t)).2 with populatedMip := _ } : GL45ResourceTexture) = _
    rw [if_neg h]

theorem promote_populatedMip (tex : Texture) (gl : GLContext) (t : GL45ResourceTexture) :
    (promote tex gl t).2.populatedMip = sub16 t.populatedMip 1 := by
  rw [promote_snd]
  split <;> rfl

theorem promote_allocatedMip (tex : Texture) (gl : GLContext) (t : GL45ResourceTexture) :
    (promote tex gl t).2.allocatedMip =
      if t.populatedMip = t.allocatedMip then (t.allocatedMip - min t.allocatedMip 2) % U16
      else t.allocatedMip := by
  rw [promote_snd]
  split <;> rfl

theorem promote_maxAllocatedMip (tex : Texture) (gl : GLContext) (t : GL45ResourceTexture) :
    (promote tex gl t).2.maxAllocatedMip = t.maxAllocatedMip := by
  rw [promote_snd]
  split <;> rfl

theorem promote_id (tex : Texture) (gl : GLContext) (t : GL45ResourceTexture) :
    (promote tex gl t).2.id = if t.populatedMip = t.allocatedMip then gl.nextName else t.id := by
  rw [promote_snd]
  split <;> rfl

theorem demote_snd (tex : Texture) (gl : GLContext) (t : GL45ResourceTexture) :
    (demote tex gl t).2 =
      { id := gl.nextName, allocatedMip := (t.allocatedMip + 1) % U16,
        populatedMip := max t.populatedMip ((t.allocatedMip + 1) % U16),
        maxAllocatedMip := t.maxAllocatedMip, size := t.size } := rfl

theorem demote_allocatedMip (tex : Texture) (gl : GLContext) (t : GL45ResourceTexture) :
    (demote tex gl t).2.allocatedMip = (t.allocatedMip + 1) % U16 := rfl

theorem demote_populatedMip (tex : Texture) (gl : GLContext) (t : GL45ResourceTexture) :
    (demote tex gl t).2.populatedMip = max t.populatedMip ((t.allocatedMip + 1) % U16) := rfl

theorem demote_maxAllocatedMip (tex : Texture) (gl : GLContext) (t : GL45ResourceTexture) :
    (demote tex gl t).2.maxAllocatedMip = t.maxAllocatedMip := rfl

theorem promote_preserves (tex : Texture) (gl : GLContext) (t : GL45ResourceTexture)
    (hr : InRange t) (hinv : MipsOrdered t) (hp : 0 < t.populatedMip) :
    MipsOrdered (promote tex gl t).2 ∧ InRange (promote tex gl t).2 := by
  obtain ⟨h1, h2, h3⟩ := hr
  obtain ⟨h4, h5⟩ := hinv
  have e2 : (t.allocatedMip - min t.allocatedMip 2) % U16 = t.allocatedMip - min t.allocatedMip 2 :=
    mod16_of_lt (by unfold U16 at *; omega)
  have e3 : sub16 t.populatedMip 1 = t.populatedMip - 1 := sub16_of_le hp h2
  unfold MipsOrdered InRange
  rw [promote_populatedMip, promote_allocatedMip, promote_maxAllocatedMip, e2, e3]
  by_cases h : t.populatedMip = t.allocatedMip
  · rw [if_pos h]
    unfold U16 at *
    omega
  · rw [if_neg h]
    unfold U16 at *
    omega

theorem demote_preserves (tex : Texture) (gl : GLContext) (t : GL45ResourceTexture)
    (hr : InRange t) (hinv : MipsOrdered t) (hd : t.allocatedMip < t.maxAllocatedMip) :
    MipsOrdered (demote tex gl t).2 ∧ InRange (demote tex gl t).2 := by
  obtain ⟨h1, h2, h3⟩ := hr
  obtain ⟨h4, h5⟩ := hinv
  have e1 : (t.allocatedMip + 1) % U16 = t.allocatedMip + 1 :=
    mod16_of_lt (by unfold U16 at *; omega)
  unfold MipsOrdered InRange
  rw [demote_populatedMip, demote_allocatedMip, demote_maxAllocatedMip, e1]
  unfold U16 at *
  omega

theorem initialMip_lt (tex : Texture) (mip : Nat) (h : initialMip tex = some mip) :
    mip < tex.evalNumMips := by
  have := List.mem_of_find?_eq_some h
  simpa using this

theorem create_fields (tex : Texture) (gl : GLContext) (p0 m0 s0 : Nat) :
    (create tex gl p0 m0 s0).2.populatedMip = (match initialMip tex with | some mip => mip | none => p0) ∧
    (create tex gl p0 m0 s0).2.maxAllocatedMip =
      (match initialMip tex with | some mip => mip | none => m0) ∧
    (create tex gl p0 m0 s0).2.allocatedMip =
      ((match initialMip tex with | some mip => mip | none => p0) -
        min (match initialMip tex with | some mip => mip | none => p0) 2) % U16 := by
  unfold create allocateStorage
  cases initialMip tex <;> exact ⟨rfl, rfl, rfl⟩

/-! ### The claims about the dense variable handle -/

/-- C1: for a `GL45ResourceTexture`, `allocatedMip ≤ populatedMip ≤ maxAllocatedMip`
holds after construction, every `promote()` called with `populatedMip > 0` preserves it
and every `demote()` called with `allocatedMip < maxAllocatedMip` preserves it.  The
constructor part needs that its search loop finds a mip or that the declared initial
values of `_populatedMip` and `_maxAllocatedMip` are ordered. -/
theorem C1_mips_ordered_invariant (tex : Texture) (gl : GLContext)
    (populatedMip0 maxAllocatedMip0 size0 : Nat)
    (hn : tex.evalNumMips < U16) (h0 : populatedMip0 < U16) (h1 : maxAllocatedMip0 < U16)
    (hdecl : (initialMip tex).isSome = true ∨ populatedMip0 ≤ maxAllocatedMip0) :
    (MipsOrdered (create tex gl populatedMip0 maxAllocatedMip0 size0).2 ∧
      InRange (create tex gl populatedMip0 maxAllocatedMip0 size0).2) ∧
    (∀ (gl1 : GLContext) (t : GL45ResourceTexture), InRange t → MipsOrdered t →
      0 < t.populatedMip →
      MipsOrdered (promote tex gl1 t).2 ∧ InRange (promote tex gl1 t).2) ∧
    (∀ (gl1 : GLContext) (t : GL45ResourceTexture), InRange t → MipsOrdered t →
      t.allocatedMip < t.maxAllocatedMip →
      MipsOrdered (demote tex gl1 t).2 ∧ InRange (demote tex gl1 t).2) := by
  refine ⟨?_, fun gl1 t hr hi hp => promote_preserves tex gl1 t hr hi hp,
    fun gl1 t hr hi hd => demote_preserves tex gl1 t hr hi hd⟩
  obtain ⟨e1, e2, e3⟩ := create_fields tex gl populatedMip0 maxAllocatedMip0 size0
  unfold MipsOrdered InRange
  rw [e1, e2, e3]
  cases hi : initialMip tex with
  | none =>
    simp [hi] at hdecl
    simp only
    have e : (populatedMip0 - min populatedMip0 2) % U16 = populatedMip0 - min populatedMip0 2 :=
      mod16_of_lt (by omega)
    rw [e]
    omega
  | some mip =>
    have hlt := initialMip_lt tex mip hi
    simp only
    have e : (mip - min mip 2) % U16 = mip - min mip 2 := mod16_of_lt (by omega)
    rw [e]
    omega

/-- Witness of C1: the 256 x 256 texture, whose constructor finds mip 2. -/
theorem C1_mips_ordered_invariant_witness :
    (tex256.evalNumMips < U16 ∧ (0 : Nat) < U16 ∧
      ((initialMip tex256).isSome = true ∨ (0 : Nat) ≤ 0)) ∧
    ((MipsOrdered (create tex256 gl0 0 0 349524).2 ∧ InRange (create tex256 gl0 0 0 349524).2) ∧
    (∀ (gl1 : GLContext) (t : GL45ResourceTexture), InRange t → MipsOrdered t →
      0 < t.populatedMip →
      MipsOrdered (promote tex256 gl1 t).2 ∧ InRange (promote tex256 gl1 t).2) ∧
    (∀ (gl1 : GLContext) (t : GL45ResourceTexture), InRange t → MipsOrdered t →
      t.allocatedMip < t.maxAllocatedMip →
      MipsOrdered (demote tex256 gl1 t).2 ∧ InRange (demote tex256 gl1 t).2)) :=
  ⟨⟨by decide, by decide, Or.inl (by decide)⟩,
    C1_mips_ordered_invariant tex256 gl0 0 0 349524 (by decide) (by decide) (by decide)
      (Or.inl (by decide))⟩

/-- C3 fails: on the handle the constructor builds for a 256 x 256 texture both calls
are permitted, yet `promote()` then `demote()` leaves `populatedMip` at 1 instead of 2,
and so does `demote()` then `promote()`. -/
theorem C3_roundtrip_counterexample :
    (create tex256 gl0 0 0 349524).2 = fresh256 ∧
    MipsOrdered fresh256 ∧ promoteAssert fresh256 = true ∧ demoteAssert fresh256 = true ∧
    demoteAssert (promote tex256 gl0 fresh256).2 = true ∧
    promoteAssert (demote tex256 gl0 fresh256).2 = true ∧
    fresh256.populatedMip = 2 ∧
    (demote tex256 (promote tex256 gl0 fresh256).1 (promote tex256 gl0 fresh256).2).2.populatedMip
      = 1 ∧
    (promote tex256 (demote tex256 gl0 fresh256).1 (demote tex256 gl0 fresh256).2).2.populatedMip
      = 1 := by
  decide

/-- C3 amended: from a state with `allocatedMip ≤ populatedMip ≤ maxAllocatedMip` in which
both calls are permitted, the second call of either pair is permitted too;
`promote()` then `demote()` restores `populatedMip` exactly when it was
`allocatedMip + 1` or when `populatedMip = allocatedMip = 1`; `demote()` then `promote()`
restores it exactly when `populatedMip = allocatedMip`; in every other case the pair leaves
`populatedMip` one lower than before. -/
theorem C3_roundtrip_amended (tex : Texture) (gl gl1 : GLContext) (t : GL45ResourceTexture)
    (hr : InRange t) (hinv : MipsOrdered t) (hp : 0 < t.populatedMip)
    (hd : t.allocatedMip < t.maxAllocatedMip) :
    (demoteAssert (promote tex gl t).2 = true ∧ promoteAssert (demote tex gl t).2 = true) ∧
    (((demote tex gl1 (promote tex gl t).2).2.populatedMip = t.populatedMip ↔
        (t.populatedMip = t.allocatedMip + 1 ∨ (t.populatedMip = 1 ∧ t.allocatedMip = 1))) ∧
      ((promote tex gl1 (demote tex gl t).2).2.populatedMip = t.populatedMip ↔
        t.populatedMip = t.allocatedMip)) ∧
    ((demote tex gl1 (promote tex gl t).2).2.populatedMip = t.populatedMip ∨
      (demote tex gl1 (promote tex gl t).2).2.populatedMip + 1 = t.populatedMip) ∧
    ((promote tex gl1 (demote tex gl t).2).2.populatedMip = t.populatedMip ∨
      (promote tex gl1 (demote tex gl t).2).2.populatedMip + 1 = t.populatedMip) := by
  obtain ⟨h1, h2, h3⟩ := hr
  obtain ⟨h4, h5⟩ := hinv
  have e1 : (t.allocatedMip + 1) % U16 = t.allocatedMip + 1 :=
    mod16_of_lt (by unfold U16 at *; omega)
  have e2 : (t.allocatedMip - min t.allocatedMip 2) % U16 = t.allocatedMip - min t.allocatedMip 2 :=
    mod16_of_lt (by unfold U16 at *; omega)
  have e3 : sub16 t.populatedMip 1 = t.populatedMip - 1 := sub16_of_le hp h2
  have e4 : sub16 (max t.populatedMip (t.allocatedMip + 1)) 1 =
      max t.populatedMip (t.allocatedMip + 1) - 1 :=
    sub16_of_le (by omega) (by unfold U16 at *; omega)
  have e5 : (t.allocatedMip - min t.allocatedMip 2 + 1) % U16 =
      t.allocatedMip - min t.allocatedMip 2 + 1 :=
    mod16_of_lt (by unfold U16 at *; omega)
  unfold demoteAssert promoteAssert
  simp only [promote_populatedMip, promote_allocatedMip, promote_maxAllocatedMip,
    demote_populatedMip, demote_allocatedMip, e1, e2, e3, e4, decide_eq_true_eq]
  by_cases h : t.populatedMip = t.allocatedMip
  · rw [if_pos h, e5]
    refine ⟨⟨?_, ?_⟩, ⟨?_, ?_⟩, ?_, ?_⟩ <;> omega
  · rw [if_neg h, e1]
    refine ⟨⟨?_, ?_⟩, ⟨?_, ?_⟩, ?_, ?_⟩ <;> omega

/-- Witness of the amended C3: a handle with `populatedMip = allocatedMip + 1`, on which
`promote()` then `demote()` does restore `populatedMip` and the other order does not. -/
theorem C3_roundtrip_amended_witness :
    (InRange (⟨1, 1, 2, 2, 0⟩ : GL45ResourceTexture) ∧
      MipsOrdered (⟨1, 1, 2, 2, 0⟩ : GL45ResourceTexture)) ∧
    (demote tex256 gl0 (promote tex256 gl0 ⟨1, 1, 2, 2, 0⟩).2).2.populatedMip = 2 ∧
    (promote tex256 gl0 (demote tex256 gl0 ⟨1, 1, 2, 2, 0⟩).2).2.populatedMip = 1 := by
  have h := C3_roundtrip_amended tex256 gl0 gl0 ⟨1, 1, 2, 2, 0⟩ (by decide) (by decide)
    (by decide) (by decide)
  refine ⟨⟨by decide, by decide⟩, ?_, ?_⟩
  · exact h.2.1.1.mpr (Or.inl rfl)
  · rcases h.2.2.2 with h' | h'
    · exact absurd (h.2.1.2.mp h') (by decide)
    · exact Nat.succ.inj h'

/-- C9: with `populatedMip > 0`, `promote()` lowers `populatedMip` by exactly one;
`allocatedMip` changes exactly when `populatedMip` equalled `allocatedMip` before the call,
and otherwise `allocatedMip` and the device object are unchanged: no object is created,
sized, copied or deleted, the only device calls are the uploads of the new mip into the
existing object. -/
theorem C9_promote_step (tex : Texture) (gl : GLContext) (t : GL45ResourceTexture)
    (hr : InRange t) (hp : 0 < t.populatedMip) :
    (promote tex gl t).2.populatedMip + 1 = t.populatedMip ∧
    ((promote tex gl t).2.allocatedMip ≠ t.allocatedMip ↔ t.populatedMip = t.allocatedMip) ∧
    (t.populatedMip ≠ t.allocatedMip →
      (promote tex gl t).2.allocatedMip = t.allocatedMip ∧
      (promote tex gl t).2.id = t.id ∧
      (promote tex gl t).1.nextName = gl.nextName ∧
      (promote tex gl t).1.calls = gl.calls ++
        copyMipFromTextureCalls tex t.id (t.populatedMip - 1)
          (sub16 (t.populatedMip - 1) t.allocatedMip)) := by
  obtain ⟨h1, h2, h3⟩ := hr
  have e2 : (t.allocatedMip - min t.allocatedMip 2) % U16 = t.allocatedMip - min t.allocatedMip 2 :=
    mod16_of_lt (by unfold U16 at *; omega)
  have e3 : sub16 t.populatedMip 1 = t.populatedMip - 1 := sub16_of_le hp h2
  refine ⟨?_, ?_, ?_⟩
  · rw [promote_populatedMip, e3]
    omega
  · rw [promote_allocatedMip, e2]
    by_cases h : t.populatedMip = t.allocatedMip
    · rw [if_pos h]
      simp only [h, iff_true]
      omega
    · rw [if_neg h]
      simp [h]
  · intro h
    rw [promote_allocatedMip, promote_id, if_neg h, if_neg h]
    refine ⟨rfl, rfl, ?_, ?_⟩
    · show (copyMipFromTexture tex (if t.populatedMip = t.allocatedMip then
        promoteReallocate tex gl t else (gl, t)).1 _ _ _).nextName = _
      rw [if_neg h]
      rfl
    · show (copyMipFromTexture tex (if t.populatedMip = t.allocatedMip then
        promoteReallocate tex gl t else (gl, t)).1 _ _ _).calls = _
      rw [if_neg h]
      show gl.calls ++ copyMipFromTextureCalls tex t.id (sub16 t.populatedMip 1)
        (sub16 (sub16 t.populatedMip 1) t.allocatedMip) = _
      rw [e3]

/-- Witness of C9: the freshly built handle of the 256 x 256 texture. -/
theorem C9_promote_step_witness :
    (InRange fresh256 ∧ 0 < fresh256.populatedMip) ∧
    (promote tex256 gl0 fresh256).2.populatedMip + 1 = fresh256.populatedMip ∧
    ((promote tex256 gl0 fresh256).2.allocatedMip ≠ fresh256.allocatedMip ↔
      fresh256.populatedMip = fresh256.allocatedMip) :=
  ⟨⟨by decide, by decide⟩,
    (C9_promote_step tex256 gl0 fresh256 (by decide) (by decide)).1,
    (C9_promote_step tex256 gl0 fresh256 (by decide) (by decide)).2.1⟩

/-- C10: with `allocatedMip < maxAllocatedMip`, `demote()` always reallocates (a new device
object is created and given storage for the mips from the new `allocatedMip` on, the retained
mips are copied into it, the old object is deleted and the handle names the new object), it
raises `allocatedMip` by exactly one, and it sets `populatedMip` to the maximum of its old
value and the new `allocatedMip`. -/
theorem C10_demote_step (tex : Texture) (gl : GLContext) (t : GL45ResourceTexture)
    (hr : InRange t) (hd : t.allocatedMip < t.maxAllocatedMip) :
    (demote tex gl t).2.allocatedMip = t.allocatedMip + 1 ∧
    (demote tex gl t).2.populatedMip = max t.populatedMip (t.allocatedMip + 1) ∧
    (demote tex gl t).2.id = gl.nextName ∧
    (demote tex gl t).1.nextName = gl.nextName + 1 ∧
    (demote tex gl t).1.calls = gl.calls ++
      ([GLCall.createTextures gl.nextName,
        GLCall.textureStorage2D gl.nextName ((tex.evalNumMips : Int) - ((t.allocatedMip + 1 : Nat) : Int))
          (tex.evalMipDimensions (t.allocatedMip + 1)).x
          (tex.evalMipDimensions (t.allocatedMip + 1)).y] ++
       copyCalls tex t.id gl.nextName (max t.populatedMip (t.allocatedMip + 1))
          (fun mip => add16 (sub16 mip (t.allocatedMip + 1)) 1)
          (fun mip => sub16 mip (t.allocatedMip + 1)) ++
       [GLCall.deleteTextures t.id]) := by
  obtain ⟨h1, h2, h3⟩ := hr
  have e1 : (t.allocatedMip + 1) % U16 = t.allocatedMip + 1 :=
    mod16_of_lt (by unfold U16 at *; omega)
  refine ⟨?_, ?_, rfl, rfl, ?_⟩
  · rw [demote_allocatedMip, e1]
  · rw [demote_populatedMip, e1]
  · show gl.calls ++ [GLCall.createTextures gl.nextName] ++
        [GLCall.textureStorage2D gl.nextName
          ((tex.evalNumMips : Int) - (((t.allocatedMip + 1) % U16 : Nat) : Int))
          (tex.evalMipDimensions ((t.allocatedMip + 1) % U16)).x
          (tex.evalMipDimensions ((t.allocatedMip + 1) % U16)).y] ++
        copyCalls tex t.id gl.nextName (max t.populatedMip ((t.allocatedMip + 1) % U16))
          (fun mip => add16 (sub16 mip ((t.allocatedMip + 1) % U16)) 1)
          (fun mip => sub16 mip ((t.allocatedMip + 1) % U16)) ++
        [GLCall.deleteTextures t.id] = _
    rw [e1]
    simp only [List.append_assoc, List.cons_append, List.nil_append]

/-- Witness of C10: the freshly built handle of the 256 x 256 texture. -/
theorem C10_demote_step_witness :
    (InRange fresh256 ∧ fresh256.allocatedMip < fresh256.maxAllocatedMip) ∧
    (demote tex256 gl0 fresh256).2.allocatedMip = fresh256.allocatedMip + 1 ∧
    (demote tex256 gl0 fresh256).2.id = gl0.nextName :=
  ⟨⟨by decide, by decide⟩,
    (C10_demote_step tex256 gl0 fresh256 (by decide) (by decide)).1,
    (C10_demote_step tex256 gl0 fresh256 (by decide) (by decide)).2.2.1⟩

end GL45ResourceTexture

end gl45

namespace gl

/-! ### Readiness of a handle -/

/-- C2: `isReady()` is true exactly when the handle is not invalid (its storage stamp is
not older than the definition stamp of the texture), its sync state is `Idle`, and it is
not outdated (its content stamp is not older than the data stamp of the texture); an
invalid handle is never ready. -/
theorem C2_isReady_iff (t : GLTexture) (tex : Texture) :
    (t.isReady tex = true ↔
      (t.isInvalid tex = false ∧ t.syncState = GLSyncState.Idle ∧ t.isOutdated tex = false)) ∧
    (t.isReady tex = true ↔
      (¬ t.storageStamp < tex.stamp ∧ t.syncState = GLSyncState.Idle ∧
        ¬ t.contentStamp < tex.dataStamp)) ∧
    (t.isInvalid tex = true → t.isReady tex = false) := by
  unfold GLTexture.isReady GLTexture.isOutdated GLTexture.isInvalid
  cases hs : t.syncState <;>
    by_cases h1 : t.storageStamp < tex.stamp <;>
    by_cases h2 : t.contentStamp < tex.dataStamp <;>
    simp [h1, h2]

end gl

namespace gl45

open gl

/-! ### The eviction sweep on concrete worker states -/

set_option maxHeartbeats 1000000 in
/-- C4, evaluated: one fully transferred handle of a 4 x 4 texture (mips of 64, 16 and 4
bytes), derezable, under a budget of 4 bytes, which is the footprint of the handle at its
last mip.  The first sweep raises `targetMinMip` to the last mip and changes nothing else,
a second sweep changes nothing at all, and in this fixed point the recorded size of the
handle is still 84 bytes and its mip range is still 0 to 2. -/
theorem C4_fixed_point_over_budget :
    transferred4.derezable = true ∧ tex4.evalTotalSize tex4.maxMip ≤ 4 ∧
    observe (recomputeTextureLoad 4 (fun _ => 0) 10 backendTransferred4 helperTransferred) =
      some (Sum.inr ({ transferred4 with targetMinMip := 2 }, ⟨2, []⟩, helperTransferred)) ∧
    observe (recomputeTextureLoadTwice 4 (fun _ => 0) 10 backendTransferred4 helperTransferred) =
      some (Sum.inr ({ transferred4 with targetMinMip := 2 }, ⟨2, []⟩, helperTransferred)) ∧
    ({ transferred4 with targetMinMip := 2 } : GL45Texture).derezable = false ∧
    ({ transferred4 with targetMinMip := 2 } : GL45Texture).size = 84 ∧
    ¬ (({ transferred4 with targetMinMip := 2 } : GL45Texture).size ≤ 4) := by
  refine ⟨by decide, by decide, ?_, ?_, by decide, by decide, by decide⟩
  · rfl
  · rfl

set_option maxHeartbeats 1000000 in
/-- C5, evaluated: texture 0 is in the transferred list and, submitted again, in the
transferring list, so the queue holds two entries for its handle.  The first round leaves
the handle not derezable (`targetMinMip = maxMip = 1`); the loop goes on, the second round
picks the other entry and demotes the handle once more, to `mipOffset = 2`, `maxMip = 0`
and a new device object.  With the two-mip texture the second round runs `derez()` with its
assertion `_minMip < _maxMip` false, `_maxMip` wraps to 65535 and the copy loop of
`stripToMip` never exits. -/
theorem C5_demotes_non_derezable_handle :
    (buildPriorityQueue backendStarted4 helperResubmitted).toOption =
      some (168, [⟨0, 84⟩, ⟨0, 84⟩]) ∧
    observeState (sweepAfter backendStarted4.textures 4 (fun _ => 0) 1
        (sweepStart backendStarted4 (168, [⟨0, 84⟩, ⟨0, 84⟩]))) =
      some ([⟨0, 84⟩], 104,
        { started4 with id := 2, maxMip := 1, size := 20, mipOffset := 1, targetMinMip := 1 }) ∧
    ({ started4 with id := 2, maxMip := 1, size := 20, mipOffset := 1, targetMinMip := 1 } :
      GL45Texture).derezable = false ∧
    observeState (sweepAfter backendStarted4.textures 4 (fun _ => 0) 2
        (sweepStart backendStarted4 (168, [⟨0, 84⟩, ⟨0, 84⟩]))) =
      some ([], 88,
        { started4 with id := 3, maxMip := 0, size := 4, mipOffset := 2, targetMinMip := 2 }) ∧
    (buildPriorityQueue backendStarted2 helperResubmitted).toOption =
      some (40, [⟨0, 20⟩, ⟨0, 20⟩]) ∧
    observeState (sweepAfter backendStarted2.textures 4 (fun _ => 0) 1
        (sweepStart backendStarted2 (40, [⟨0, 20⟩, ⟨0, 20⟩]))) =
      some ([⟨0, 20⟩], 24,
        { started2 with id := 2, maxMip := 0, size := 4, mipOffset := 1, targetMinMip := 1 }) ∧
    ({ started2 with id := 2, maxMip := 0, size := 4, mipOffset := 1, targetMinMip := 1 } :
      GL45Texture).derezable = false ∧
    ({ started2 with id := 2, maxMip := 0, size := 4, mipOffset := 1, targetMinMip := 2 } :
      GL45Texture).derezAssert = false ∧
    (sweepAfter backendStarted2.textures 4 (fun _ => 0) 1
        (sweepStart backendStarted2 (40, [⟨0, 20⟩, ⟨0, 20⟩]))).map
      (fun s => observeStep (sweepStep backendStarted2.textures 0 s)) =
      some (Sum.inl Abort.hang) := by
  refine ⟨?_, ?_, by decide, ?_, ?_, ?_, by decide, by decide, ?_⟩
  · rfl
  · rfl
  · rfl
  · rfl
  · rfl
  · rfl

/-! ### The priority queue and one round of the demotion loop -/

theorem exists_max_entry (q : List TextureAndSize) (hq : q ≠ []) :
    ∃ e, e ∈ q ∧ ∀ o ∈ q, o.size ≤ e.size := by
  induction q with
  | nil => exact absurd rfl hq
  | cons a rest ih =>
    by_cases hr : rest = []
    · subst hr
      exact ⟨a, List.mem_cons_self _ _, fun o ho => by
        rcases List.mem_cons.mp ho with h | h
        · rw [h]
        · cases h⟩
    · obtain ⟨m, hm, hmax⟩ := ih hr
      by_cases hle : m.size ≤ a.size
      · refine ⟨a, List.mem_cons_self _ _, fun o ho => ?_⟩
        rcases List.mem_cons.mp ho with h | h
        · rw [h]
        · exact le_trans (hmax o h) hle
      · refine ⟨m, List.mem_cons_of_mem _ hm, fun o ho => ?_⟩
        rcases List.mem_cons.mp ho with h | h
        · rw [h]
          omega
        · exact hmax o h

theorem mem_maxEntries (q : List TextureAndSize) (e : TextureAndSize) :
    e ∈ maxEntries q ↔ e ∈ q ∧ ∀ o ∈ q, o.size ≤ e.size := by
  unfold maxEntries
  rw [List.mem_filter]
  simp

theorem maxEntries_ne_nil (q : List TextureAndSize) (hq : q ≠ []) : maxEntries q ≠ [] := by
  obtain ⟨e, he, hmax⟩ := exists_max_entry q hq
  exact List.ne_nil_of_mem ((mem_maxEntries q e).mpr ⟨he, hmax⟩)

theorem top_isSome (choice : Nat) (q : List TextureAndSize) (hq : q ≠ []) :
    ∃ e, top choice q = some e := by
  have hlen : 0 < (maxEntries q).length := List.length_pos.mpr (maxEntries_ne_nil q hq)
  have hlt : choice % (maxEntries q).length < (maxEntries q).length := Nat.mod_lt _ hlen
  exact ⟨(maxEntries q)[choice % (maxEntries q).length], by
    unfold top
    exact List.getElem?_eq_getElem hlt⟩

theorem top_spec (choice : Nat) (q : List TextureAndSize) (e : TextureAndSize)
    (h : top choice q = some e) : e ∈ q ∧ ∀ o ∈ q, o.size ≤ e.size := by
  unfold top at h
  have hm : e ∈ maxEntries q := List.getElem?_mem h
  exact (mem_maxEntries q e).mp hm

theorem sweepStep_of_top (textures : TexturePointer → Texture) (choice : Nat) (s : SweepState)
    (e : TextureAndSize) (h : top choice s.allTextures = some e) :
    sweepStep textures choice s = sweepStepOn textures s e := by
  unfold sweepStep
  rw [h]

/-- The effect of one round on the loop state, when the round returns. -/
theorem sweepStepOn_ok (textures : TexturePointer → Texture) (s s1 : SweepState)
    (e : TextureAndSize) (h : sweepStepOn textures s e = Except.ok s1) :
    (∀ p, p ≠ e.texture → s1.objects p = s.objects p) ∧
    s1.allTextures = s.allTextures.erase e ++
      (if (s1.objects e.texture).derezable then
        [⟨e.texture, subSize e.size
          (GL45Texture.preDerez (textures e.texture) (s.objects e.texture)).2.1⟩]
      else []) ∧
    s1.allTexturesTargetMemory = subSize s.allTexturesTargetMemory
      (GL45Texture.preDerez (textures e.texture) (s.objects e.texture)).2.1 := by
  unfold sweepStepOn at h
  simp only at h
  split at h
  · cases h
  · rename_i r hr
    cases h
    refine ⟨fun p hp => ?_, ?_, rfl⟩
    · simp [Function.update, hp]
    · simp only [Function.update_same]
      split <;> simp

/-! ### The queue that `recomputeTextureLoad` builds -/

theorem visitTexture_ok (b : Backend) (acc acc1 : Nat × List TextureAndSize) (p : TexturePointer)
    (h : visitTexture b acc p = Except.ok acc1) :
    GL45Texture.getTargetGpuSize (b.textures p) (b.objects p) = Except.ok (targetSize b p) ∧
    acc1.1 = addSize acc.1 (targetSize b p) ∧
    acc1.2 = acc.2 ++ (if (b.objects p).derezable then [⟨p, targetSize b p⟩] else []) := by
  unfold visitTexture at h
  unfold targetSize
  cases hg : GL45Texture.getTargetGpuSize (b.textures p) (b.objects p) with
  | error e => rw [hg] at h; cases h
  | ok n =>
    rw [hg] at h
    cases h
    refine ⟨rfl, rfl, ?_⟩
    simp only
    split <;> simp

theorem visitTextures_ok (b : Backend) (l : List TexturePointer) :
    ∀ (acc acc1 : Nat × List TextureAndSize), visitTextures b acc l = Except.ok acc1 →
      (∀ p ∈ l, GL45Texture.getTargetGpuSize (b.textures p) (b.objects p) =
        Except.ok (targetSize b p)) ∧
      acc1.1 = l.foldl (fun total p => addSize total (targetSize b p)) acc.1 ∧
      acc1.2 = acc.2 ++ (l.filter fun p => (b.objects p).derezable).map
        (fun p => (⟨p, targetSize b p⟩ : TextureAndSize)) := by
  induction l with
  | nil =>
    intro acc acc1 h
    unfold visitTextures at h
    cases h
    simp
  | cons p rest ih =>
    intro acc acc1 h
    unfold visitTextures at h
    cases hv : visitTexture b acc p with
    | error e => rw [hv] at h; cases h
    | ok acc2 =>
      rw [hv] at h
      obtain ⟨h1, h2, h3⟩ := visitTexture_ok b acc acc2 p hv
      obtain ⟨k1, k2, k3⟩ := ih acc2 acc1 h
      refine ⟨?_, ?_, ?_⟩
      · intro q hq
        rcases List.mem_cons.mp hq with hq | hq
        · rw [hq]; exact h1
        · exact k1 q hq
      · rw [k2, h2]
        rfl
      · rw [k3, h3]
        by_cases hd : (b.objects p).derezable = true
        · simp [hd, List.filter_cons]
        · simp [hd, List.filter_cons]

theorem visitTextures_cons (b : Backend) (acc : Nat × List TextureAndSize) (p : TexturePointer)
    (rest : List TexturePointer) :
    visitTextures b acc (p :: rest) =
      match visitTexture b acc p with
      | Except.error e => Except.error e
      | Except.ok acc1 => visitTextures b acc1 rest := by
  rw [visitTextures]

theorem visitTextures_append (b : Backend) (l1 l2 : List TexturePointer) :
    ∀ (acc : Nat × List TextureAndSize), visitTextures b acc (l1 ++ l2) =
      match visitTextures b acc l1 with
      | Except.error e => Except.error e
      | Except.ok acc1 => visitTextures b acc1 l2 := by
  induction l1 with
  | nil => intro acc; rfl
  | cons p rest ih =>
    intro acc
    rw [List.cons_append, visitTextures_cons, visitTextures_cons]
    cases hv : visitTexture b acc p with
    | error e => rfl
    | ok acc2 => exact ih acc2

theorem buildPriorityQueue_eq (b : Backend) (h : GLTextureTransferHelper) :
    buildPriorityQueue b h = visitTextures b (0, []) (visitedTextures h) := by
  unfold buildPriorityQueue visitedTextures
  rw [visitTextures_append]

theorem buildPriorityQueue_ok (b : Backend) (h : GLTextureTransferHelper)
    (built : Nat × List TextureAndSize) (hb : buildPriorityQueue b h = Except.ok built) :
    (∀ p ∈ visitedTextures h, GL45Texture.getTargetGpuSize (b.textures p) (b.objects p) =
        Except.ok (targetSize b p)) ∧
    built.1 = (visitedTextures h).foldl (fun total p => addSize total (targetSize b p)) 0 ∧
    built.2 = ((visitedTextures h).filter fun p => (b.objects p).derezable).map
        (fun p => (⟨p, targetSize b p⟩ : TextureAndSize)) := by
  rw [buildPriorityQueue_eq] at hb
  have := visitTextures_ok b (visitedTextures h) (0, []) built hb
  simpa using this

/-- C6: every entry of the queue that `recomputeTextureLoad` builds records the target size
of its handle at that time; in every round of the demotion loop the entry taken by `top()`
is in the queue and no entry of the queue has a greater recorded size; the round acts on the
handle of that entry only, and the entry it pushes back (when the handle is still derezable)
records the size of the popped entry minus the memory freed by this round, in `size_t`
arithmetic. -/
theorem C6_largest_entry_first (b : Backend) (h : GLTextureTransferHelper)
    (textures : TexturePointer → Texture) (choice : Nat) (s : SweepState)
    (hq : s.allTextures ≠ []) :
    (∀ built, buildPriorityQueue b h = Except.ok built → ∀ e ∈ built.2,
      GL45Texture.getTargetGpuSize (b.textures e.texture) (b.objects e.texture) =
        Except.ok e.size) ∧
    ∃ e, top choice s.allTextures = some e ∧ e ∈ s.allTextures ∧
      (∀ o ∈ s.allTextures, o.size ≤ e.size) ∧
      sweepStep textures choice s = sweepStepOn textures s e ∧
      ∀ s1, sweepStep textures choice s = Except.ok s1 →
        (∀ p, p ≠ e.texture → s1.objects p = s.objects p) ∧
        s1.allTextures = s.allTextures.erase e ++
          (if (s1.objects e.texture).derezable then
            [⟨e.texture, subSize e.size
              (GL45Texture.preDerez (textures e.texture) (s.objects e.texture)).2.1⟩]
          else []) := by
  constructor
  · intro built hb e he
    obtain ⟨h1, _, h3⟩ := buildPriorityQueue_ok b h built hb
    rw [h3] at he
    obtain ⟨p, hp, rfl⟩ := List.mem_map.mp he
    exact h1 p (List.mem_filter.mp hp).1
  · obtain ⟨e, he⟩ := top_isSome choice s.allTextures hq
    obtain ⟨hmem, hmax⟩ := top_spec choice s.allTextures e he
    refine ⟨e, he, hmem, hmax, sweepStep_of_top textures choice s e he, fun s1 hs => ?_⟩
    rw [sweepStep_of_top textures choice s e he] at hs
    obtain ⟨k1, k2, _⟩ := sweepStepOn_ok textures s s1 e hs
    exact ⟨k1, k2⟩

/-- Witness of C6: the queue with two entries that the sweep builds when texture 0 is in
both lists. -/
theorem C6_largest_entry_first_witness :
    (sweepStart backendStarted4 (168, [⟨0, 84⟩, ⟨0, 84⟩])).allTextures ≠ [] ∧
    ∃ e, top 0 (sweepStart backendStarted4 (168, [⟨0, 84⟩, ⟨0, 84⟩])).allTextures = some e ∧
      e ∈ (sweepStart backendStarted4 (168, [⟨0, 84⟩, ⟨0, 84⟩])).allTextures ∧
      (∀ o ∈ (sweepStart backendStarted4 (168, [⟨0, 84⟩, ⟨0, 84⟩])).allTextures,
        o.size ≤ e.size) := by
  obtain ⟨e, h1, h2, h3, _⟩ := (C6_largest_entry_first backendStarted4 helperResubmitted
    backendStarted4.textures 0 (sweepStart backendStarted4 (168, [⟨0, 84⟩, ⟨0, 84⟩]))
    (by decide)).2
  exact ⟨by decide, e, h1, h2, h3⟩

/-- C8: in a round of the demotion loop on the entry `e`, `preDerez()` reports a live mip
exactly when `populatedMip` is valid and at most `targetMinMip` before the round.  If it
does, the round returns without a device call, the handle keeps `minMip`, `maxMip`,
`mipOffset`, its device object and its recorded size (only `targetMinMip` moves) and the
texture is put into `demotedLiveTextures`.  If it does not, the handle and the device after
the round are those that one call of `derez()` gives on the handle that `preDerez()` left, and
the round does not return when that call does not. -/
theorem C8_live_step_is_deferred (textures : TexturePointer → Texture) (choice : Nat)
    (s : SweepState) (e : TextureAndSize) (htop : top choice s.allTextures = some e) :
    ((GL45Texture.preDerez (textures e.texture) (s.objects e.texture)).2.2 =
      (decide ((s.objects e.texture).populatedMip ≠ INVALID_MIP) &&
        decide ((s.objects e.texture).populatedMip ≤ (s.objects e.texture).targetMinMip))) ∧
    ((GL45Texture.preDerez (textures e.texture) (s.objects e.texture)).2.2 = true →
      ∃ s1, sweepStep textures choice s = Except.ok s1 ∧ s1.gl = s.gl ∧
        s1.objects e.texture =
          { s.objects e.texture with
            targetMinMip := add16 (s.objects e.texture).targetMinMip 1 } ∧
        (s1.objects e.texture).minMip = (s.objects e.texture).minMip ∧
        (s1.objects e.texture).maxMip = (s.objects e.texture).maxMip ∧
        (s1.objects e.texture).mipOffset = (s.objects e.texture).mipOffset ∧
        (s1.objects e.texture).id = (s.objects e.texture).id ∧
        (s1.objects e.texture).size = (s.objects e.texture).size ∧
        e.texture ∈ s1.demotedLiveTextures) ∧
    ((GL45Texture.preDerez (textures e.texture) (s.objects e.texture)).2.2 = false →
      match GL45Texture.derez (textures e.texture) s.gl
          (GL45Texture.preDerez (textures e.texture) (s.objects e.texture)).1 with
      | Except.error a => sweepStep textures choice s = Except.error a
      | Except.ok r =>
        ∃ s1, sweepStep textures choice s = Except.ok s1 ∧ s1.gl = r.1 ∧
          s1.objects e.texture = r.2 ∧ s1.demotedLiveTextures = s.demotedLiveTextures) := by
  rw [sweepStep_of_top textures choice s e htop]
  refine ⟨rfl, ?_, ?_⟩
  · intro hlive
    unfold sweepStepOn
    simp only [hlive, if_true]
    refine ⟨_, rfl, rfl, ?_, ?_, ?_, ?_, ?_, ?_, ?_⟩
    · simp only [Function.update_same]
      rfl
    · simp only [Function.update_same]
      rfl
    · simp only [Function.update_same]
      rfl
    · simp only [Function.update_same]
      rfl
    · simp only [Function.update_same]
      rfl
    · simp only [Function.update_same]
      rfl
    · simp
  · intro hlive
    unfold sweepStepOn
    simp only [hlive]
    cases hd : GL45Texture.derez (textures e.texture) s.gl
        (GL45Texture.preDerez (textures e.texture) (s.objects e.texture)).1 with
    | error a => simp
    | ok r =>
      simp only [Bool.false_eq_true, if_false]
      exact ⟨_, rfl, rfl, by simp only [Function.update_same], rfl⟩

/-- Witness of C8: the first round of the sweep over the fully transferred handle of the
4 x 4 texture, which is live. -/
theorem C8_live_step_is_deferred_witness :
    top 0 (sweepStart backendTransferred4 (84, [⟨0, 84⟩])).allTextures = some ⟨0, 84⟩ ∧
    (GL45Texture.preDerez (backendTransferred4.textures 0)
      ((sweepStart backendTransferred4 (84, [⟨0, 84⟩])).objects 0)).2.2 = true ∧
    ∃ s1, sweepStep backendTransferred4.textures 0
        (sweepStart backendTransferred4 (84, [⟨0, 84⟩])) = Except.ok s1 ∧
      s1.gl = (sweepStart backendTransferred4 (84, [⟨0, 84⟩])).gl ∧
      (s1.objects 0).size = 84 := by
  obtain ⟨s1, h1, h2, _, _, _, _, _, h7, _⟩ :=
    (C8_live_step_is_deferred backendTransferred4.textures 0
      (sweepStart backendTransferred4 (84, [⟨0, 84⟩])) ⟨0, 84⟩ (by decide)).2.1 (by decide)
  exact ⟨by decide, by decide, s1, h1, h2, h7⟩

/-! ### Two handles of 16 MB and 4 MB under a budget of 12 MB -/

theorem subSize_lt (a f : Nat) : subSize a f < USIZE := by
  unfold subSize
  exact Nat.mod_lt _ (by unfold USIZE; omega)

theorem subSize_total (r f : Nat) (hr : r < USIZE) :
    subSize ((r + 4194304) % USIZE) f = (subSize r f + 4194304) % USIZE := by
  unfold subSize USIZE at *
  omega

theorem twoHandle_step (textures : TexturePointer → Texture) (x y : TexturePointer)
    (hxy : x ≠ y) (s : SweepState) (hinv : TwoHandleInv x y s)
    (hcond : sweepCond 12582912 s = true) (choice : Nat) (e : TextureAndSize)
    (htop : top choice s.allTextures = some e) :
    ((e.texture = x ∧ ∃ o ∈ s.allTextures, o.texture = x) ∨
      (e.texture = y ∧ (s.objects x).derezable = false ∧ ∀ o ∈ s.allTextures, o.texture ≠ x)) ∧
    ∀ s1, sweepStepOn textures s e = Except.ok s1 → TwoHandleInv x y s1 := by
  obtain ⟨hmem, hmax⟩ := top_spec choice s.allTextures e htop
  have htotal : 12582912 < s.allTexturesTargetMemory := by
    unfold sweepCond at hcond
    simp only [Bool.and_eq_true, decide_eq_true_eq] at hcond
    exact hcond.2
  rcases hinv with ⟨r, hq, ht, hr⟩ | ⟨hall, hnd⟩
  · have hr4 : 4194304 < r := by
      rw [ht] at htotal
      unfold USIZE at htotal hr
      omega
    have he : e = ⟨x, r⟩ := by
      rcases hq with hq | hq <;> rw [hq] at hmem hmax
      · rcases List.mem_cons.mp hmem with h | h
        · exact h
        · have h2 : e = ⟨y, 4194304⟩ := by simpa using h
          have := hmax ⟨x, r⟩ (by simp)
          rw [h2] at this
          simp only at this
          omega
      · rcases List.mem_cons.mp hmem with h | h
        · have := hmax ⟨x, r⟩ (by simp)
          rw [h] at this
          simp only at this
          omega
        · simpa using h
    have herase : s.allTextures.erase e = [⟨y, 4194304⟩] := by
      rw [he]
      rcases hq with hq | hq <;> rw [hq]
      · simp
      · have hne : (⟨y, 4194304⟩ : TextureAndSize) ≠ ⟨x, r⟩ := by
          intro h
          exact hxy (congrArg TextureAndSize.texture h).symm
        simp [List.erase_cons, hne]
    refine ⟨Or.inl ⟨by rw [he], ⟨x, r⟩, by rcases hq with hq | hq <;> rw [hq] <;> simp, rfl⟩,
      fun s1 hs => ?_⟩
    obtain ⟨k1, k2, k3⟩ := sweepStepOn_ok textures s s1 e hs
    rw [herase] at k2
    have hex : e.texture = x := by rw [he]
    have hes : e.size = r := by rw [he]
    rw [hex, hes] at k2
    rw [hex] at k3
    by_cases hd : (s1.objects x).derezable = true
    · left
      rw [if_pos hd] at k2
      refine ⟨subSize r (GL45Texture.preDerez (textures x) (s.objects x)).2.1, Or.inr ?_, ?_,
        subSize_lt _ _⟩
      · rw [k2]
        rfl
      · rw [k3, ht]
        exact subSize_total r _ hr
    · right
      rw [if_neg hd] at k2
      refine ⟨fun o ho => ?_, by simpa using hd⟩
      rw [k2] at ho
      have : o = ⟨y, 4194304⟩ := by simpa using ho
      rw [this]
  · have hey : e.texture = y := hall e hmem
    refine ⟨Or.inr ⟨hey, hnd, fun o ho h => hxy (h.symm.trans (hall o ho))⟩, fun s1 hs => ?_⟩
    obtain ⟨k1, k2, _⟩ := sweepStepOn_ok textures s s1 e hs
    right
    refine ⟨fun o ho => ?_, ?_⟩
    · rw [k2] at ho
      rcases List.mem_append.mp ho with h | h
      · exact hall o (List.mem_of_mem_erase h)
      · split at h
        · rw [List.mem_singleton.mp h]
          exact hey
        · cases h
    · rw [k1 x (by rw [hey]; exact hxy)]
      exact hnd

theorem twoHandle_sweepAfter (textures : TexturePointer → Texture) (x y : TexturePointer)
    (hxy : x ≠ y) (n : Nat) :
    ∀ (tie : Nat → Nat) (s0 s : SweepState), TwoHandleInv x y s0 →
      sweepAfter textures 12582912 tie n s0 = some s → TwoHandleInv x y s := by
  induction n with
  | zero =>
    intro tie s0 s hinv h
    unfold sweepAfter at h
    cases h
    exact hinv
  | succ n ih =>
    intro tie s0 s hinv h
    unfold sweepAfter at h
    by_cases hc : sweepCond 12582912 s0 = true
    · rw [if_pos hc] at h
      have hq : s0.allTextures ≠ [] := by
        unfold sweepCond at hc
        intro hnil
        rw [hnil] at hc
        simp at hc
      obtain ⟨e, he⟩ := top_isSome (tie 0) s0.allTextures hq
      rw [sweepStep_of_top textures (tie 0) s0 e he] at h
      cases hs : sweepStepOn textures s0 e with
      | error a => rw [hs] at h; cases h
      | ok s1 =>
        rw [hs] at h
        exact ih _ s1 s ((twoHandle_step textures x y hxy s0 hinv hc (tie 0) e he).2 s1 hs) h
    · rw [if_neg hc] at h
      cases h

theorem visitTextures_two (b : Backend) (x y : TexturePointer) (m n : Nat)
    (hx : GL45Texture.getTargetGpuSize (b.textures x) (b.objects x) = Except.ok m)
    (hy : GL45Texture.getTargetGpuSize (b.textures y) (b.objects y) = Except.ok n)
    (hdx : (b.objects x).derezable = true) (hdy : (b.objects y).derezable = true) :
    visitTextures b (0, []) [x, y] =
      Except.ok (addSize (addSize 0 m) n, [⟨x, m⟩, ⟨y, n⟩]) := by
  rw [visitTextures_cons]
  unfold visitTexture
  rw [hx]
  simp only [hdx, if_true]
  rw [visitTextures_cons]
  unfold visitTexture
  rw [hy]
  simp only [hdy, if_true]
  rfl

/-- C7: with exactly two handles visited, both derezable, with target sizes of 16 MB and
4 MB, and a budget of 12 MB, whatever the textures report as mip sizes: the queue is built
with a total of 20 MB, the loop is entered and its first round takes the 16 MB handle; in
every later round that the loop enters, the round takes the 16 MB handle as long as it has an
entry in the queue, and it takes the 4 MB handle only when the 16 MB handle has stopped being
derezable and has left the queue (the loop condition says the total is then still above
12 MB). -/
theorem C7_sixteen_before_four (b : Backend) (h : GLTextureTransferHelper)
    (x y : TexturePointer) (tie : Nat → Nat) (hxy : x ≠ y)
    (hv : visitedTextures h = [x, y] ∨ visitedTextures h = [y, x])
    (hx : GL45Texture.getTargetGpuSize (b.textures x) (b.objects x) = Except.ok 16777216)
    (hy : GL45Texture.getTargetGpuSize (b.textures y) (b.objects y) = Except.ok 4194304)
    (hdx : (b.objects x).derezable = true) (hdy : (b.objects y).derezable = true) :
    ∃ built, buildPriorityQueue b h = Except.ok built ∧ built.1 = 20971520 ∧
      sweepCond 12582912 (sweepStart b built) = true ∧
      (∀ choice e, top choice (sweepStart b built).allTextures = some e → e.texture = x) ∧
      ∀ n s, sweepAfter b.textures 12582912 tie n (sweepStart b built) = some s →
        sweepCond 12582912 s = true →
        ∀ choice e, top choice s.allTextures = some e →
          (e.texture = x ∧ ∃ o ∈ s.allTextures, o.texture = x) ∨
          (e.texture = y ∧ (s.objects x).derezable = false ∧
            ∀ o ∈ s.allTextures, o.texture ≠ x) := by
  have hbuilt : ∃ built, buildPriorityQueue b h = Except.ok built ∧ built.1 = 20971520 ∧
      (built.2 = [⟨x, 16777216⟩, ⟨y, 4194304⟩] ∨ built.2 = [⟨y, 4194304⟩, ⟨x, 16777216⟩]) := by
    rw [buildPriorityQueue_eq]
    rcases hv with hv | hv <;> rw [hv]
    · exact ⟨_, visitTextures_two b x y _ _ hx hy hdx hdy,
        (by decide : addSize (addSize 0 16777216) 4194304 = 20971520), Or.inl rfl⟩
    · exact ⟨_, visitTextures_two b y x _ _ hy hx hdy hdx,
        (by decide : addSize (addSize 0 4194304) 16777216 = 20971520), Or.inr rfl⟩
  obtain ⟨built, hb, htot, hq⟩ := hbuilt
  have hinv : TwoHandleInv x y (sweepStart b built) := by
    left
    refine ⟨16777216, hq, ?_, by decide⟩
    show built.1 = _
    rw [htot]
    decide
  have hcond : sweepCond 12582912 (sweepStart b built) = true := by
    unfold sweepCond
    show (!built.2.isEmpty && decide (built.1 > 12582912)) = true
    rw [htot]
    rcases hq with hq | hq <;> rw [hq] <;> simp
  refine ⟨built, hb, htot, hcond, fun choice e he => ?_, fun n s hs hc choice e he => ?_⟩
  · rcases (twoHandle_step b.textures x y hxy _ hinv hcond choice e he).1 with hh | hh
    · exact hh.1
    · obtain ⟨_, _, hno⟩ := hh
      exfalso
      rcases hq with hq | hq
      · exact hno ⟨x, 16777216⟩ (by show _ ∈ built.2; rw [hq]; simp) rfl
      · exact hno ⟨x, 16777216⟩ (by show _ ∈ built.2; rw [hq]; simp) rfl
  · exact (twoHandle_step b.textures x y hxy s
      (twoHandle_sweepAfter b.textures x y hxy n tie _ s hinv hs) hc choice e he).1

/-- Witness of C7: the textures 0 (16 MB) and 1 (4 MB) in the transferred list. -/
theorem C7_sixteen_before_four_witness :
    ((0 : TexturePointer) ≠ 1 ∧ visitedTextures helperTwoHandles = [0, 1] ∧
      (backendTwoHandles.objects 0).derezable = true ∧
      (backendTwoHandles.objects 1).derezable = true) ∧
    ∃ built, buildPriorityQueue backendTwoHandles helperTwoHandles = Except.ok built ∧
      built.1 = 20971520 ∧
      sweepCond 12582912 (sweepStart backendTwoHandles built) = true ∧
      (∀ choice e, top choice (sweepStart backendTwoHandles built).allTextures = some e →
        e.texture = 0) := by
  obtain ⟨built, h1, h2, h3, h4, _⟩ :=
    C7_sixteen_before_four backendTwoHandles helperTwoHandles 0 1 (fun _ => 0) (by decide)
      (Or.inl (by decide)) (by rfl) (by rfl) (by decide) (by decide)
  exact ⟨⟨by decide, by decide, by decide, by decide⟩, built, h1, h2, h3, h4⟩

/-! ### Creation of handles -/

/-- C15 fails as stated: the test for external textures comes before the test
`isDefined()`, so for an external texture that is not defined the result is what
`Parent::syncGPUObject` returns; with a parent that returns the registered handle it is
that handle, not null. -/
theorem C15_undefined_external_counterexample :
    texExternal.defined = false ∧
    (syncGPUObject false parentReturnsRegistered (fun _ => texExternal) oneObject (some 0)).2 =
      some ⟨7, HandleClass.GL45ResourceTexture⟩ := by
  constructor <;> rfl

/-- C15 amended: for a defined, non-external texture that has a handle, `syncGPUObject`
returns that handle and constructs nothing; for a null pointer, and for a texture that is
not external and not yet defined, it returns null and constructs nothing. -/
theorem C15_existing_handle_returned (sparseEnabled : Bool)
    (parentSync : GPUObjects → TexturePointer → GPUObjects × Option Handle)
    (textures : TexturePointer → Texture) (g : GPUObjects) (p : TexturePointer) :
    (∀ object, (textures p).usageType ≠ TextureUsageType.EXTERNAL →
      (textures p).defined = true → g.getGPUObject p = some object →
      (syncGPUObject sparseEnabled parentSync textures g (some p)).2 = some object ∧
      (syncGPUObject sparseEnabled parentSync textures g (some p)).1.getGPUObject =
        g.getGPUObject ∧
      (syncGPUObject sparseEnabled parentSync textures g (some p)).1.nextObject =
        g.nextObject) ∧
    ((syncGPUObject sparseEnabled parentSync textures g none).2 = none ∧
      (syncGPUObject sparseEnabled parentSync textures g none).1.getGPUObject = g.getGPUObject ∧
      (syncGPUObject sparseEnabled parentSync textures g none).1.nextObject = g.nextObject) ∧
    ((textures p).usageType ≠ TextureUsageType.EXTERNAL → (textures p).defined = false →
      (syncGPUObject sparseEnabled parentSync textures g (some p)).2 = none ∧
      (syncGPUObject sparseEnabled parentSync textures g (some p)).1.getGPUObject =
        g.getGPUObject ∧
      (syncGPUObject sparseEnabled parentSync textures g (some p)).1.nextObject =
        g.nextObject) := by
  refine ⟨fun object hext hdef hobj => ?_, ⟨rfl, rfl, rfl⟩, fun hext hdef => ?_⟩
  · simp [syncGPUObject, hext, hdef, hobj]
  · simp [syncGPUObject, hext, hdef]

/-- Witness of the amended C15: texture 0 is defined, of usage `RESOURCE`, and has the
handle 7. -/
theorem C15_existing_handle_returned_witness :
    (tex4.usageType ≠ TextureUsageType.EXTERNAL ∧ tex4.defined = true ∧
      oneObject.getGPUObject 0 = some ⟨7, HandleClass.GL45ResourceTexture⟩) ∧
    (syncGPUObject true parentReturnsRegistered (fun _ => tex4) oneObject (some 0)).2 =
      some ⟨7, HandleClass.GL45ResourceTexture⟩ :=
  ⟨⟨by decide, by decide, by decide⟩,
    ((C15_existing_handle_returned true parentReturnsRegistered (fun _ => tex4) oneObject 0).1
      ⟨7, HandleClass.GL45ResourceTexture⟩ (by decide) (by decide) (by decide)).1⟩

/-- C16, evaluated: for a defined texture of usage `STRICT_RESOURCE` without a handle,
`syncGPUObject` constructs a `GL45ResourceTexture`, which is a variable allocation handle,
and not a `GL45StrictResourceTexture`; for `RENDERBUFFER` it constructs the fixed
`GL45AttachmentTexture` and for `RESOURCE` the variable `GL45ResourceTexture`. -/
theorem C16_strict_resource_gets_variable_handle (sparseEnabled : Bool)
    (parentSync : GPUObjects → TexturePointer → GPUObjects × Option Handle)
    (textures : TexturePointer → Texture) (g : GPUObjects) (p : TexturePointer) :
    ((syncGPUObject false parentReturnsRegistered (fun _ => texStrict) noObjects (some 0)).2 =
        some ⟨1, HandleClass.GL45ResourceTexture⟩ ∧
      HandleClass.GL45ResourceTexture.fixedAllocation = false) ∧
    ((textures p).defined = true → g.getGPUObject p = none →
      ((textures p).usageType = TextureUsageType.STRICT_RESOURCE →
        (syncGPUObject sparseEnabled parentSync textures g (some p)).2 =
          some ⟨g.nextObject, HandleClass.GL45ResourceTexture⟩) ∧
      ((textures p).usageType = TextureUsageType.RENDERBUFFER →
        (syncGPUObject sparseEnabled parentSync textures g (some p)).2 =
          some ⟨g.nextObject, HandleClass.GL45AttachmentTexture⟩) ∧
      ((textures p).usageType = TextureUsageType.RESOURCE →
        (syncGPUObject sparseEnabled parentSync textures g (some p)).2 =
          some ⟨g.nextObject, HandleClass.GL45ResourceTexture⟩)) := by
  refine ⟨⟨rfl, rfl⟩, fun hdef hobj => ⟨fun hu => ?_, fun hu => ?_, fun hu => ?_⟩⟩
  · simp [syncGPUObject, hu, hdef, hobj, GPUObjects.construct]
  · simp [syncGPUObject, hu, hdef, hobj, GPUObjects.construct]
  · simp [syncGPUObject, hu, hdef, hobj, GPUObjects.construct, isSparseEligible]

/-- C17: `isSparseEligible` returns false for every texture, and for every texture that is
not external and every value of the sparse switch the handle that `syncGPUObject` returns
is either the one the texture already had or one that is not a
`GL45SparseResourceTexture`; a defined `RESOURCE` texture without a handle gets a
`GL45ResourceTexture`. -/
theorem C17_never_sparse (sparseEnabled : Bool)
    (parentSync : GPUObjects → TexturePointer → GPUObjects × Option Handle)
    (textures : TexturePointer → Texture) (g : GPUObjects) (p : TexturePointer) :
    (∀ texture, isSparseEligible texture = false) ∧
    ((textures p).usageType ≠ TextureUsageType.EXTERNAL →
      ∀ object, (syncGPUObject sparseEnabled parentSync textures g (some p)).2 = some object →
        g.getGPUObject p = some object ∨
        (g.getGPUObject p = none ∧ object.object = g.nextObject ∧
          object.handleClass ≠ HandleClass.GL45SparseResourceTexture)) ∧
    ((textures p).usageType = TextureUsageType.RESOURCE → (textures p).defined = true →
      g.getGPUObject p = none →
      (syncGPUObject sparseEnabled parentSync textures g (some p)).2 =
        some ⟨g.nextObject, HandleClass.GL45ResourceTexture⟩) := by
  refine ⟨fun _ => rfl, fun hext object hres => ?_, fun hu hdef hobj => ?_⟩
  · unfold syncGPUObject at hres
    simp only [hext, if_false] at hres
    by_cases hdef : (textures p).defined = true
    · simp only [hdef, Bool.not_true, Bool.false_eq_true, if_false] at hres
      cases hobj : g.getGPUObject p with
      | some o =>
        rw [hobj] at hres
        left
        exact hres
      | none =>
        rw [hobj] at hres
        right
        refine ⟨rfl, ?_⟩
        cases hu : (textures p).usageType <;> rw [hu] at hres <;>
          simp [GPUObjects.construct, isSparseEligible] at hres
        · rw [← hres]; simp
        · rw [← hres]; simp
        · rw [← hres]; simp
    · simp [hdef] at hres
  · simp [syncGPUObject, hu, hdef, hobj, GPUObjects.construct, isSparseEligible]

/-- Witness of C17: a defined `RESOURCE` texture without a handle, with the sparse switch
on. -/
theorem C17_never_sparse_witness :
    (tex4.usageType = TextureUsageType.RESOURCE ∧ tex4.defined = true ∧
      noObjects.getGPUObject 0 = none) ∧
    (syncGPUObject true parentReturnsRegistered (fun _ => tex4) noObjects (some 0)).2 =
      some ⟨noObjects.nextObject, HandleClass.GL45ResourceTexture⟩ :=
  ⟨⟨by decide, by decide, by decide⟩,
    (C17_never_sparse true parentReturnsRegistered (fun _ => tex4) noObjects 0).2.2
      (by decide) (by decide) (by decide)⟩

/-! ### The allowed texture memory -/

/-- C21, evaluated: a configured limit that is not zero is returned as it is, and with no
limit configured the result is `MB_TO_BYTES(256)`, 256 megabytes, which is not the gigabyte
`MB_TO_BYTES(1024)` that the comments in the code announce. -/
theorem C21_default_is_256_megabytes (bytesPerMegabyte allowed : Nat) :
    (allowed ≠ 0 → getAllowedTextureSize bytesPerMegabyte allowed = allowed) ∧
    getAllowedTextureSize bytesPerMegabyte 0 = MB_TO_BYTES bytesPerMegabyte 256 ∧
    getAllowedTextureSize 1048576 0 = 268435456 ∧
    MB_TO_BYTES 1048576 1024 = 1073741824 ∧
    getAllowedTextureSize 1048576 0 ≠ MB_TO_BYTES 1048576 1024 ∧
    (0 < bytesPerMegabyte → 1024 * bytesPerMegabyte < USIZE →
      getAllowedTextureSize bytesPerMegabyte 0 ≠ MB_TO_BYTES bytesPerMegabyte 1024) := by
  refine ⟨fun h => ?_, rfl, ?_, ?_, ?_, fun h1 h2 => ?_⟩
  · simp [getAllowedTextureSize, h]
  · norm_num [getAllowedTextureSize, TEXTURE_MEMORY_MIN_BYTES, MB_TO_BYTES, USIZE]
  · norm_num [MB_TO_BYTES, USIZE]
  · norm_num [getAllowedTextureSize, TEXTURE_MEMORY_MIN_BYTES, MB_TO_BYTES, USIZE]
  · show MB_TO_BYTES bytesPerMegabyte 256 ≠ MB_TO_BYTES bytesPerMegabyte 1024
    unfold MB_TO_BYTES
    rw [Nat.mod_eq_of_lt (by omega : 256 * bytesPerMegabyte < USIZE), Nat.mod_eq_of_lt h2]
    omega

/-! ### Reallocation in `promote` and `demote` -/

theorem copyCalls_congr (tex : Texture) (oldId newId populatedMip : Nat)
    (f g f1 g1 : Nat → Nat)
    (h : ∀ mip, populatedMip ≤ mip → mip < tex.evalNumMips → f mip = f1 mip ∧ g mip = g1 mip) :
    GL45ResourceTexture.copyCalls tex oldId newId populatedMip f g =
      GL45ResourceTexture.copyCalls tex oldId newId populatedMip f1 g1 := by
  unfold GL45ResourceTexture.copyCalls
  have hmem : ∀ mip ∈ List.range' populatedMip (tex.evalNumMips - populatedMip),
      populatedMip ≤ mip ∧ mip < tex.evalNumMips := by
    intro mip hm
    rw [List.mem_range'_1] at hm
    omega
  generalize List.range' populatedMip (tex.evalNumMips - populatedMip) = l at hmem
  induction l with
  | nil => rfl
  | cons a rest ih =>
    rw [List.flatMap_cons, List.flatMap_cons,
      ih (fun mip hm => hmem mip (List.mem_cons_of_mem _ hm))]
    obtain ⟨h1, h2⟩ := hmem a (List.mem_cons_self _ _)
    obtain ⟨e1, e2⟩ := h a h1 h2
    rw [e1, e2]

/-- C25: when `promote()` has to grow the allocation (`populatedMip = allocatedMip > 0`),
the new `allocatedMip` is the old one minus `min(old, 2)`: strictly lower, without wrapping
below 0, and after the call at most 2 allocated levels are not populated. -/
theorem C25_promote_headroom (tex : Texture) (gl : GLContext)
    (t : GL45ResourceTexture) (hr : GL45ResourceTexture.InRange t)
    (heq : t.populatedMip = t.allocatedMip) (hp : 0 < t.allocatedMip) :
    (GL45ResourceTexture.promote tex gl t).2.allocatedMip =
      t.allocatedMip - min t.allocatedMip 2 ∧
    (GL45ResourceTexture.promote tex gl t).2.allocatedMip < t.allocatedMip ∧
    min t.allocatedMip 2 ≤ t.allocatedMip ∧
    (GL45ResourceTexture.promote tex gl t).2.allocatedMip ≤
      (GL45ResourceTexture.promote tex gl t).2.populatedMip ∧
    (GL45ResourceTexture.promote tex gl t).2.populatedMip -
      (GL45ResourceTexture.promote tex gl t).2.allocatedMip ≤ 2 := by
  obtain ⟨h1, h2, h3⟩ := hr
  have e2 : (t.allocatedMip - min t.allocatedMip 2) % U16 = t.allocatedMip - min t.allocatedMip 2 :=
    mod16_of_lt (by unfold U16 at *; omega)
  have e3 : sub16 t.populatedMip 1 = t.populatedMip - 1 := sub16_of_le (by omega) h2
  rw [GL45ResourceTexture.promote_allocatedMip, GL45ResourceTexture.promote_populatedMip,
    if_pos heq, e2, e3]
  omega

/-- Witness of C25: a handle with `populatedMip = allocatedMip = 3`. -/
theorem C25_promote_headroom_witness :
    (GL45ResourceTexture.InRange ⟨1, 3, 3, 5, 0⟩ ∧ (3 : Nat) = 3 ∧ 0 < 3) ∧
    (GL45ResourceTexture.promote GL45ResourceTexture.tex256 GL45ResourceTexture.gl0
      ⟨1, 3, 3, 5, 0⟩).2.allocatedMip = 3 - min 3 2 :=
  ⟨⟨by decide, rfl, by decide⟩,
    (C25_promote_headroom GL45ResourceTexture.tex256 GL45ResourceTexture.gl0 ⟨1, 3, 3, 5, 0⟩
      (by decide) rfl (by decide)).1⟩

/-- The device calls of a reallocating `promote()` and of `demote()`, with the copy loop
written as `copyCalls` and the level arithmetic without its `uint16` conversions. -/
theorem reallocation_calls (tex : Texture) (gl : GLContext) (t : GL45ResourceTexture)
    (hr : GL45ResourceTexture.InRange t) (hinv : GL45ResourceTexture.MipsOrdered t)
    (hn : tex.evalNumMips < U16) :
    (t.populatedMip = t.allocatedMip →
      (GL45ResourceTexture.promoteReallocate tex gl t).1.calls = gl.calls ++
        ([GLCall.createTextures gl.nextName,
          GLCall.textureStorage2D gl.nextName
            ((tex.evalNumMips : Int) - ((t.allocatedMip - min t.allocatedMip 2 : Nat) : Int))
            (tex.evalMipDimensions (t.allocatedMip - min t.allocatedMip 2)).x
            (tex.evalMipDimensions (t.allocatedMip - min t.allocatedMip 2)).y] ++
         GL45ResourceTexture.copyCalls tex t.id gl.nextName t.populatedMip
            (fun mip => mip - t.allocatedMip)
            (fun mip => mip - (t.allocatedMip - min t.allocatedMip 2)) ++
         [GLCall.deleteTextures t.id]) ∧
      ∀ mip, t.populatedMip ≤ mip → mip < tex.evalNumMips →
        t.allocatedMip ≤ mip ∧ mip - t.allocatedMip < tex.evalNumMips - t.allocatedMip ∧
        mip - (t.allocatedMip - min t.allocatedMip 2) <
          tex.evalNumMips - (t.allocatedMip - min t.allocatedMip 2)) ∧
    (t.allocatedMip < t.maxAllocatedMip →
      (GL45ResourceTexture.demote tex gl t).1.calls = gl.calls ++
        ([GLCall.createTextures gl.nextName,
          GLCall.textureStorage2D gl.nextName
            ((tex.evalNumMips : Int) - ((t.allocatedMip + 1 : Nat) : Int))
            (tex.evalMipDimensions (t.allocatedMip + 1)).x
            (tex.evalMipDimensions (t.allocatedMip + 1)).y] ++
         GL45ResourceTexture.copyCalls tex t.id gl.nextName
            (GL45ResourceTexture.demote tex gl t).2.populatedMip
            (fun mip => mip - t.allocatedMip)
            (fun mip => mip - (t.allocatedMip + 1)) ++
         [GLCall.deleteTextures t.id]) ∧
      (GL45ResourceTexture.demote tex gl t).2.populatedMip =
        max t.populatedMip (t.allocatedMip + 1) ∧
      ∀ mip, (GL45ResourceTexture.demote tex gl t).2.populatedMip ≤ mip →
        mip < tex.evalNumMips →
        t.allocatedMip + 1 ≤ mip ∧ mip - t.allocatedMip < tex.evalNumMips - t.allocatedMip ∧
        mip - (t.allocatedMip + 1) < tex.evalNumMips - (t.allocatedMip + 1)) := by
  obtain ⟨h1, h2, h3⟩ := hr
  obtain ⟨h4, h5⟩ := hinv
  have e2 : (t.allocatedMip - min t.allocatedMip 2) % U16 = t.allocatedMip - min t.allocatedMip 2 :=
    mod16_of_lt (by unfold U16 at *; omega)
  constructor
  · intro heq
    constructor
    · show gl.calls ++ [GLCall.createTextures gl.nextName] ++
          [GLCall.textureStorage2D gl.nextName
            ((tex.evalNumMips : Int) -
              (((t.allocatedMip - min t.allocatedMip 2) % U16 : Nat) : Int))
            (tex.evalMipDimensions ((t.allocatedMip - min t.allocatedMip 2) % U16)).x
            (tex.evalMipDimensions ((t.allocatedMip - min t.allocatedMip 2) % U16)).y] ++
          GL45ResourceTexture.copyCalls tex t.id gl.nextName t.populatedMip
            (fun mip => sub16 mip t.allocatedMip)
            (fun mip => sub16 mip ((t.allocatedMip - min t.allocatedMip 2) % U16)) ++
          [GLCall.deleteTextures t.id] = _
      rw [e2, copyCalls_congr tex t.id gl.nextName t.populatedMip _ _
        (fun mip => mip - t.allocatedMip)
        (fun mip => mip - (t.allocatedMip - min t.allocatedMip 2))
        (fun mip hm1 hm2 => ⟨sub16_of_le (by omega) (by omega),
          sub16_of_le (by omega) (by omega)⟩)]
      simp only [List.append_assoc, List.cons_append, List.nil_append]
    · intro mip hm1 hm2
      omega
  · intro hd
    have e1 : (t.allocatedMip + 1) % U16 = t.allocatedMip + 1 :=
      mod16_of_lt (by unfold U16 at *; omega)
    have hp : (GL45ResourceTexture.demote tex gl t).2.populatedMip =
        max t.populatedMip (t.allocatedMip + 1) := by
      rw [GL45ResourceTexture.demote_populatedMip, e1]
    refine ⟨?_, hp, ?_⟩
    · rw [hp]
      show gl.calls ++ [GLCall.createTextures gl.nextName] ++
          [GLCall.textureStorage2D gl.nextName
            ((tex.evalNumMips : Int) - (((t.allocatedMip + 1) % U16 : Nat) : Int))
            (tex.evalMipDimensions ((t.allocatedMip + 1) % U16)).x
            (tex.evalMipDimensions ((t.allocatedMip + 1) % U16)).y] ++
          GL45ResourceTexture.copyCalls tex t.id gl.nextName
            (max t.populatedMip ((t.allocatedMip + 1) % U16))
            (fun mip => add16 (sub16 mip ((t.allocatedMip + 1) % U16)) 1)
            (fun mip => sub16 mip ((t.allocatedMip + 1) % U16)) ++
          [GLCall.deleteTextures t.id] = _
      rw [e1, copyCalls_congr tex t.id gl.nextName (max t.populatedMip (t.allocatedMip + 1)) _ _
        (fun mip => mip - t.allocatedMip)
        (fun mip => mip - (t.allocatedMip + 1))
        (fun mip hm1 hm2 => by
          have hs : sub16 mip (t.allocatedMip + 1) = mip - (t.allocatedMip + 1) :=
            sub16_of_le (by omega) (by omega)
          refine ⟨?_, hs⟩
          show add16 (sub16 mip (t.allocatedMip + 1)) 1 = mip - t.allocatedMip
          rw [hs]
          unfold add16 U16 at *
          omega)]
      simp only [List.append_assoc, List.cons_append, List.nil_append]
    · intro mip hm1 hm2
      rw [hp] at hm1
      omega

/-- C26: in a reallocating `promote()` and in `demote()` the device calls are: create the
new object, allocate its storage, then for each mip `populatedMip, populatedMip + 1, ...,
numMips - 1`, in this increasing order, one copy per face from level
`mip - old allocatedMip` of the old object to level `mip - new allocatedMip` of the new
object, and last delete the old object (for `promote` `populatedMip` is the value before its
decrement, for `demote` the value after its update).  Neither subtraction wraps and each
level is below the number of levels of its object, `numMips` minus its `allocatedMip`. -/
theorem C26_copy_forward (tex : Texture) (gl : GLContext) (t : GL45ResourceTexture)
    (hr : GL45ResourceTexture.InRange t) (hinv : GL45ResourceTexture.MipsOrdered t)
    (hn : tex.evalNumMips < U16) :
    (t.populatedMip = t.allocatedMip →
      (GL45ResourceTexture.promoteReallocate tex gl t).1.calls = gl.calls ++
        ([GLCall.createTextures gl.nextName,
          GLCall.textureStorage2D gl.nextName
            ((tex.evalNumMips : Int) - ((t.allocatedMip - min t.allocatedMip 2 : Nat) : Int))
            (tex.evalMipDimensions (t.allocatedMip - min t.allocatedMip 2)).x
            (tex.evalMipDimensions (t.allocatedMip - min t.allocatedMip 2)).y] ++
         (List.range' t.populatedMip (tex.evalNumMips - t.populatedMip)).flatMap (fun mip =>
            (List.range (if tex.cube then 6 else 1)).map fun face =>
              GLCall.copyImageSubData t.id (mip - t.allocatedMip) gl.nextName
                (mip - (t.allocatedMip - min t.allocatedMip 2)) face
                (tex.evalMipDimensions mip).x (tex.evalMipDimensions mip).y) ++
         [GLCall.deleteTextures t.id]) ∧
      ∀ mip, t.populatedMip ≤ mip → mip < tex.evalNumMips →
        t.allocatedMip ≤ mip ∧ mip - t.allocatedMip < tex.evalNumMips - t.allocatedMip ∧
        mip - (t.allocatedMip - min t.allocatedMip 2) <
          tex.evalNumMips - (t.allocatedMip - min t.allocatedMip 2)) ∧
    (t.allocatedMip < t.maxAllocatedMip →
      (GL45ResourceTexture.demote tex gl t).1.calls = gl.calls ++
        ([GLCall.createTextures gl.nextName,
          GLCall.textureStorage2D gl.nextName
            ((tex.evalNumMips : Int) - ((t.allocatedMip + 1 : Nat) : Int))
            (tex.evalMipDimensions (t.allocatedMip + 1)).x
            (tex.evalMipDimensions (t.allocatedMip + 1)).y] ++
         (List.range' (max t.populatedMip (t.allocatedMip + 1))
            (tex.evalNumMips - max t.populatedMip (t.allocatedMip + 1))).flatMap (fun mip =>
            (List.range (if tex.cube then 6 else 1)).map fun face =>
              GLCall.copyImageSubData t.id (mip - t.allocatedMip) gl.nextName
                (mip - (t.allocatedMip + 1)) face
                (tex.evalMipDimensions mip).x (tex.evalMipDimensions mip).y) ++
         [GLCall.deleteTextures t.id]) ∧
      (GL45ResourceTexture.demote tex gl t).2.populatedMip =
        max t.populatedMip (t.allocatedMip + 1) ∧
      ∀ mip, max t.populatedMip (t.allocatedMip + 1) ≤ mip → mip < tex.evalNumMips →
        t.allocatedMip + 1 ≤ mip ∧ mip - t.allocatedMip < tex.evalNumMips - t.allocatedMip ∧
        mip - (t.allocatedMip + 1) < tex.evalNumMips - (t.allocatedMip + 1)) := by
  have h := reallocation_calls tex gl t hr hinv hn
  unfold GL45ResourceTexture.copyCalls getFaceTargets getFaceCount at h
  refine ⟨h.1, fun hd => ?_⟩
  obtain ⟨k1, k2, k3⟩ := h.2 hd
  rw [k2] at k1 k3
  exact ⟨k1, k2, k3⟩

/-- Witness of C26: `demote()` on the freshly built handle of the 256 x 256 texture
(allocated from mip 0, populated from mip 2) copies the mips 2 to 8 in this order, from
level `mip` of object 1 to level `mip - 1` of the new object 2; a reallocating `promote()`
on a handle allocated and populated from mip 3 copies the mips 3 to 8, from level `mip - 3`
to level `mip - 1`. -/
theorem C26_copy_forward_witness :
    (GL45ResourceTexture.InRange GL45ResourceTexture.fresh256 ∧
      GL45ResourceTexture.MipsOrdered GL45ResourceTexture.fresh256 ∧
      GL45ResourceTexture.tex256.evalNumMips < U16 ∧
      GL45ResourceTexture.fresh256.allocatedMip < GL45ResourceTexture.fresh256.maxAllocatedMip) ∧
    (GL45ResourceTexture.demote GL45ResourceTexture.tex256 ⟨2, []⟩
      GL45ResourceTexture.fresh256).1.calls =
      [GLCall.createTextures 2, GLCall.textureStorage2D 2 8 128 128,
        GLCall.copyImageSubData 1 2 2 1 0 64 64, GLCall.copyImageSubData 1 3 2 2 0 32 32,
        GLCall.copyImageSubData 1 4 2 3 0 16 16, GLCall.copyImageSubData 1 5 2 4 0 8 8,
        GLCall.copyImageSubData 1 6 2 5 0 4 4, GLCall.copyImageSubData 1 7 2 6 0 2 2,
        GLCall.copyImageSubData 1 8 2 7 0 1 1, GLCall.deleteTextures 1] ∧
    (GL45ResourceTexture.promoteReallocate GL45ResourceTexture.tex256 ⟨2, []⟩
      ⟨1, 3, 3, 5, 0⟩).1.calls =
      [GLCall.createTextures 2, GLCall.textureStorage2D 2 8 128 128,
        GLCall.copyImageSubData 1 0 2 2 0 32 32, GLCall.copyImageSubData 1 1 2 3 0 16 16,
        GLCall.copyImageSubData 1 2 2 4 0 8 8, GLCall.copyImageSubData 1 3 2 5 0 4 4,
        GLCall.copyImageSubData 1 4 2 6 0 2 2, GLCall.copyImageSubData 1 5 2 7 0 1 1,
        GLCall.deleteTextures 1] :=
  ⟨⟨by decide, by decide, by decide, by decide⟩,
    ((C26_copy_forward GL45ResourceTexture.tex256 ⟨2, []⟩
      GL45ResourceTexture.fresh256 (by decide) (by decide) (by decide)).2 (by decide)).1.trans rfl,
    ((C26_copy_forward GL45ResourceTexture.tex256 ⟨2, []⟩
      ⟨1, 3, 3, 5, 0⟩ (by decide) (by decide) (by decide)).1 rfl).1.trans rfl⟩

/-! ### `stripToMip` and the page arithmetic -/

/-- C27: `stripToMip(newMinMip)` with `newMinMip < minMip`, or on a sparse handle with
`newMinMip > maxSparseLevel`, returns at once: the handle, with every field, and the device
are as before. -/
theorem C27_stripToMip_rejects (tex : Texture) (gl : GLContext) (t : GL45Texture)
    (newMinMip : Nat)
    (h : newMinMip < t.minMip ∨
      (t.sparseInfo.sparse = true ∧ newMinMip > t.sparseInfo.maxSparseLevel)) :
    GL45Texture.stripToMip tex gl t newMinMip = Except.ok (gl, t) := by
  unfold GL45Texture.stripToMip
  rcases h with h | ⟨h1, h2⟩
  · rw [if_pos h]
  · by_cases h0 : newMinMip < t.minMip
    · rw [if_pos h0]
    · rw [if_neg h0]
      simp [h1, h2]

/-- Witness of C27: stripping the transferred 4 x 4 handle, whose `minMip` is 0 after one
level was stripped, cannot go back; here a handle with `minMip = 1` is asked for mip 0. -/
theorem C27_stripToMip_rejects_witness :
    (0 < ({ transferred4 with minMip := 1 } : GL45Texture).minMip) ∧
    GL45Texture.stripToMip tex4 ⟨2, []⟩ { transferred4 with minMip := 1 } 0 =
      Except.ok (⟨2, []⟩, { transferred4 with minMip := 1 }) :=
  ⟨by decide, C27_stripToMip_rejects tex4 ⟨2, []⟩ { transferred4 with minMip := 1 } 0
    (Or.inl (by decide))⟩

theorem ceil_div_eq (d p : Nat) (hp : 0 < p) :
    d / p + min (max (d % p) 0) 1 = (d + p - 1) / p := by
  have hmax : max (d % p) 0 = d % p := Nat.max_eq_left (Nat.zero_le _)
  rw [hmax]
  have hd : p * (d / p) + d % p = d := Nat.div_add_mod d p
  have hlt : d % p < p := Nat.mod_lt _ hp
  generalize d / p = q at hd ⊢
  generalize d % p = r at hd hlt ⊢
  symm
  apply Nat.div_eq_of_lt_le
  · rw [Nat.add_mul, Nat.mul_comm q p]
    rcases Nat.eq_zero_or_pos r with h0 | h0
    · subst h0
      simp only [Nat.zero_min, Nat.zero_mul]
      omega
    · have hm : min r 1 = 1 := by omega
      rw [hm]
      omega
  · rw [Nat.add_mul, Nat.add_mul, Nat.mul_comm q p]
    rcases Nat.eq_zero_or_pos r with h0 | h0
    · subst h0
      simp only [Nat.zero_min, Nat.zero_mul]
      omega
    · have hm : min r 1 = 1 := by omega
      rw [hm]
      omega

theorem ceil_div_lt (d p : Nat) (hp : 0 < p) (hd : d < U32) : (d + p - 1) / p < U32 := by
  have h1 : (d + p - 1) / p ≤ d := by
    rw [Nat.div_le_iff_le_mul_add_pred hp]
    have : d ≤ p * d := Nat.le_mul_of_pos_left d hp
    omega
  omega

/-- C29: for page dimensions with components above 0 (and mip dimensions that fit
32 bits), each component of `getPageCounts` is the ceiling of dimension / page dimension,
the least number of pages that covers the dimension, and `getPageCount` is the product of
the three components modulo 2^32. -/
theorem C29_page_counts (pageDimensions dimensions : UVec3)
    (hpx : 0 < pageDimensions.x) (hpy : 0 < pageDimensions.y) (hpz : 0 < pageDimensions.z)
    (hdx : dimensions.x < U32) (hdy : dimensions.y < U32) (hdz : dimensions.z < U32) :
    (SparseInfo.getPageCounts pageDimensions dimensions).x =
      (dimensions.x + pageDimensions.x - 1) / pageDimensions.x ∧
    (SparseInfo.getPageCounts pageDimensions dimensions).y =
      (dimensions.y + pageDimensions.y - 1) / pageDimensions.y ∧
    (SparseInfo.getPageCounts pageDimensions dimensions).z =
      (dimensions.z + pageDimensions.z - 1) / pageDimensions.z ∧
    (dimensions.x ≤ (SparseInfo.getPageCounts pageDimensions dimensions).x * pageDimensions.x ∧
      ∀ n, dimensions.x ≤ n * pageDimensions.x →
        (SparseInfo.getPageCounts pageDimensions dimensions).x ≤ n) ∧
    SparseInfo.getPageCount pageDimensions dimensions =
      ((dimensions.x + pageDimensions.x - 1) / pageDimensions.x *
        ((dimensions.y + pageDimensions.y - 1) / pageDimensions.y) *
        ((dimensions.z + pageDimensions.z - 1) / pageDimensions.z)) % U32 := by
  have ex : (SparseInfo.getPageCounts pageDimensions dimensions).x =
      (dimensions.x + pageDimensions.x - 1) / pageDimensions.x := by
    show (dimensions.x / pageDimensions.x +
      min (max (dimensions.x % pageDimensions.x) 0) 1) % U32 = _
    rw [ceil_div_eq _ _ hpx, Nat.mod_eq_of_lt (ceil_div_lt _ _ hpx hdx)]
  have ey : (SparseInfo.getPageCounts pageDimensions dimensions).y =
      (dimensions.y + pageDimensions.y - 1) / pageDimensions.y := by
    show (dimensions.y / pageDimensions.y +
      min (max (dimensions.y % pageDimensions.y) 0) 1) % U32 = _
    rw [ceil_div_eq _ _ hpy, Nat.mod_eq_of_lt (ceil_div_lt _ _ hpy hdy)]
  have ez : (SparseInfo.getPageCounts pageDimensions dimensions).z =
      (dimensions.z + pageDimensions.z - 1) / pageDimensions.z := by
    show (dimensions.z / pageDimensions.z +
      min (max (dimensions.z % pageDimensions.z) 0) 1) % U32 = _
    rw [ceil_div_eq _ _ hpz, Nat.mod_eq_of_lt (ceil_div_lt _ _ hpz hdz)]
  refine ⟨ex, ey, ez, ⟨?_, fun n hn => ?_⟩, ?_⟩
  · rw [ex]
    have h1 := Nat.lt_div_mul_add (a := dimensions.x + pageDimensions.x - 1) hpx
    generalize (dimensions.x + pageDimensions.x - 1) / pageDimensions.x = c at h1 ⊢
    omega
  · rw [ex]
    rw [Nat.div_le_iff_le_mul_add_pred hpx]
    rw [Nat.mul_comm]
    omega
  · unfold SparseInfo.getPageCount
    rw [ex, ey, ez]

/-- Witness of C29: a 100 x 64 x 1 mip with pages of 32 x 32 x 1 takes 4 x 2 x 1 pages. -/
theorem C29_page_counts_witness :
    ((0 : Nat) < 32 ∧ (0 : Nat) < 1 ∧ (100 : Nat) < U32) ∧
    (SparseInfo.getPageCounts ⟨32, 32, 1⟩ ⟨100, 64, 1⟩).x = (100 + 32 - 1) / 32 ∧
    SparseInfo.getPageCount ⟨32, 32, 1⟩ ⟨100, 64, 1⟩ = 8 := by
  have h := C29_page_counts ⟨32, 32, 1⟩ ⟨100, 64, 1⟩ (by decide) (by decide) (by decide)
    (by decide) (by decide) (by decide)
  exact ⟨⟨by decide, by decide, by decide⟩, h.1, by rw [h.2.2.2.2]; decide⟩

/-! ### Incremental transfer -/

/-- C11, evaluated: a call of `continueTransfer` that does not return at once uploads into
one mip level only; its face loop leaves after the first face whose data is available, so
for a cube map with all six faces of mip 2 stored it makes one upload, of face 0, where
`copyMipFromTexture` makes six. -/
theorem C11_uploads_first_face_only (tex : Texture) (gl : GLContext) (t : GL45Texture) :
    ((t.populatedMip ≠ t.minMip → (GL45Texture.continueTransfer tex gl t).1.calls =
      (allocateToMip tex gl t (skipUnavailable tex (sub16 t.populatedMip 1))).1.calls ++
        continueTransferUploads tex t.id (skipUnavailable tex (sub16 t.populatedMip 1))) ∧
      (continueTransferUploads tex t.id
        (skipUnavailable tex (sub16 t.populatedMip 1))).length ≤ 1) ∧
    ((List.range 6).all (fun face => texCube4.isStoredMipFaceAvailable 2 face) = true ∧
      (GL45Texture.continueTransfer texCube4 ⟨2, []⟩ started4).1.calls =
        [GLCall.textureSubImage 1 2 0 1 1] ∧
      copyMipFromTextureCalls texCube4 1 2 2 =
        [GLCall.textureSubImage 1 2 0 1 1, GLCall.textureSubImage 1 2 1 1 1,
         GLCall.textureSubImage 1 2 2 1 1, GLCall.textureSubImage 1 2 3 1 1,
         GLCall.textureSubImage 1 2 4 1 1, GLCall.textureSubImage 1 2 5 1 1]) := by
  refine ⟨⟨fun h => ?_, ?_⟩, by decide, by decide, by decide⟩
  · unfold GL45Texture.continueTransfer
    rw [if_neg h]
    rfl
  · unfold continueTransferUploads
    split <;> simp

/-- C22, evaluated: `continueTransfer` returns whether `populatedMip` still differs from
`minMip` after the call, that is whether more blocks remain.  For a handle with
mips 0 to 2 the first call transfers mip 2, which is not the last block, and returns true;
the third call transfers mip 0, the last block, and returns false. -/
theorem C22_returns_true_while_blocks_remain (tex : Texture) (gl : GLContext)
    (t : GL45Texture) :
    ((GL45Texture.continueTransfer tex gl t).2.2 =
      decide ((GL45Texture.continueTransfer tex gl t).2.1.populatedMip ≠
        (GL45Texture.continueTransfer tex gl t).2.1.minMip)) ∧
    ((GL45Texture.continueTransfer tex4 ⟨1, []⟩ started4).2.2 = true ∧
      (continueTransferTimes tex4 1 started4).populatedMip = 2 ∧
      (GL45Texture.continueTransfer tex4 ⟨1, []⟩ (continueTransferTimes tex4 2 started4)).2.2 =
        false ∧
      (continueTransferTimes tex4 3 started4).populatedMip = 0 ∧
      (continueTransferTimes tex4 3 started4).minMip = 0) := by
  refine ⟨?_, by decide, by decide, by decide, by decide, by decide⟩
  unfold GL45Texture.continueTransfer
  by_cases h : t.populatedMip = t.minMip
  · rw [if_pos h]
    simp [h]
  · rw [if_neg h]

theorem skipUnavailable_texGap (n : Nat) (h : 2 ≤ n) : skipUnavailable texGap n = 2 := by
  induction n with
  | zero => omega
  | succ k ih =>
    unfold skipUnavailable
    by_cases hk : k + 1 = 2
    · have : texGap.isStoredMipFaceAvailable (k + 1) 0 = true := by
        rw [hk]
        decide
      rw [this]
      simpa using hk
    · have : texGap.isStoredMipFaceAvailable (k + 1) 0 = false := by
        show decide (k + 1 = 0 ∨ k + 1 = 2) = false
        simp [hk]
      rw [this]
      simp only [Bool.not_false, if_true]
      exact ih (by omega)

theorem continueTransfer_texGap_from_two (gl : GLContext) :
    (GL45Texture.continueTransfer texGap gl { startedGap with populatedMip := 2 }).2 =
      ({ startedGap with populatedMip := 0 }, true) := by
  rfl

theorem continueTransfer_texGap_from_zero (gl : GLContext) :
    (GL45Texture.continueTransfer texGap gl { startedGap with populatedMip := 0 }).2 =
      ({ startedGap with populatedMip := 2 }, true) := by
  unfold GL45Texture.continueTransfer
  rw [if_neg (by decide)]
  have h1 : sub16 ({ startedGap with populatedMip := 0 } : GL45Texture).populatedMip 1 = 65535 := by
    decide
  rw [h1, skipUnavailable_texGap 65535 (by omega)]
  rfl

theorem continueTransferTimes_succ (tex : Texture) (m : Nat) :
    ∀ t, continueTransferTimes tex (m + 1) t =
      (GL45Texture.continueTransfer tex ⟨1, []⟩ (continueTransferTimes tex m t)).2.1 := by
  induction m with
  | zero => intro t; rfl
  | succ j ihj =>
    intro t
    show continueTransferTimes tex (j + 1) (GL45Texture.continueTransfer tex ⟨1, []⟩ t).2.1 = _
    rw [ihj]
    rfl

theorem continueTransferTimes_texGap (n : Nat) :
    continueTransferTimes texGap (n + 1) startedGap =
      if n % 2 = 0 then { startedGap with populatedMip := 2 }
      else { startedGap with populatedMip := 0 } := by
  induction n with
  | zero => rfl
  | succ k ih =>
    rw [continueTransferTimes_succ texGap (k + 1), ih]
    by_cases hk : k % 2 = 0
    · rw [if_pos hk, if_neg (by omega), continueTransfer_texGap_from_two]
    · rw [if_neg hk, if_pos (by omega), continueTransfer_texGap_from_zero]

/-- C23, evaluated: a handle with `minMip = 1`, `maxMip = 2` whose mip 1 is not stored.
After `startTransfer` (`populatedMip = 3`) the first call of `continueTransfer` reaches
mip 2; the second skips the missing mip 1 down to mip 0, below `minMip`, and still returns
true; from then on `populatedMip` alternates between 2 and 0 (the decrement of 0 wraps to
65535 and the search comes back down to mip 2) and no call ever returns false. -/
theorem C23_transfer_skips_below_minMip :
    startedGap.minMip ≤ startedGap.maxMip ∧ startedGap.populatedMip = startedGap.maxMip + 1 ∧
    (continueTransferTimes texGap 1 startedGap).populatedMip = 2 ∧
    (continueTransferTimes texGap 2 startedGap).populatedMip = 0 ∧
    (continueTransferTimes texGap 2 startedGap).populatedMip <
      (continueTransferTimes texGap 2 startedGap).minMip ∧
    (∀ n, (continueTransferTimes texGap (n + 1) startedGap).populatedMip ≠
      (continueTransferTimes texGap (n + 1) startedGap).minMip) ∧
    (∀ n, (GL45Texture.continueTransfer texGap ⟨1, []⟩
      (continueTransferTimes texGap n startedGap)).2.2 = true) := by
  refine ⟨by decide, by decide, by decide, by decide, by decide, fun n => ?_, fun n => ?_⟩
  · rw [continueTransferTimes_texGap]
    split <;> decide
  · cases n with
    | zero => rfl
    | succ k =>
      rw [continueTransferTimes_texGap]
      split
      · rw [continueTransfer_texGap_from_two]
      · rw [continueTransfer_texGap_from_zero]

/-- C28, evaluated: a sparse handle with pages of 2 x 2 texels whose three mips are
committed by three calls of `continueTransfer` and which is then destroyed.  For the
two-dimensional texture 6 pages were added and 6 are subtracted.  For the cube map
`allocateToMip` has added the same 6 pages (one face), while the destructor subtracts the
pages of six faces: its assertion fails on the first mip and `allocatedPages` wraps to
2^32 - 30 instead of ending at 0. -/
theorem C28_cube_pages_unbalanced :
    (continueTransferTimes tex4 3 startedSparse).sparseInfo.allocatedPages = 6 ∧
    (continueTransferTimes tex4 3 startedSparse).populatedMip =
      (continueTransferTimes tex4 3 startedSparse).minMip ∧
    (GL45Texture.destroyPages tex4 (continueTransferTimes tex4 3 startedSparse)).toOption =
      some (some 0) ∧
    (continueTransferTimes texCube4 3 startedSparse).sparseInfo.allocatedPages = 6 ∧
    (continueTransferTimes texCube4 3 startedSparse).populatedMip =
      (continueTransferTimes texCube4 3 startedSparse).minMip ∧
    GL45Texture.destroyAssertFirst texCube4 (continueTransferTimes texCube4 3 startedSparse) =
      false ∧
    (GL45Texture.destroyPages texCube4
      (continueTransferTimes texCube4 3 startedSparse)).toOption = some (some 4294967266) := by
  refine ⟨by decide, by decide, by decide, by decide, by decide, by decide, by decide⟩

/-! ### The recorded size of a handle -/

/-- C19, evaluated: `promote()` and `demote()` of the dense handle change the allocated
range and leave the recorded size as it was (both end with a note that the memory usage is
still to be updated), and the constructor does not assign it either.  The handle of the
256 x 256 texture, allocated from mip 0 and with the matching size of 349524 bytes, is
allocated from mip 1 after `demote()`, where the mips sum to 87380 bytes, and still records
349524.  For the managed handle `stripToMip` ends with `updateSize`, and the size recorded
after stripping the 4 x 4 handle to mip 1 is the 20 bytes of its mips 1 and 2. -/
theorem C19_dense_size_not_updated (tex : Texture) (gl : GLContext) (t : GL45ResourceTexture)
    (populatedMip0 maxAllocatedMip0 size0 : Nat) :
    ((GL45ResourceTexture.promote tex gl t).2.size = t.size ∧
      (GL45ResourceTexture.demote tex gl t).2.size = t.size ∧
      (GL45ResourceTexture.create tex gl populatedMip0 maxAllocatedMip0 size0).2.size = size0) ∧
    (GL45ResourceTexture.fresh256.size =
        residentBytes GL45ResourceTexture.tex256 GL45ResourceTexture.fresh256.allocatedMip ∧
      (GL45ResourceTexture.demote GL45ResourceTexture.tex256 GL45ResourceTexture.gl0
        GL45ResourceTexture.fresh256).2.allocatedMip = 1 ∧
      residentBytes GL45ResourceTexture.tex256 1 = 87380 ∧
      (GL45ResourceTexture.demote GL45ResourceTexture.tex256 GL45ResourceTexture.gl0
        GL45ResourceTexture.fresh256).2.size = 349524) ∧
    ((GL45Texture.stripToMip tex4 ⟨2, []⟩ started4 1).toOption.map
        (fun r => (r.2.mipOffset, r.2.size)) = some (1, 20) ∧
      residentBytes tex4 1 = 20) := by
  refine ⟨⟨?_, rfl, ?_⟩, ⟨by decide, by decide, by decide, by decide⟩, by decide, by decide⟩
  · rw [GL45ResourceTexture.promote_snd]
    split <;> rfl
  · unfold GL45ResourceTexture.create GL45ResourceTexture.allocateStorage
    cases GL45ResourceTexture.initialMip tex <;> rfl

/-! ### One pass of the worker -/

theorem updateSize_of_not_compressed (tex : Texture) (t : GL45Texture)
    (h : tex.isCompressed = false) :
    GL45Texture.updateSize tex t =
      Except.ok { t with
        toGLTexture := t.toGLTexture.setSize
          (if (t.transferrable && t.sparseInfo.sparse) = true then t.sparseInfo.getSize
           else tex.evalTotalSize t.mipOffset) } := by
  unfold GL45Texture.updateSize
  rw [if_neg (by simp [h])]
  split <;> rfl

theorem serviceLoop_cons (transferCount : Nat) (b : Backend) (count : Nat)
    (transferred : List TextureWeakPointer) (p : TexturePointer) (rest : List TexturePointer)
    (h : transferCount < MAX_TRANSFERS_PER_PASS) :
    serviceLoop transferCount b count transferred (p :: rest) =
      match serviceEntry b count transferred p with
      | Except.error e => Except.error e
      | Except.ok r =>
        match serviceLoop (transferCount + 1) r.backend r.textureGPUTransferCount
            r.transferredTextures rest with
        | Except.error e => Except.error e
        | Except.ok done =>
          Except.ok (done.1, if r.stays then p :: done.2 else done.2) := by
  rw [serviceLoop]
  rw [if_neg (by omega)]

theorem serviceLoop_full (b : Backend) (count : Nat) (transferred : List TextureWeakPointer)
    (l : List TexturePointer) :
    serviceLoop MAX_TRANSFERS_PER_PASS b count transferred l =
      Except.ok (⟨b, count, transferred, true⟩, l) := by
  cases l with
  | nil => rfl
  | cons p rest =>
    rw [serviceLoop]
    rw [if_pos (by unfold MAX_TRANSFERS_PER_PASS; omega)]

/-- C12 fails as stated: with texture 0 twice in the transferring list, one pass calls
`continueTransfer` twice on the same handle, which goes from `populatedMip = 3` to
`populatedMip = 1` with the uploads of its mips 2 and 1. -/
theorem C12_same_handle_twice_counterexample :
    (serviceLoop 0 backendStarted4 0 [] [0, 0]).toOption.map
        (fun r => ((r.1.backend.objects 0).populatedMip, r.1.backend.gl.calls, r.2)) =
      some (1, [GLCall.textureSubImage 1 2 0 1 1, GLCall.textureSubImage 1 1 0 2 2], [0, 0]) := by
  decide

/-- C12 amended: one pass of the servicing loop makes at most `MAX_TRANSFERS_PER_PASS` = 2
rounds, each with one call of `continueTransfer`: none on an empty list, one on the entry of
a list of one, and otherwise one on the first entry and then one on the second entry of the
list, in that order; every further entry is left where it is. -/
theorem C12_two_entries_per_pass (b : Backend) (count : Nat)
    (transferred : List TextureWeakPointer) :
    MAX_TRANSFERS_PER_PASS = 2 ∧
    serviceLoop 0 b count transferred [] = Except.ok (⟨b, count, transferred, true⟩, []) ∧
    (∀ p, serviceLoop 0 b count transferred [p] =
      match serviceEntry b count transferred p with
      | Except.error e => Except.error e
      | Except.ok r =>
        Except.ok (⟨r.backend, r.textureGPUTransferCount, r.transferredTextures, true⟩,
          if r.stays then [p] else [])) ∧
    (∀ p q rest, serviceLoop 0 b count transferred (p :: q :: rest) =
      match serviceEntry b count transferred p with
      | Except.error e => Except.error e
      | Except.ok r =>
        match serviceEntry r.backend r.textureGPUTransferCount r.transferredTextures q with
        | Except.error e => Except.error e
        | Except.ok r2 =>
          Except.ok (⟨r2.backend, r2.textureGPUTransferCount, r2.transferredTextures, true⟩,
            (if r.stays then [p] else []) ++ ((if r2.stays then [q] else []) ++ rest))) := by
  refine ⟨rfl, rfl, fun p => ?_, fun p q rest => ?_⟩
  · rw [serviceLoop_cons 0 b count transferred p [] (by decide)]
    cases serviceEntry b count transferred p with
    | error e => rfl
    | ok r =>
      simp only
      cases r.stays <;> rfl
  · rw [serviceLoop_cons 0 b count transferred p (q :: rest) (by decide)]
    cases serviceEntry b count transferred p with
    | error e => rfl
    | ok r =>
      simp only
      rw [serviceLoop_cons 1 _ _ _ q rest (by decide)]
      cases serviceEntry r.backend r.textureGPUTransferCount r.transferredTextures q with
      | error e => rfl
      | ok r2 =>
        simp only
        rw [show (1 + 1 : Nat) = MAX_TRANSFERS_PER_PASS from rfl, serviceLoop_full]
        simp only
        cases r.stays <;> cases r2.stays <;> rfl

/-- C13: in a round of the servicing loop, an entry whose `continueTransfer` returns true
stays in the transferring list at its position and nothing else is done to it; an entry
whose `continueTransfer` returns false (of a texture that is not compressed, so that
`updateSize` returns) leaves the transferring list, is appended to the transferred list, its
handle gets the data stamp of the texture as content stamp and the state `Transferred`, and
the global transfer count is decremented by one. -/
theorem C13_serviced_entry (b : Backend) (count : Nat)
    (transferred : List TextureWeakPointer) (p : TexturePointer) :
    ((GL45Texture.continueTransfer (b.textures p) b.gl (b.objects p)).2.2 = true →
      ∃ r, serviceEntry b count transferred p = Except.ok r ∧ r.stays = true ∧
        r.transferredTextures = transferred ∧ r.textureGPUTransferCount = count ∧
        r.backend.objects p =
          (GL45Texture.continueTransfer (b.textures p) b.gl (b.objects p)).2.1) ∧
    ((GL45Texture.continueTransfer (b.textures p) b.gl (b.objects p)).2.2 = false →
      (b.textures p).isCompressed = false →
      ∃ r, serviceEntry b count transferred p = Except.ok r ∧ r.stays = false ∧
        r.transferredTextures = transferred ++ [some p] ∧
        (r.backend.objects p).contentStamp = (b.textures p).dataStamp ∧
        (r.backend.objects p).syncState = GLSyncState.Transferred ∧
        r.textureGPUTransferCount = (count + U32 - 1) % U32 ∧
        (0 < count → count < U32 → r.textureGPUTransferCount + 1 = count)) ∧
    (∀ transferCount rest r, transferCount < MAX_TRANSFERS_PER_PASS →
      serviceEntry b count transferred p = Except.ok r →
      ∀ done, serviceLoop (transferCount + 1) r.backend r.textureGPUTransferCount
          r.transferredTextures rest = Except.ok done →
        serviceLoop transferCount b count transferred (p :: rest) =
          Except.ok (done.1, if r.stays then p :: done.2 else done.2)) := by
  refine ⟨fun h => ?_, fun h hc => ?_, fun transferCount rest r hlt hr done hd => ?_⟩
  · unfold serviceEntry
    simp only [h, if_true]
    exact ⟨_, rfl, rfl, rfl, rfl, by simp⟩
  · unfold serviceEntry
    simp only [h, Bool.false_eq_true, if_false]
    rw [updateSize_of_not_compressed _ _ hc]
    refine ⟨_, rfl, rfl, rfl, ?_, ?_, rfl, fun h1 h2 => ?_⟩
    · simp [GLTexture.setSize]
    · simp
    · show (count + U32 - 1) % U32 + 1 = count
      unfold U32 at *
      omega
  · rw [serviceLoop_cons transferCount b count transferred p rest hlt, hr]
    simp only
    rw [hd]

/-- Witness of C13: the first pass over the started handle of the 4 x 4 texture, whose
`continueTransfer` returns true. -/
theorem C13_serviced_entry_witness :
    (GL45Texture.continueTransfer (backendStarted4.textures 0) backendStarted4.gl
      (backendStarted4.objects 0)).2.2 = true ∧
    ∃ r, serviceEntry backendStarted4 1 [] 0 = Except.ok r ∧ r.stays = true ∧
      r.transferredTextures = [] ∧ r.textureGPUTransferCount = 1 := by
  obtain ⟨r, h1, h2, h3, h4, _⟩ := (C13_serviced_entry backendStarted4 1 [] 0).1 (by decide)
  exact ⟨by decide, r, h1, h2, h3, h4⟩

/-! ### What `stripToMip`, `derez` and `preDerez` leave unchanged -/

theorem derez_delta (m : Nat) : sub16 (add16 m 1) m = 1 := by
  unfold add16 sub16 U16 at *
  omega

theorem sameIdentity_refl (t : GL45Texture) : sameIdentity t t :=
  ⟨rfl, rfl, rfl, rfl, rfl, rfl⟩

theorem sameIdentity_trans {a b c : GL45Texture} (h1 : sameIdentity a b)
    (h2 : sameIdentity b c) : sameIdentity a c :=
  ⟨h2.1.trans h1.1, h2.2.1.trans h1.2.1, h2.2.2.1.trans h1.2.2.1,
    h2.2.2.2.1.trans h1.2.2.2.1, h2.2.2.2.2.1.trans h1.2.2.2.2.1,
    h2.2.2.2.2.2.trans h1.2.2.2.2.2⟩

theorem derezable_iff (t : GL45Texture) :
    t.derezable = true ↔
      t.external = false ∧ t.transferrable = true ∧ t.targetMinMip < t.maxMinMip := by
  unfold GL45Texture.derezable GL45Texture.maxMinMip
  by_cases he : t.external = true
  · simp [he]
  · simp [he]

theorem derezable_congr {t r : GL45Texture} (h : sameIdentity t r)
    (ht : r.targetMinMip = t.targetMinMip) (hm : r.maxMip = t.maxMip) :
    r.derezable = t.derezable := by
  obtain ⟨_, h2, h3, h4, h5, _⟩ := h
  unfold GL45Texture.derezable
  rw [h2, h3, h4, h5, ht, hm]

/-- A call of `stripToMip` that returns leaves the state of synchronisation, the flags, the
sparse limits, the virtual size and `targetMinMip` as they were. -/
theorem stripToMip_frame (tex : Texture) (gl : GLContext) (t : GL45Texture) (newMinMip : Nat)
    (r : GLContext × GL45Texture)
    (h : GL45Texture.stripToMip tex gl t newMinMip = Except.ok r) :
    sameIdentity t r.2 ∧ r.2.targetMinMip = t.targetMinMip ∧
      r.2.populatedMip = t.populatedMip := by
  unfold GL45Texture.stripToMip at h
  by_cases h1 : newMinMip < t.minMip
  · rw [if_pos h1] at h
    cases h
    exact ⟨sameIdentity_refl _, rfl, rfl⟩
  · rw [if_neg h1] at h
    by_cases h2 : (t.sparseInfo.sparse && decide (newMinMip > t.sparseInfo.maxSparseLevel)) = true
    · rw [if_pos h2] at h
      cases h
      exact ⟨sameIdentity_refl _, rfl, rfl⟩
    · rw [if_neg h2] at h
      simp only at h
      by_cases hc : tex.isCompressed = true
      · exfalso
        have hu : ∀ x, GL45Texture.updateSize tex x = Except.error Abort.fatal := by
          intro x
          unfold GL45Texture.updateSize
          rw [if_pos hc]
        by_cases h3 : t.sparseInfo.sparse = true
        · rw [if_pos h3, hu] at h
          cases h
        · rw [if_neg h3] at h
          split at h
          · cases h
          · rw [hu] at h
            cases h
      · have hc2 : tex.isCompressed = false := by simpa using hc
        by_cases h3 : t.sparseInfo.sparse = true
        · rw [if_pos h3, updateSize_of_not_compressed _ _ hc2] at h
          cases h
          exact ⟨⟨rfl, rfl, rfl, rfl, rfl, rfl⟩, rfl, rfl⟩
        · rw [if_neg h3] at h
          split at h
          · cases h
          · rw [updateSize_of_not_compressed _ _ hc2] at h
            cases h
            exact ⟨⟨rfl, rfl, rfl, rfl, rfl, rfl⟩, rfl, rfl⟩

/-- On a supported handle that, when it is dense, has a mip above mip 0, `derez` returns, and
`_maxMip` does not grow. -/
theorem derez_spec (tex : Texture) (gl : GLContext) (t : GL45Texture)
    (hc : tex.isCompressed = false) (hm : t.maxMip < U16)
    (h1 : t.sparseInfo.sparse = false → 1 ≤ t.maxMip) :
    ∃ r, GL45Texture.derez tex gl t = Except.ok r ∧ r.2.maxMip ≤ t.maxMip := by
  unfold GL45Texture.derez GL45Texture.stripToMip
  by_cases k1 : add16 t.minMip 1 < t.minMip
  · rw [if_pos k1]
    exact ⟨_, rfl, le_refl _⟩
  · rw [if_neg k1]
    by_cases k2 : (t.sparseInfo.sparse &&
        decide (add16 t.minMip 1 > t.sparseInfo.maxSparseLevel)) = true
    · rw [if_pos k2]
      exact ⟨_, rfl, le_refl _⟩
    · rw [if_neg k2]
      simp only
      by_cases k3 : t.sparseInfo.sparse = true
      · rw [if_pos k3, updateSize_of_not_compressed _ _ hc]
        exact ⟨_, rfl, le_refl _⟩
      · rw [if_neg k3]
        have hs : t.sparseInfo.sparse = false := by simpa using k3
        have hmax := h1 hs
        have hd : sub16 t.maxMip (sub16 (add16 t.minMip 1) t.minMip) = t.maxMip - 1 := by
          rw [derez_delta]
          exact sub16_of_le hmax hm
        have hne : ¬ (sub16 t.maxMip (sub16 (add16 t.minMip 1) t.minMip) = 65535) := by
          rw [hd]
          unfold U16 at hm
          omega
        rw [if_neg hne, updateSize_of_not_compressed _ _ hc]
        refine ⟨_, rfl, ?_⟩
        show sub16 t.maxMip (sub16 (add16 t.minMip 1) t.minMip) ≤ t.maxMip
        rw [hd]
        omega

/-- One round of the loop on a derezable, supported handle returns: `targetMinMip` is one
higher, `_maxMip` has not grown, the untouched fields are as before. -/
theorem sweepStepOn_supported (textures : TexturePointer → Texture) (s : SweepState)
    (e : TextureAndSize) (hd : (s.objects e.texture).derezable = true)
    (hg : Supported (textures e.texture) (s.objects e.texture)) :
    ∃ s1, sweepStepOn textures s e = Except.ok s1 ∧
      sameIdentity (s.objects e.texture) (s1.objects e.texture) ∧
      (s1.objects e.texture).targetMinMip = (s.objects e.texture).targetMinMip + 1 ∧
      (s1.objects e.texture).maxMip ≤ (s.objects e.texture).maxMip := by
  obtain ⟨hc, hm, hsp⟩ := hg
  obtain ⟨_, _, hlt⟩ := (derezable_iff _).mp hd
  have htarget : add16 (s.objects e.texture).targetMinMip 1 =
      (s.objects e.texture).targetMinMip + 1 := by
    unfold GL45Texture.maxMinMip at hlt
    unfold add16
    apply Nat.mod_eq_of_lt
    by_cases hs : (s.objects e.texture).sparseInfo.sparse = true
    · rw [if_pos hs] at hlt
      have := hsp hs
      unfold U16
      omega
    · rw [if_neg hs] at hlt
      omega
  by_cases hl : (GL45Texture.preDerez (textures e.texture) (s.objects e.texture)).2.2 = true
  · unfold sweepStepOn
    simp only [hl, if_true]
    refine ⟨_, rfl, ?_, ?_, ?_⟩
    · simp only [Function.update_same]
      exact ⟨rfl, rfl, rfl, rfl, rfl, rfl⟩
    · simp only [Function.update_same]
      exact htarget
    · simp only [Function.update_same]
      exact le_refl _
  · have hl2 : (GL45Texture.preDerez (textures e.texture) (s.objects e.texture)).2.2 = false := by
      simpa using hl
    have h1 : (GL45Texture.preDerez (textures e.texture) (s.objects e.texture)).1.sparseInfo.sparse
        = false → 1 ≤ (GL45Texture.preDerez (textures e.texture) (s.objects e.texture)).1.maxMip := by
      intro hs
      have hs2 : (s.objects e.texture).sparseInfo.sparse = false := hs
      unfold GL45Texture.maxMinMip at hlt
      rw [if_neg (by simp [hs2])] at hlt
      show 1 ≤ (s.objects e.texture).maxMip
      omega
    obtain ⟨r, hr, hle⟩ := derez_spec (textures e.texture) s.gl
      (GL45Texture.preDerez (textures e.texture) (s.objects e.texture)).1 hc hm h1
    obtain ⟨hid, ht, _⟩ := stripToMip_frame _ _ _ _ r hr
    unfold sweepStepOn
    simp only [hl2, hr]
    refine ⟨_, rfl, ?_, ?_, ?_⟩
    · simp only [Function.update_same]
      exact hid
    · simp only [Function.update_same]
      rw [ht]
      exact htarget
    · simp only [Function.update_same]
      exact hle

/-! ### Termination of the demotion loop when no texture is queued twice -/

theorem stepsLeft_lt {t r : GL45Texture} (hid : sameIdentity t r)
    (ht : r.targetMinMip = t.targetMinMip + 1) (hm : r.maxMip ≤ t.maxMip)
    (hd : t.derezable = true) : stepsLeft r < stepsLeft t := by
  obtain ⟨_, _, hlt⟩ := (derezable_iff _).mp hd
  obtain ⟨_, _, _, h4, h5, _⟩ := hid
  unfold stepsLeft GL45Texture.maxMinMip at *
  rw [h4, h5, ht]
  split
  · rename_i hs
    rw [if_pos hs] at hlt
    omega
  · rename_i hs
    rw [if_neg hs] at hlt
    omega

theorem sweepInv_step (textures : TexturePointer → Texture) (visited : List TexturePointer)
    (s : SweepState) (e : TextureAndSize) (hinv : SweepInv textures visited s)
    (he : e ∈ s.allTextures) :
    ∃ s1, sweepStepOn textures s e = Except.ok s1 ∧ SweepInv textures visited s1 ∧
      (∀ p, p ≠ e.texture → s1.objects p = s.objects p) ∧
      sameIdentity (s.objects e.texture) (s1.objects e.texture) ∧
      (s1.objects e.texture).targetMinMip = (s.objects e.texture).targetMinMip + 1 ∧
      (s1.objects e.texture).maxMip ≤ (s.objects e.texture).maxMip ∧
      sweepMeasure s1.objects visited < sweepMeasure s.objects visited := by
  obtain ⟨hnd, hent, hsup, hall⟩ := hinv
  have hev := (hent e he).1
  have hed := (hent e he).2
  obtain ⟨s1, hs1, hid, ht, hm⟩ := sweepStepOn_supported textures s e hed (hsup _ hev)
  obtain ⟨hothers, hqueue, _⟩ := sweepStepOn_ok textures s s1 e hs1
  have hl : s.allTextures.Nodup := List.Nodup.of_map _ hnd
  have hnot : ∀ x ∈ s.allTextures.erase e, x.texture ≠ e.texture := by
    intro x hx hxe
    have hx2 := (List.Nodup.mem_erase_iff hl).mp hx
    exact hx2.1 (List.inj_on_of_nodup_map hnd hx2.2 he hxe)
  have hsteps := stepsLeft_lt hid ht hm hed
  refine ⟨s1, hs1, ⟨?_, ?_, ?_, ?_⟩, hothers, hid, ht, hm, ?_⟩
  · rw [hqueue, List.map_append]
    have hsub : ((s.allTextures.erase e).map fun x => x.texture).Nodup :=
      List.Nodup.sublist ((List.erase_sublist e s.allTextures).map _) hnd
    split
    · rw [List.map_singleton, List.nodup_append]
      refine ⟨hsub, List.nodup_singleton _, ?_⟩
      intro a ha hb
      rw [List.mem_singleton.mp hb] at ha
      obtain ⟨x, hx, hxe⟩ := List.mem_map.mp ha
      exact hnot x hx hxe
    · simpa using hsub
  · intro x hx
    rw [hqueue] at hx
    rcases List.mem_append.mp hx with hx | hx
    · have hx2 := List.mem_of_mem_erase hx
      refine ⟨(hent x hx2).1, ?_⟩
      rw [hothers _ (hnot x hx)]
      exact (hent x hx2).2
    · split at hx
      · rename_i hder
        rw [List.mem_singleton.mp hx]
        exact ⟨hev, hder⟩
      · cases hx
  · intro p hp
    by_cases hpe : p = e.texture
    · rw [hpe]
      obtain ⟨hc, hmax, hsp⟩ := hsup _ hev
      obtain ⟨_, _, _, h4, h5, _⟩ := hid
      refine ⟨hc, lt_of_le_of_lt hm hmax, ?_⟩
      rw [h4, h5]
      exact hsp
    · rw [hothers p hpe]
      exact hsup p hp
  · intro p hp hder
    by_cases hpe : p = e.texture
    · rw [hpe] at hder
      refine ⟨⟨e.texture, subSize e.size
          (GL45Texture.preDerez (textures e.texture) (s.objects e.texture)).2.1⟩, ?_, hpe.symm⟩
      rw [hqueue, if_pos hder]
      simp
    · rw [hothers p hpe] at hder
      obtain ⟨x, hx, hxp⟩ := hall p hp hder
      refine ⟨x, ?_, hxp⟩
      rw [hqueue]
      apply List.mem_append_left
      apply (List.Nodup.mem_erase_iff hl).mpr
      refine ⟨?_, hx⟩
      intro hxe
      rw [hxe] at hxp
      exact hpe hxp.symm
  · unfold sweepMeasure
    apply List.sum_lt_sum
    · intro p _
      by_cases hpe : p = e.texture
      · rw [hpe]
        exact le_of_lt hsteps
      · rw [hothers p hpe]
    · exact ⟨e.texture, hev, hsteps⟩

/-- With no texture queued twice and every visited handle supported, the demotion loop
returns once it is given as many rounds as the queued handles have demotion steps left; it
ends with the loop condition false. -/
theorem sweepLoop_returns (textures : TexturePointer → Texture) (allowedTextureMemory : Nat)
    (visited : List TexturePointer) :
    ∀ (fuel : Nat) (tie : Nat → Nat) (s : SweepState), SweepInv textures visited s →
      sweepMeasure s.objects visited ≤ fuel →
      ∃ s1, sweepLoop textures allowedTextureMemory tie fuel s = some (Except.ok s1) ∧
        SweepInv textures visited s1 ∧ sweepCond allowedTextureMemory s1 = false := by
  intro fuel
  induction fuel with
  | zero =>
    intro tie s hinv hm
    by_cases hc : sweepCond allowedTextureMemory s = true
    · exfalso
      have hq : s.allTextures ≠ [] := by
        unfold sweepCond at hc
        intro hnil
        rw [hnil] at hc
        simp at hc
      obtain ⟨e, he⟩ := top_isSome (tie 0) s.allTextures hq
      obtain ⟨s1, _, _, _, _, _, _, hlt⟩ :=
        sweepInv_step textures visited s e hinv (top_spec _ _ _ he).1
      omega
    · unfold sweepLoop
      rw [if_neg hc]
      exact ⟨s, rfl, hinv, by simpa using hc⟩
  | succ fuel ih =>
    intro tie s hinv hm
    by_cases hc : sweepCond allowedTextureMemory s = true
    · have hq : s.allTextures ≠ [] := by
        unfold sweepCond at hc
        intro hnil
        rw [hnil] at hc
        simp at hc
      obtain ⟨e, he⟩ := top_isSome (tie 0) s.allTextures hq
      obtain ⟨s1, hs1, hinv1, _, _, _, _, hlt⟩ :=
        sweepInv_step textures visited s e hinv (top_spec _ _ _ he).1
      obtain ⟨s2, hs2, hinv2, hc2⟩ := ih (fun n => tie (n + 1)) s1 hinv1 (by omega)
      refine ⟨s2, ?_, hinv2, hc2⟩
      unfold sweepLoop
      rw [if_pos hc]
      simp only
      rw [sweepStep_of_top textures (tie 0) s e he, hs1]
      exact hs2
    · unfold sweepLoop
      rw [if_neg hc]
      exact ⟨s, rfl, hinv, by simpa using hc⟩

/-! ### What every round of the demotion loop preserves -/

/-- A round of the loop that returns leaves the untouched fields of the handle as they were
and adds one to `targetMinMip` in `uint16` arithmetic. -/
theorem sweepStepOn_frame (textures : TexturePointer → Texture) (s s1 : SweepState)
    (e : TextureAndSize) (h : sweepStepOn textures s e = Except.ok s1) :
    sameIdentity (s.objects e.texture) (s1.objects e.texture) ∧
    (s1.objects e.texture).targetMinMip = add16 (s.objects e.texture).targetMinMip 1 := by
  unfold sweepStepOn at h
  simp only at h
  by_cases hl : (GL45Texture.preDerez (textures e.texture) (s.objects e.texture)).2.2 = true
  · simp only [hl, if_true] at h
    cases h
    simp only [Function.update_same]
    exact ⟨⟨rfl, rfl, rfl, rfl, rfl, rfl⟩, rfl⟩
  · have hl2 : (GL45Texture.preDerez (textures e.texture) (s.objects e.texture)).2.2 = false := by
      simpa using hl
    cases hd : GL45Texture.derez (textures e.texture) s.gl
        (GL45Texture.preDerez (textures e.texture) (s.objects e.texture)).1 with
    | error a =>
      simp only [hl2, hd] at h
      simp at h
    | ok r =>
      simp only [hl2, hd, Bool.false_eq_true, if_false] at h
      cases h
      simp only [Function.update_same]
      obtain ⟨hid, ht, _⟩ := stripToMip_frame _ _ _ _ r hd
      exact ⟨hid, ht⟩

theorem sweepCond_ne_nil {allowedTextureMemory : Nat} {s : SweepState}
    (hc : sweepCond allowedTextureMemory s = true) : s.allTextures ≠ [] := by
  unfold sweepCond at hc
  intro hnil
  rw [hnil] at hc
  simp at hc

/-- A property of the loop state that every round preserves holds when the loop returns. -/
theorem sweepLoop_invariant (textures : TexturePointer → Texture) (allowedTextureMemory : Nat)
    (I : SweepState → Prop)
    (hstep : ∀ s e s1, I s → e ∈ s.allTextures → sweepStepOn textures s e = Except.ok s1 → I s1) :
    ∀ (fuel : Nat) (tie : Nat → Nat) (s s2 : SweepState), I s →
      sweepLoop textures allowedTextureMemory tie fuel s = some (Except.ok s2) →
      I s2 ∧ sweepCond allowedTextureMemory s2 = false := by
  intro fuel
  induction fuel with
  | zero =>
    intro tie s s2 hi h
    unfold sweepLoop at h
    by_cases hc : sweepCond allowedTextureMemory s = true
    · rw [if_pos hc] at h
      cases h
    · rw [if_neg hc] at h
      cases h
      exact ⟨hi, by simpa using hc⟩
  | succ fuel ih =>
    intro tie s s2 hi h
    unfold sweepLoop at h
    by_cases hc : sweepCond allowedTextureMemory s = true
    · rw [if_pos hc] at h
      simp only at h
      obtain ⟨e, he⟩ := top_isSome (tie 0) s.allTextures (sweepCond_ne_nil hc)
      rw [sweepStep_of_top textures (tie 0) s e he] at h
      cases hs : sweepStepOn textures s e with
      | error a => rw [hs] at h; cases h
      | ok s1 =>
        rw [hs] at h
        exact ih _ s1 s2 (hstep s e s1 hi (top_spec _ _ _ he).1 hs) h
    · rw [if_neg hc] at h
      cases h
      exact ⟨hi, by simpa using hc⟩

/-- A property of the loop state that every round preserves holds before every round that
the loop reaches. -/
theorem sweepAfter_invariant (textures : TexturePointer → Texture) (allowedTextureMemory : Nat)
    (I : SweepState → Prop)
    (hstep : ∀ s e s1, I s → e ∈ s.allTextures → sweepStepOn textures s e = Except.ok s1 → I s1) :
    ∀ (n : Nat) (tie : Nat → Nat) (s s2 : SweepState), I s →
      sweepAfter textures allowedTextureMemory tie n s = some s2 → I s2 := by
  intro n
  induction n with
  | zero =>
    intro tie s s2 hi h
    unfold sweepAfter at h
    cases h
    exact hi
  | succ n ih =>
    intro tie s s2 hi h
    unfold sweepAfter at h
    by_cases hc : sweepCond allowedTextureMemory s = true
    · rw [if_pos hc] at h
      obtain ⟨e, he⟩ := top_isSome (tie 0) s.allTextures (sweepCond_ne_nil hc)
      rw [sweepStep_of_top textures (tie 0) s e he] at h
      cases hs : sweepStepOn textures s e with
      | error a => rw [hs] at h; cases h
      | ok s1 =>
        rw [hs] at h
        exact ih _ s1 s2 (hstep s e s1 hi (top_spec _ _ _ he).1 hs) h
    · rw [if_neg hc] at h
      cases h

/-- The parts of a run of `recomputeTextureLoad` that returns. -/
theorem recomputeTextureLoad_ok (allowedTextureMemory : Nat) (tie : Nat → Nat) (fuel : Nat)
    (b : Backend) (h : GLTextureTransferHelper) (r : Backend × GLTextureTransferHelper)
    (hr : recomputeTextureLoad allowedTextureMemory tie fuel b h = some (Except.ok r)) :
    ∃ built s, buildPriorityQueue b h = Except.ok built ∧
      sweepLoop b.textures allowedTextureMemory tie fuel (sweepStart b built) =
        some (Except.ok s) ∧
      r.1.textures = b.textures ∧ r.1.objects = s.objects ∧ r.1.gl = s.gl ∧
      r.2.pendingTextures = h.pendingTextures ∧
      r.2.transferringTextures = h.transferringTextures.insertionSort
        (fun a c => (b.textures a).getSize ≤ (b.textures c).getSize) ∧
      r.2.transferredTextures = h.transferredTextures.filter Option.isSome := by
  unfold recomputeTextureLoad at hr
  cases hb : buildPriorityQueue b h with
  | error a => rw [hb] at hr; cases hr
  | ok built =>
    rw [hb] at hr
    simp only at hr
    cases hl : sweepLoop b.textures allowedTextureMemory tie fuel (sweepStart b built) with
    | none => rw [hl] at hr; cases hr
    | some x =>
      cases x with
      | error a => rw [hl] at hr; cases hr
      | ok s =>
        rw [hl] at hr
        cases hr
        exact ⟨built, s, rfl, hl, rfl, rfl, rfl, rfl, rfl, rfl⟩

theorem filter_isSome_eq (l : List TextureWeakPointer) :
    l.filter Option.isSome = (l.filterMap id).map some := by
  induction l with
  | nil => rfl
  | cons a rest ih =>
    cases a with
    | none => simpa using ih
    | some p => simpa using ih

/-! ### Expired entries of the transferred list -/

/-- C20: when a sweep returns, the transferred list consists of the entries that were still
live, in their order, every expired entry removed (it is a sub-list of the list before); the
sweep has only touched handles of textures that the two loops visit, which are the live
entries of the transferred list and the transferring textures; and the whole result is the
same for any other transferred list with the same live entries in the same order, so that no
expired entry takes part in the sweep. -/
theorem C20_expired_entries_removed (allowedTextureMemory : Nat) (tie : Nat → Nat) (fuel : Nat)
    (b : Backend) (h : GLTextureTransferHelper) (r : Backend × GLTextureTransferHelper)
    (hr : recomputeTextureLoad allowedTextureMemory tie fuel b h = some (Except.ok r)) :
    r.2.transferredTextures = (h.transferredTextures.filterMap id).map some ∧
    (∀ w ∈ r.2.transferredTextures, w.isSome = true ∧ w ∈ h.transferredTextures) ∧
    List.Sublist r.2.transferredTextures h.transferredTextures ∧
    (∀ p, p ∉ visitedTextures h → r.1.objects p = b.objects p) ∧
    (∀ h2 : GLTextureTransferHelper, h2.pendingTextures = h.pendingTextures →
      h2.transferringTextures = h.transferringTextures →
      h2.transferredTextures.filterMap id = h.transferredTextures.filterMap id →
      recomputeTextureLoad allowedTextureMemory tie fuel b h2 = some (Except.ok r)) := by
  obtain ⟨built, s, hb, hl, _, hobj, _, _, _, htr⟩ :=
    recomputeTextureLoad_ok allowedTextureMemory tie fuel b h r hr
  refine ⟨?_, ?_, ?_, ?_, ?_⟩
  · rw [htr, filter_isSome_eq]
  · intro w hw
    rw [htr] at hw
    exact ⟨(List.mem_filter.mp hw).2, (List.mem_filter.mp hw).1⟩
  · rw [htr]
    exact List.filter_sublist _
  · intro p hp
    rw [hobj]
    have hq := (buildPriorityQueue_ok b h built hb).2.2
    have hinv := (sweepLoop_invariant b.textures allowedTextureMemory
      (fun x => (∀ e ∈ x.allTextures, e.texture ∈ visitedTextures h) ∧
        ∀ q, q ∉ visitedTextures h → x.objects q = b.objects q)
      (fun x e x1 hi he hx => by
        obtain ⟨hothers, hqueue, _⟩ := sweepStepOn_ok b.textures x x1 e hx
        refine ⟨fun o ho => ?_, fun q hq => ?_⟩
        · rw [hqueue] at ho
          rcases List.mem_append.mp ho with ho | ho
          · exact hi.1 o (List.mem_of_mem_erase ho)
          · split at ho
            · rw [List.mem_singleton.mp ho]
              exact hi.1 e he
            · cases ho
        · rw [hothers q (fun hqe => hq (hqe ▸ hi.1 e he))]
          exact hi.2 q hq)
      fuel tie (sweepStart b built) s
      ⟨fun e he => by
        have he2 : e ∈ built.2 := he
        rw [hq] at he2
        obtain ⟨q, hq1, hq2⟩ := List.mem_map.mp he2
        rw [← hq2]
        exact (List.mem_filter.mp hq1).1, fun q _ => rfl⟩ hl).1
    exact hinv.2 p hp
  · intro h2 k1 k2 k3
    rw [← hr]
    unfold recomputeTextureLoad
    rw [buildPriorityQueue_eq, buildPriorityQueue_eq]
    unfold visitedTextures
    rw [k1, k2, k3, filter_isSome_eq, filter_isSome_eq, k3]

/-- Witness of C20: a transferred list with two expired entries around the live texture 0,
under a budget that needs no demotion. -/
theorem C20_expired_entries_removed_witness :
    recomputeTextureLoad 84 (fun _ => 0) 0 backendTransferred4
        ⟨[], [], [none, some 0, none]⟩ =
      some (Except.ok (backendTransferred4, ⟨[], [], [some 0]⟩)) ∧
    (backendTransferred4, (⟨[], [], [some 0]⟩ : GLTextureTransferHelper)).2.transferredTextures =
      (([none, some 0, none] : List TextureWeakPointer).filterMap id).map some :=
  ⟨rfl, (C20_expired_entries_removed 84 (fun _ => 0) 0 backendTransferred4
    ⟨[], [], [none, some 0, none]⟩ (backendTransferred4, ⟨[], [], [some 0]⟩) rfl).1⟩

/-! ### `targetMinMip` never goes down -/

theorem sweepLoop_targetMinMip (textures : TexturePointer → Texture) (allowedTextureMemory : Nat) :
    ∀ (fuel : Nat) (tie : Nat → Nat) (s s2 : SweepState),
      (∀ p, (s.objects p).targetMinMip + fuel ≤ 65535) →
      sweepLoop textures allowedTextureMemory tie fuel s = some (Except.ok s2) →
      ∀ p, (s.objects p).targetMinMip ≤ (s2.objects p).targetMinMip := by
  intro fuel
  induction fuel with
  | zero =>
    intro tie s s2 _ h
    unfold sweepLoop at h
    by_cases hc : sweepCond allowedTextureMemory s = true
    · rw [if_pos hc] at h
      cases h
    · rw [if_neg hc] at h
      cases h
      exact fun p => le_refl _
  | succ fuel ih =>
    intro tie s s2 hb h
    unfold sweepLoop at h
    by_cases hc : sweepCond allowedTextureMemory s = true
    · rw [if_pos hc] at h
      simp only at h
      obtain ⟨e, he⟩ := top_isSome (tie 0) s.allTextures (sweepCond_ne_nil hc)
      rw [sweepStep_of_top textures (tie 0) s e he] at h
      cases hs : sweepStepOn textures s e with
      | error a => rw [hs] at h; cases h
      | ok s1 =>
        rw [hs] at h
        obtain ⟨hothers, _, _⟩ := sweepStepOn_ok textures s s1 e hs
        obtain ⟨_, ht⟩ := sweepStepOn_frame textures s s1 e hs
        have hstep : ∀ p, (s.objects p).targetMinMip ≤ (s1.objects p).targetMinMip ∧
            (s1.objects p).targetMinMip ≤ (s.objects p).targetMinMip + 1 := by
          intro p
          by_cases hp : p = e.texture
          · rw [hp, ht]
            have := hb e.texture
            unfold add16 U16
            omega
          · rw [hothers p hp]
            omega
        intro p
        have h2 := ih _ s1 s2 (fun q => by
          have := (hstep q).2
          have := hb q
          omega) h p
        exact le_trans (hstep p).1 h2
    · rw [if_neg hc] at h
      cases h
      exact fun p => le_refl _

/-- C18: `preDerez()` adds exactly one to `targetMinMip` on every handle whose
`targetMinMip` is below 65535 (the field is a `uint16`), in particular on every derezable
handle whose bound `maxMinMip` is a `uint16` value; `derez()`, `stripToMip()`,
`startTransfer()` and `continueTransfer()` leave `targetMinMip` as it is whenever they return;
and a whole sweep that returns within `fuel` rounds, on handles whose `targetMinMip` is at most
65535 minus that number of rounds, leaves no handle with a lower `targetMinMip` than
before. -/
theorem C18_targetMinMip_never_decreases (tex : Texture) (gl : GLContext) (t : GL45Texture) :
    (t.targetMinMip < 65535 →
      (GL45Texture.preDerez tex t).1.targetMinMip = t.targetMinMip + 1) ∧
    (t.derezable = true → t.maxMinMip < U16 →
      (GL45Texture.preDerez tex t).1.targetMinMip = t.targetMinMip + 1) ∧
    (∀ r, GL45Texture.derez tex gl t = Except.ok r → r.2.targetMinMip = t.targetMinMip) ∧
    (∀ newMinMip r, GL45Texture.stripToMip tex gl t newMinMip = Except.ok r →
      r.2.targetMinMip = t.targetMinMip) ∧
    (∀ allocateStorage numSparseLevels r,
      GL45Texture.startTransfer allocateStorage numSparseLevels tex gl t = Except.ok r →
      r.2.targetMinMip = t.targetMinMip) ∧
    (GL45Texture.continueTransfer tex gl t).2.1.targetMinMip = t.targetMinMip ∧
    (∀ allowedTextureMemory tie fuel (b : Backend) h r,
      (∀ p, (b.objects p).targetMinMip + fuel ≤ 65535) →
      recomputeTextureLoad allowedTextureMemory tie fuel b h = some (Except.ok r) →
      ∀ p, (b.objects p).targetMinMip ≤ (r.1.objects p).targetMinMip) := by
  have hpre : t.targetMinMip < 65535 →
      (GL45Texture.preDerez tex t).1.targetMinMip = t.targetMinMip + 1 := by
    intro hlt
    show add16 t.targetMinMip 1 = t.targetMinMip + 1
    unfold add16 U16
    omega
  refine ⟨hpre, ?_, ?_, ?_, ?_, ?_, ?_⟩
  · intro hd hm
    obtain ⟨_, _, hlt⟩ := (derezable_iff t).mp hd
    apply hpre
    unfold U16 at hm
    omega
  · intro r hr
    exact (stripToMip_frame tex gl t _ r hr).2.1
  · intro newMinMip r hr
    exact (stripToMip_frame tex gl t newMinMip r hr).2.1
  · intro allocateStorage numSparseLevels r hr
    unfold GL45Texture.startTransfer at hr
    cases ha : allocateStorage tex gl t with
    | error a => rw [ha] at hr; cases hr
    | ok gl1 =>
      rw [ha] at hr
      simp only at hr
      cases hs : GL45Texture.sparseInfoUpdate tex numSparseLevels t.sparseInfo with
      | error a => rw [hs] at hr; cases hr
      | ok s1 =>
        rw [hs] at hr
        cases hr
        rfl
  · unfold GL45Texture.continueTransfer
    split <;> rfl
  · intro allowedTextureMemory tie fuel b h r hb hr
    obtain ⟨built, s, _, hl, _, hobj, _⟩ :=
      recomputeTextureLoad_ok allowedTextureMemory tie fuel b h r hr
    rw [hobj]
    exact sweepLoop_targetMinMip b.textures allowedTextureMemory fuel tie (sweepStart b built) s
      hb hl

/-- Witness of C18: the fully transferred handle of the 4 x 4 texture is derezable and
`preDerez()` takes its `targetMinMip` from 0 to 1; the sweep under a budget of 4 bytes
returns and leaves it at 2. -/
theorem C18_targetMinMip_never_decreases_witness :
    (transferred4.derezable = true ∧ transferred4.maxMinMip < U16) ∧
    (GL45Texture.preDerez tex4 transferred4).1.targetMinMip = transferred4.targetMinMip + 1 ∧
    (∃ r, recomputeTextureLoad 4 (fun _ => 0) 10 backendTransferred4 helperTransferred =
      some (Except.ok r)) ∧
    ∀ r, recomputeTextureLoad 4 (fun _ => 0) 10 backendTransferred4 helperTransferred =
        some (Except.ok r) →
      ∀ p, (backendTransferred4.objects p).targetMinMip ≤ (r.1.objects p).targetMinMip :=
  ⟨⟨by decide, by decide⟩,
    (C18_targetMinMip_never_decreases tex4 ⟨2, []⟩ transferred4).2.1 (by decide) (by decide),
    ⟨_, rfl⟩,
    fun r hr => (C18_targetMinMip_never_decreases tex4 ⟨2, []⟩ transferred4).2.2.2.2.2.2 4
      (fun _ => 0) 10 backendTransferred4 helperTransferred r
      (fun _ => (by decide : transferred4.targetMinMip + 10 ≤ 65535)) hr⟩

/-! ### The sweep returns when no texture is visited twice -/

theorem getTargetGpuSize_supported (tex : Texture) (t : GL45Texture) (h : Supported tex t) :
    ∃ n, GL45Texture.getTargetGpuSize tex t = Except.ok n := by
  unfold GL45Texture.getTargetGpuSize
  by_cases hs : t.sparseInfo.sparse = true
  · have hlt := h.2.2 hs
    rw [if_neg (by simp [hs]), if_neg (by omega)]
    exact ⟨_, rfl⟩
  · rw [if_pos (by simpa using hs)]
    exact ⟨_, rfl⟩

theorem visitTextures_returns (b : Backend) (l : List TexturePointer)
    (hl : ∀ p ∈ l, ∃ n, GL45Texture.getTargetGpuSize (b.textures p) (b.objects p) = Except.ok n) :
    ∀ acc, ∃ acc1, visitTextures b acc l = Except.ok acc1 := by
  induction l with
  | nil => exact fun acc => ⟨acc, rfl⟩
  | cons p rest ih =>
    intro acc
    obtain ⟨n, hn⟩ := hl p (List.mem_cons_self _ _)
    rw [visitTextures_cons]
    unfold visitTexture
    rw [hn]
    exact ih (fun q hq => hl q (List.mem_cons_of_mem _ hq)) _

theorem buildPriorityQueue_returns (b : Backend) (h : GLTextureTransferHelper)
    (hsup : ∀ p ∈ visitedTextures h, Supported (b.textures p) (b.objects p)) :
    ∃ built, buildPriorityQueue b h = Except.ok built := by
  rw [buildPriorityQueue_eq]
  exact visitTextures_returns b _
    (fun p hp => getTargetGpuSize_supported _ _ (hsup p hp)) _

/-- The loop starts in a state of `SweepInv` when no texture is visited twice and every
visited handle is supported. -/
theorem sweepStart_inv (b : Backend) (h : GLTextureTransferHelper)
    (built : Nat × List TextureAndSize) (hnd : (visitedTextures h).Nodup)
    (hsup : ∀ p ∈ visitedTextures h, Supported (b.textures p) (b.objects p))
    (hb : buildPriorityQueue b h = Except.ok built) :
    SweepInv b.textures (visitedTextures h) (sweepStart b built) := by
  have hq : (sweepStart b built).allTextures =
      ((visitedTextures h).filter fun p => (b.objects p).derezable).map
        (fun p => (⟨p, targetSize b p⟩ : TextureAndSize)) := (buildPriorityQueue_ok b h built hb).2.2
  refine ⟨?_, ?_, hsup, ?_⟩
  · rw [hq, List.map_map]
    have hid : ((fun e : TextureAndSize => e.texture) ∘
        fun p => (⟨p, targetSize b p⟩ : TextureAndSize)) = id := rfl
    rw [hid, List.map_id]
    exact List.Nodup.filter _ hnd
  · intro e he
    rw [hq] at he
    obtain ⟨p, hp, hpe⟩ := List.mem_map.mp he
    rw [← hpe]
    exact ⟨(List.mem_filter.mp hp).1, (List.mem_filter.mp hp).2⟩
  · intro p hp hd
    refine ⟨⟨p, targetSize b p⟩, ?_, rfl⟩
    rw [hq]
    exact List.mem_map.mpr ⟨p, List.mem_filter.mpr ⟨hp, hd⟩, rfl⟩

/-- With no texture visited twice and every visited handle supported, `recomputeTextureLoad`
returns once it is given as many rounds as the visited handles have demotion steps left, and
its loop ends with the running total within the budget or with no visited handle
derezable. -/
theorem recomputeTextureLoad_returns (allowedTextureMemory : Nat) (tie : Nat → Nat) (fuel : Nat)
    (b : Backend) (h : GLTextureTransferHelper) (hnd : (visitedTextures h).Nodup)
    (hsup : ∀ p ∈ visitedTextures h, Supported (b.textures p) (b.objects p))
    (hfuel : sweepMeasure b.objects (visitedTextures h) ≤ fuel) :
    ∃ built s, buildPriorityQueue b h = Except.ok built ∧
      sweepLoop b.textures allowedTextureMemory tie fuel (sweepStart b built) =
        some (Except.ok s) ∧
      (s.allTexturesTargetMemory ≤ allowedTextureMemory ∨
        ∀ p ∈ visitedTextures h, (s.objects p).derezable = false) ∧
      ∃ r, recomputeTextureLoad allowedTextureMemory tie fuel b h = some (Except.ok r) ∧
        r.1.objects = s.objects := by
  obtain ⟨built, hb⟩ := buildPriorityQueue_returns b h hsup
  obtain ⟨s, hs, hinv, hc⟩ := sweepLoop_returns b.textures allowedTextureMemory
    (visitedTextures h) fuel tie (sweepStart b built) (sweepStart_inv b h built hnd hsup hb) hfuel
  refine ⟨built, s, hb, hs, ?_, ?_⟩
  · unfold sweepCond at hc
    by_cases hle : s.allTexturesTargetMemory ≤ allowedTextureMemory
    · exact Or.inl hle
    · right
      intro p hp
      by_cases hd : (s.objects p).derezable = true
      · exfalso
        obtain ⟨e, he, _⟩ := hinv.2.2.2 p hp hd
        have hne : s.allTextures ≠ [] := List.ne_nil_of_mem he
        have : s.allTextures.isEmpty = false := by
          cases hq : s.allTextures with
          | nil => exact absurd hq hne
          | cons a l => rfl
        rw [this] at hc
        simp at hc
        omega
      · simpa using hd
  · unfold recomputeTextureLoad
    rw [hb]
    simp only
    rw [hs]
    exact ⟨_, rfl, rfl⟩

/-! ### A sweep that does not return -/

theorem top_of_replicate (choice n : Nat) (e : TextureAndSize) (hn : 0 < n) :
    top choice (List.replicate n e) = some e := by
  have hmem : ∀ x ∈ maxEntries (List.replicate n e), x = e := by
    intro x hx
    exact List.eq_of_mem_replicate ((mem_maxEntries _ x).mp hx).1
  have hne : List.replicate n e ≠ [] := by
    intro hnil
    have := congrArg List.length hnil
    simp at this
    omega
  obtain ⟨x, hx⟩ := top_isSome choice (List.replicate n e) hne
  rw [hx, hmem x ((mem_maxEntries _ x).mpr (top_spec _ _ _ hx))]

theorem sweepStepOn_error (textures : TexturePointer → Texture) (s : SweepState)
    (e : TextureAndSize) (a : Abort)
    (hl : (GL45Texture.preDerez (textures e.texture) (s.objects e.texture)).2.2 = false)
    (hd : GL45Texture.derez (textures e.texture) s.gl
      (GL45Texture.preDerez (textures e.texture) (s.objects e.texture)).1 = Except.error a) :
    sweepStepOn textures s e = Except.error a := by
  unfold sweepStepOn
  simp only [hl, hd]
  rfl

set_option maxHeartbeats 1000000 in
/-- C24, evaluated: texture 0 (2 x 2, two mips) is in the transferred list and, submitted
again, in the transferring list, under a budget of 4 bytes.  The queue holds two entries of
20 bytes for the one handle.  Whatever the order of equal entries, the first round leaves the
handle not derezable with a total of 24 bytes, the loop goes on, and the second round calls
`derez()` on the handle with `_maxMip = 0`: `_maxMip` wraps to 65535 and the copy loop of
`stripToMip` does not exit.  So the sweep does not return, however many rounds it is
given. -/
theorem C24_sweep_does_not_return (tie : Nat → Nat) (fuel : Nat) :
    recomputeTextureLoad 4 tie fuel backendStarted2 helperResubmitted =
      if fuel < 2 then none else some (Except.error Abort.hang) := by
  have hb : buildPriorityQueue backendStarted2 helperResubmitted =
      Except.ok (40, List.replicate 2 ⟨0, 20⟩) := rfl
  have hc0 : sweepCond 4 (sweepStart backendStarted2 (40, List.replicate 2 ⟨0, 20⟩)) = true := rfl
  have ht0 : ∀ c, top c (sweepStart backendStarted2 (40, List.replicate 2 ⟨0, 20⟩)).allTextures =
      some ⟨0, 20⟩ := fun c => top_of_replicate c 2 _ (by omega)
  have hobs : observeStep (sweepStepOn backendStarted2.textures
      (sweepStart backendStarted2 (40, List.replicate 2 ⟨0, 20⟩)) ⟨0, 20⟩) =
      Sum.inr ([⟨0, 20⟩], 24,
        { started2 with id := 2, maxMip := 0, size := 4, mipOffset := 1, targetMinMip := 1 }) :=
    rfl
  unfold recomputeTextureLoad
  rw [hb]
  simp only
  cases fuel with
  | zero =>
    unfold sweepLoop
    rw [if_pos hc0]
    rfl
  | succ fuel =>
    unfold sweepLoop
    rw [if_pos hc0]
    simp only
    rw [sweepStep_of_top _ _ _ _ (ht0 (tie 0))]
    cases hs : sweepStepOn backendStarted2.textures
        (sweepStart backendStarted2 (40, List.replicate 2 ⟨0, 20⟩)) ⟨0, 20⟩ with
    | error a =>
      rw [hs] at hobs
      cases hobs
    | ok s1 =>
      rw [hs] at hobs
      have hq : s1.allTextures = List.replicate 1 ⟨0, 20⟩ := congrArg (fun x => x.getRight?.map
        (fun y => y.1)) hobs |> Option.some.inj
      have htot : s1.allTexturesTargetMemory = 24 := congrArg (fun x => x.getRight?.map
        (fun y => y.2.1)) hobs |> Option.some.inj
      have hobj : s1.objects 0 =
          { started2 with id := 2, maxMip := 0, size := 4, mipOffset := 1, targetMinMip := 1 } :=
        congrArg (fun x => x.getRight?.map (fun y => y.2.2)) hobs |> Option.some.inj
      have hc1 : sweepCond 4 s1 = true := by
        unfold sweepCond
        rw [hq, htot]
        rfl
      simp only
      cases fuel with
      | zero =>
        unfold sweepLoop
        rw [if_pos hc1]
        rfl
      | succ fuel =>
        unfold sweepLoop
        rw [if_pos hc1]
        simp only
        have ht1 : top (tie (0 + 1)) s1.allTextures = some ⟨0, 20⟩ := by
          rw [hq]
          exact top_of_replicate _ 1 _ (by omega)
        rw [sweepStep_of_top _ _ _ _ ht1]
        have herr : sweepStepOn backendStarted2.textures s1 ⟨0, 20⟩ =
            Except.error Abort.hang := by
          apply sweepStepOn_error
          · show (GL45Texture.preDerez tex2 (s1.objects 0)).2.2 = false
            rw [hobj]
            rfl
          · show GL45Texture.derez tex2 s1.gl (GL45Texture.preDerez tex2 (s1.objects 0)).1 =
              Except.error Abort.hang
            rw [hobj]
            rfl
        rw [herr]
        simp

/-! ### The sync state of the queued handles -/

theorem continueTransfer_syncState (tex : Texture) (gl : GLContext) (t : GL45Texture) :
    (GL45Texture.continueTransfer tex gl t).2.1.syncState = t.syncState := by
  unfold GL45Texture.continueTransfer
  split <;> rfl

theorem serviceEntry_sync (b : Backend) (count : Nat) (transferred : List TextureWeakPointer)
    (p : TexturePointer) (r : Serviced)
    (h : serviceEntry b count transferred p = Except.ok r) :
    (∀ q, q ≠ p → r.backend.objects q = b.objects q) ∧
    (r.stays = true → (r.backend.objects p).syncState = (b.objects p).syncState) ∧
    (r.stays = false → (r.backend.objects p).syncState = GLSyncState.Transferred) := by
  unfold serviceEntry at h
  simp only at h
  by_cases hc : (GL45Texture.continueTransfer (b.textures p) b.gl (b.objects p)).2.2 = true
  · rw [if_pos hc] at h
    cases h
    refine ⟨fun q hq => ?_, fun _ => ?_, fun hs => ?_⟩
    · simp [Function.update, hq]
    · simp only [Function.update_same]
      exact continueTransfer_syncState _ _ _
    · cases hs
  · rw [if_neg hc] at h
    split at h
    · cases h
    · cases h
      refine ⟨fun q hq => ?_, fun hs => ?_, fun _ => ?_⟩
      · simp [Function.update, hq]
      · cases hs
      · simp only [Function.update_same]

theorem serviceLoop_sync (l : List TexturePointer) :
    ∀ (transferCount : Nat) (b : Backend) (count : Nat) (transferred : List TextureWeakPointer)
      (done : Serviced × List TexturePointer), l.Nodup →
      serviceLoop transferCount b count transferred l = Except.ok done →
      List.Sublist done.2 l ∧
      (∀ q ∈ done.2, (done.1.backend.objects q).syncState = (b.objects q).syncState) ∧
      (∀ q, (done.1.backend.objects q).syncState ≠ (b.objects q).syncState →
        (done.1.backend.objects q).syncState = GLSyncState.Transferred ∧ q ∈ l) := by
  induction l with
  | nil =>
    intro transferCount b count transferred done _ h
    unfold serviceLoop at h
    cases h
    exact ⟨List.Sublist.refl _, fun _ _ => rfl, fun q hq => absurd rfl hq⟩
  | cons p rest ih =>
    intro transferCount b count transferred done hnd h
    unfold serviceLoop at h
    by_cases hm : transferCount + 1 > MAX_TRANSFERS_PER_PASS
    · rw [if_pos hm] at h
      cases h
      exact ⟨List.Sublist.refl _, fun _ _ => rfl, fun q hq => absurd rfl hq⟩
    · rw [if_neg hm] at h
      cases he : serviceEntry b count transferred p with
      | error a => rw [he] at h; cases h
      | ok r =>
        rw [he] at h
        simp only at h
        cases hl : serviceLoop (transferCount + 1) r.backend r.textureGPUTransferCount
            r.transferredTextures rest with
        | error a => rw [hl] at h; cases h
        | ok done1 =>
          rw [hl] at h
          cases h
          obtain ⟨e1, e2, e3⟩ := serviceEntry_sync b count transferred p r he
          obtain ⟨k1, k2, k3⟩ := ih _ _ _ _ done1 (List.nodup_cons.mp hnd).2 hl
          have hp : p ∉ rest := (List.nodup_cons.mp hnd).1
          have hpsame : (done1.1.backend.objects p).syncState =
              (r.backend.objects p).syncState := by
            by_contra hne
            exact hp (k3 p hne).2
          refine ⟨?_, ?_, ?_⟩
          · show List.Sublist (if r.stays = true then p :: done1.2 else done1.2) (p :: rest)
            split
            · exact List.Sublist.cons₂ p k1
            · exact List.Sublist.cons p k1
          · intro q hq
            have hq2 : q ∈ (if r.stays = true then p :: done1.2 else done1.2) := hq
            show (done1.1.backend.objects q).syncState = (b.objects q).syncState
            by_cases hqp : q = p
            · rw [hqp, hpsame]
              by_cases hs : r.stays = true
              · exact e2 hs
              · exfalso
                rw [if_neg hs] at hq2
                rw [hqp] at hq2
                exact hp (k1.subset hq2)
            · have hq3 : q ∈ done1.2 := by
                split at hq2
                · rcases List.mem_cons.mp hq2 with hx | hx
                  · exact absurd hx hqp
                  · exact hx
                · exact hq2
              rw [k2 q hq3, e1 q hqp]
          · intro q hq
            have hq2 : (done1.1.backend.objects q).syncState ≠ (b.objects q).syncState := hq
            show (done1.1.backend.objects q).syncState = GLSyncState.Transferred ∧ q ∈ p :: rest
            by_cases hqp : q = p
            · rw [hqp] at hq2 ⊢
              refine ⟨?_, List.mem_cons_self _ _⟩
              rw [hpsame] at hq2 ⊢
              by_cases hs : r.stays = true
              · exact absurd (e2 hs) hq2
              · exact e3 (by simpa using hs)
            · rw [← e1 q hqp] at hq2
              exact ⟨(k3 q hq2).1, List.mem_cons_of_mem _ (k3 q hq2).2⟩

theorem startTransfers_sync
    (allocateStorage : Texture → GLContext → GL45Texture → Except Abort GLContext)
    (numSparseLevels : Nat) (l : List TexturePointer) :
    ∀ (b b1 : Backend), startTransfers allocateStorage numSparseLevels b l = Except.ok b1 →
      b1.textures = b.textures ∧
      ∀ q, (b1.objects q).syncState = (b.objects q).syncState := by
  induction l with
  | nil =>
    intro b b1 h
    unfold startTransfers at h
    cases h
    exact ⟨rfl, fun _ => rfl⟩
  | cons p rest ih =>
    intro b b1 h
    unfold startTransfers at h
    cases hs : GL45Texture.startTransfer allocateStorage numSparseLevels (b.textures p) b.gl
        (b.objects p) with
    | error a => rw [hs] at h; cases h
    | ok r =>
      rw [hs] at h
      simp only at h
      obtain ⟨k1, k2⟩ := ih _ b1 h
      refine ⟨k1, fun q => ?_⟩
      rw [k2 q]
      by_cases hq : q = p
      · rw [hq]
        simp only [Function.update_same]
        unfold GL45Texture.startTransfer at hs
        cases ha : allocateStorage (b.textures p) b.gl (b.objects p) with
        | error a => rw [ha] at hs; cases hs
        | ok gl1 =>
          rw [ha] at hs
          simp only at hs
          cases hu : GL45Texture.sparseInfoUpdate (b.textures p) numSparseLevels
              (b.objects p).sparseInfo with
          | error a => rw [hu] at hs; cases hs
          | ok s1 =>
            rw [hu] at hs
            cases hs
            rfl
      · simp [Function.update, hq]

theorem recomputeTextureLoad_sync (allowedTextureMemory : Nat) (tie : Nat → Nat) (fuel : Nat)
    (b : Backend) (h : GLTextureTransferHelper) (r : Backend × GLTextureTransferHelper)
    (hr : recomputeTextureLoad allowedTextureMemory tie fuel b h = some (Except.ok r)) :
    ∀ q, sameIdentity (b.objects q) (r.1.objects q) := by
  obtain ⟨built, s, _, hl, _, hobj, _⟩ :=
    recomputeTextureLoad_ok allowedTextureMemory tie fuel b h r hr
  rw [hobj]
  exact (sweepLoop_invariant b.textures allowedTextureMemory
    (fun x => ∀ q, sameIdentity (b.objects q) (x.objects q))
    (fun x e x1 hi _ hx q => by
      by_cases hq : q = e.texture
      · rw [hq]
        exact sameIdentity_trans (hi e.texture) (sweepStepOn_frame b.textures x x1 e hx).1
      · rw [(sweepStepOn_ok b.textures x x1 e hx).1 q hq]
        exact hi q)
    fuel tie (sweepStart b built) s (fun q => sameIdentity_refl _) hl).1

/-- C14 fails as stated: `transferTexture` on texture 0 (two mips) twice before the worker
runs puts it into the pending queue twice; one pass of `process` then calls
`continueTransfer` on the handle through both entries, finalises it through the second one
and erases that entry only.  No `postTransfer` was called, and the handle is in the
transferring list with the sync state `Transferred`. -/
theorem C14_submitted_twice_counterexample :
    QueuedPending idleWorker2 ∧
    observeProcess (process allocateNothing 0 1000 (fun _ => 0) 10
        (transferTexture (transferTexture idleWorker2 0) 0)) =
      some ({ started2 with syncState := GLSyncState.Transferred, populatedMip := 0 },
        ⟨[], [0], [some 0]⟩, 1) := by
  refine ⟨⟨List.nodup_nil, fun p hp => ?_⟩, ?_⟩
  · cases hp
  · rfl

/-- C14 amended: in a state in which no texture is queued twice and every queued handle is
`Pending`, the same holds after `transferTexture` on a handle that is not `Pending` (which
makes it `Pending`), after `postTransfer` on a handle that is `Transferred` (which makes it
`Idle`), and after every pass of `process` that returns; a pass changes the sync state of a
handle only from `Pending` to `Transferred`, and only for a queued handle that it takes out
of the queue; and `isReady()` is false for every queued handle. -/
theorem C14_queued_handles_pending (s : TransferState) (hinv : QueuedPending s) :
    (∀ p, (s.backend.objects p).syncState ≠ GLSyncState.Pending →
      QueuedPending (transferTexture s p) ∧ p ∈ queuedTextures (transferTexture s p) ∧
      ((transferTexture s p).backend.objects p).syncState = GLSyncState.Pending) ∧
    (∀ p, (s.backend.objects p).syncState = GLSyncState.Transferred →
      QueuedPending (postTransfer s p) ∧
      ((postTransfer s p).backend.objects p).syncState = GLSyncState.Idle) ∧
    (∀ allocateStorage numSparseLevels allowedTextureMemory tie fuel s1,
      process allocateStorage numSparseLevels allowedTextureMemory tie fuel s =
        some (Except.ok s1) →
      QueuedPending s1 ∧
      ∀ p, (s1.backend.objects p).syncState ≠ (s.backend.objects p).syncState →
        (s.backend.objects p).syncState = GLSyncState.Pending ∧
        (s1.backend.objects p).syncState = GLSyncState.Transferred ∧
        p ∈ queuedTextures s ∧ p ∉ queuedTextures s1) ∧
    (∀ p ∈ queuedTextures s,
      (s.backend.objects p).toGLTexture.isReady (s.backend.textures p) = false) := by
  obtain ⟨hnd, hpend⟩ := hinv
  refine ⟨?_, ?_, ?_, ?_⟩
  · intro p hp
    have hnot : p ∉ queuedTextures s := fun hin => hp (hpend p hin)
    have hq : queuedTextures (transferTexture s p) =
        s.helper.pendingTextures ++ p :: s.helper.transferringTextures := by
      unfold queuedTextures transferTexture
      simp
    have hsame : ((transferTexture s p).backend.objects p).syncState = GLSyncState.Pending := by
      unfold transferTexture
      simp only [Function.update_same]
    refine ⟨⟨?_, ?_⟩, ?_, hsame⟩
    · rw [hq, List.nodup_middle, List.nodup_cons]
      exact ⟨hnot, hnd⟩
    · intro q hqin
      rw [hq] at hqin
      by_cases hqp : q = p
      · rw [hqp]
        exact hsame
      · have hqin2 : q ∈ queuedTextures s := by
          unfold queuedTextures
          rcases List.mem_append.mp hqin with hx | hx
          · exact List.mem_append_left _ hx
          · rcases List.mem_cons.mp hx with hx | hx
            · exact absurd hx hqp
            · exact List.mem_append_right _ hx
        have : (transferTexture s p).backend.objects q = s.backend.objects q := by
          unfold transferTexture
          simp [Function.update, hqp]
        rw [this]
        exact hpend q hqin2
    · rw [hq]
      simp
  · intro p hp
    have hnot : p ∉ queuedTextures s := fun hin => by
      rw [hpend p hin] at hp
      cases hp
    refine ⟨⟨hnd, ?_⟩, ?_⟩
    · intro q hqin
      have hqin2 : q ∈ queuedTextures s := hqin
      have hqp : q ≠ p := fun hx => hnot (hx ▸ hqin2)
      have : (postTransfer s p).backend.objects q = s.backend.objects q := by
        unfold postTransfer
        simp [Function.update, hqp]
      rw [this]
      exact hpend q hqin2
    · unfold postTransfer
      simp only [Function.update_same]
  · intro allocateStorage numSparseLevels allowedTextureMemory tie fuel s1 hproc
    have hstarted : ∃ bh : Backend × GLTextureTransferHelper,
        List.Perm bh.2.transferringTextures (queuedTextures s) ∧
        (∀ q, (bh.1.objects q).syncState = (s.backend.objects q).syncState) ∧
        ∃ done, serviceLoop 0 bh.1 s.textureGPUTransferCount bh.2.transferredTextures
            bh.2.transferringTextures = Except.ok done ∧
          s1.backend = done.1.backend ∧ s1.helper.pendingTextures = [] ∧
          s1.helper.transferringTextures = done.2 := by
      unfold process at hproc
      simp only at hproc
      by_cases he : s.helper.pendingTextures.isEmpty = true
      · rw [if_pos he] at hproc
        simp only at hproc
        have hnil : s.helper.pendingTextures = [] := List.isEmpty_iff.mp he
        refine ⟨(s.backend, { s.helper with pendingTextures := [] }), ?_, fun _ => rfl, ?_⟩
        · unfold queuedTextures
          rw [hnil]
          exact List.Perm.refl _
        · cases hl : serviceLoop 0 s.backend s.textureGPUTransferCount
              s.helper.transferredTextures s.helper.transferringTextures with
          | error a => rw [hl] at hproc; cases hproc
          | ok done =>
            rw [hl] at hproc
            cases hproc
            exact ⟨done, rfl, rfl, rfl, rfl⟩
      · rw [if_neg he] at hproc
        cases hst : startTransfers allocateStorage numSparseLevels s.backend
            s.helper.pendingTextures with
        | error a => rw [hst] at hproc; cases hproc
        | ok b1 =>
          rw [hst] at hproc
          simp only at hproc
          cases hrc : recomputeTextureLoad allowedTextureMemory tie fuel b1
              { pendingTextures := [],
                transferringTextures := s.helper.transferringTextures ++ s.helper.pendingTextures,
                transferredTextures := s.helper.transferredTextures } with
          | none => rw [hrc] at hproc; cases hproc
          | some x =>
            cases x with
            | error a => rw [hrc] at hproc; cases hproc
            | ok bh =>
              rw [hrc] at hproc
              simp only at hproc
              obtain ⟨_, _, _, _, _, _, _, hpe, htr, _⟩ :=
                recomputeTextureLoad_ok _ _ _ _ _ bh hrc
              have hsync := recomputeTextureLoad_sync _ _ _ _ _ bh hrc
              refine ⟨bh, ?_, fun q => ?_, ?_⟩
              · rw [htr]
                unfold queuedTextures
                exact (List.perm_insertionSort _ _).trans List.perm_append_comm
              · rw [(hsync q).1]
                exact (startTransfers_sync _ _ _ _ b1 hst).2 q
              · cases hl : serviceLoop 0 bh.1 s.textureGPUTransferCount
                    bh.2.transferredTextures bh.2.transferringTextures with
                | error a => rw [hl] at hproc; cases hproc
                | ok done =>
                  rw [hl] at hproc
                  cases hproc
                  exact ⟨done, rfl, rfl, hpe, rfl⟩
    obtain ⟨bh, hperm, hsync, done, hloop, hb1, hp1, ht1⟩ := hstarted
    have hnd2 : bh.2.transferringTextures.Nodup := hperm.nodup_iff.mpr hnd
    obtain ⟨k1, k2, k3⟩ := serviceLoop_sync _ _ _ _ _ done hnd2 hloop
    have hq1 : queuedTextures s1 = done.2 := by
      unfold queuedTextures
      rw [hp1, ht1]
      rfl
    refine ⟨⟨?_, ?_⟩, ?_⟩
    · rw [hq1]
      exact List.Nodup.sublist k1 hnd2
    · intro q hq
      rw [hq1] at hq
      rw [hb1, k2 q hq, hsync q]
      exact hpend q (hperm.subset (k1.subset hq))
    · intro p hp
      rw [hb1, ← hsync p] at hp
      obtain ⟨hT, hin⟩ := k3 p hp
      have hin2 : p ∈ queuedTextures s := hperm.subset hin
      refine ⟨hpend p hin2, ?_, hin2, ?_⟩
      · rw [hb1]
        exact hT
      · rw [hq1]
        intro hin3
        exact hp (k2 p hin3)
  · intro p hp
    unfold GLTexture.isReady
    rw [hpend p hp]
    split
    · rfl
    · simp

/-- Witness of C14: the idle worker, whose queue is empty, and the submission of its
texture 0. -/
theorem C14_queued_handles_pending_witness :
    QueuedPending idleWorker2 ∧ QueuedPending (transferTexture idleWorker2 0) ∧
    (0 : TexturePointer) ∈ queuedTextures (transferTexture idleWorker2 0) :=
  ⟨⟨List.nodup_nil, fun p hp => by cases hp⟩,
    ((C14_queued_handles_pending idleWorker2 ⟨List.nodup_nil, fun p hp => by cases hp⟩).1 0
      (by decide)).1,
    ((C14_queued_handles_pending idleWorker2 ⟨List.nodup_nil, fun p hp => by cases hp⟩).1 0
      (by decide)).2.1⟩

/-! ### The subtractions of the sweep on dense handles -/

theorem subSize_of_le {a f : Nat} (hf : f ≤ a) (ha : a < USIZE) : subSize a f = a - f := by
  unfold subSize USIZE at *
  have hf2 : f % 18446744073709551616 = f := Nat.mod_eq_of_lt (by omega)
  rw [hf2]
  omega

theorem residentBytes_step (tex : Texture) (m : Nat) (hm : m < tex.evalNumMips) :
    residentBytes tex m = tex.evalMipSize m + residentBytes tex (m + 1) := by
  unfold residentBytes
  have hn : tex.evalNumMips - m = (tex.evalNumMips - (m + 1)) + 1 := by omega
  rw [hn, List.range'_succ, List.map_cons, List.sum_cons]

theorem residentBytes_le (tex : Texture) (m : Nat) :
    residentBytes tex m ≤ residentBytes tex 0 := by
  induction m with
  | zero => exact le_refl _
  | succ m ih =>
    by_cases hm : m < tex.evalNumMips
    · rw [residentBytes_step tex m hm] at ih
      omega
    · have hz : residentBytes tex (m + 1) = 0 := by
        unfold residentBytes
        have : tex.evalNumMips - (m + 1) = 0 := by omega
        rw [this]
        rfl
      omega

theorem foldl_addSize (f : TexturePointer → Nat) (l : List TexturePointer) :
    ∀ a, l.foldl (fun total p => addSize total (f p)) (a % USIZE) =
      (a + (l.map f).sum) % USIZE := by
  induction l with
  | nil => intro a; simp
  | cons p rest ih =>
    intro a
    rw [List.foldl_cons]
    have h1 : addSize (a % USIZE) (f p) = (a + f p) % USIZE := by
      unfold addSize
      exact Nat.mod_add_mod a USIZE (f p)
    rw [h1, ih (a + f p), List.map_cons, List.sum_cons, Nat.add_assoc]

theorem sum_filter_le (f : TexturePointer → Nat) (q : TexturePointer → Bool)
    (l : List TexturePointer) : ((l.filter q).map f).sum ≤ (l.map f).sum :=
  List.Sublist.sum_le_sum ((List.filter_sublist l).map f) (fun _ _ => Nat.zero_le _)

theorem residentBytes_antitone (tex : Texture) (a b : Nat) (hab : a ≤ b) :
    residentBytes tex b ≤ residentBytes tex a := by
  induction b with
  | zero =>
    have : a = 0 := by omega
    rw [this]
  | succ m ih =>
    by_cases ha : a = m + 1
    · rw [ha]
    · have h1 := ih (by omega)
      by_cases hm : m < tex.evalNumMips
      · rw [residentBytes_step tex m hm] at h1
        omega
      · have hz : residentBytes tex (m + 1) = 0 := by
          unfold residentBytes
          have : tex.evalNumMips - (m + 1) = 0 := by omega
          rw [this]
          rfl
        omega

theorem residentBytes_last (tex : Texture) (hn : 0 < tex.evalNumMips) :
    tex.evalMipSize (tex.evalNumMips - 1) ≤ residentBytes tex (tex.evalNumMips - 1) := by
  rw [residentBytes_step tex (tex.evalNumMips - 1) (by omega)]
  omega

/-- A call of `derez` that returns does not raise `_maxMip`. -/
theorem derez_maxMip_le (tex : Texture) (gl : GLContext) (t : GL45Texture)
    (r : GLContext × GL45Texture) (hm : t.maxMip < U16)
    (h : GL45Texture.derez tex gl t = Except.ok r) : r.2.maxMip ≤ t.maxMip := by
  unfold GL45Texture.derez GL45Texture.stripToMip at h
  by_cases k1 : add16 t.minMip 1 < t.minMip
  · rw [if_pos k1] at h
    cases h
    exact le_refl _
  · rw [if_neg k1] at h
    by_cases k2 : (t.sparseInfo.sparse &&
        decide (add16 t.minMip 1 > t.sparseInfo.maxSparseLevel)) = true
    · rw [if_pos k2] at h
      cases h
      exact le_refl _
    · rw [if_neg k2] at h
      simp only at h
      by_cases hc : tex.isCompressed = true
      · exfalso
        have hu : ∀ x, GL45Texture.updateSize tex x = Except.error Abort.fatal := by
          intro x
          unfold GL45Texture.updateSize
          rw [if_pos hc]
        by_cases k3 : t.sparseInfo.sparse = true
        · rw [if_pos k3, hu] at h
          cases h
        · rw [if_neg k3] at h
          split at h
          · cases h
          · rw [hu] at h
            cases h
      · have hc2 : tex.isCompressed = false := by simpa using hc
        by_cases k3 : t.sparseInfo.sparse = true
        · rw [if_pos k3, updateSize_of_not_compressed _ _ hc2] at h
          cases h
          exact le_refl _
        · rw [if_neg k3] at h
          split at h
          · cases h
          · rename_i hne
            rw [updateSize_of_not_compressed _ _ hc2] at h
            cases h
            show sub16 t.maxMip (sub16 (add16 t.minMip 1) t.minMip) ≤ t.maxMip
            have hne2 : sub16 t.maxMip (sub16 (add16 t.minMip 1) t.minMip) ≠ 65535 := hne
            rw [derez_delta] at hne2 ⊢
            unfold sub16 U16 at *
            omega

/-- A round of the loop that returns does not raise `_maxMip` of the handle. -/
theorem sweepStepOn_maxMip (textures : TexturePointer → Texture) (s s1 : SweepState)
    (e : TextureAndSize) (hm : (s.objects e.texture).maxMip < U16)
    (h : sweepStepOn textures s e = Except.ok s1) :
    (s1.objects e.texture).maxMip ≤ (s.objects e.texture).maxMip := by
  unfold sweepStepOn at h
  simp only at h
  by_cases hl : (GL45Texture.preDerez (textures e.texture) (s.objects e.texture)).2.2 = true
  · simp only [hl, if_true] at h
    cases h
    simp only [Function.update_same]
    exact le_refl _
  · have hl2 : (GL45Texture.preDerez (textures e.texture) (s.objects e.texture)).2.2 = false := by
      simpa using hl
    cases hd : GL45Texture.derez (textures e.texture) s.gl
        (GL45Texture.preDerez (textures e.texture) (s.objects e.texture)).1 with
    | error a =>
      simp only [hl2, hd] at h
      simp at h
    | ok r =>
      simp only [hl2, hd, Bool.false_eq_true, if_false] at h
      cases h
      simp only [Function.update_same]
      exact derez_maxMip_le (textures e.texture) s.gl
        (GL45Texture.preDerez (textures e.texture) (s.objects e.texture)).1 r hm hd

/-- In a state of `SizeInv` over textures whose mip count leaves the `uint16` counters room
and whose levels past the last mip are no larger than the last mip, the memory that a round
frees is at most the recorded size of the entry and at most the running total, and the
state after a round that returns is again one of `SizeInv`. -/
theorem sizeInv_step (textures : TexturePointer → Texture) (visited : List TexturePointer)
    (s : SweepState) (e : TextureAndSize)
    (hrange : ∀ p ∈ visited, (textures p).evalNumMips + visited.length ≤ U16)
    (hmono : ∀ p ∈ visited, ∀ m, (textures p).evalNumMips ≤ m →
      (textures p).evalMipSize m ≤ (textures p).evalMipSize ((textures p).evalNumMips - 1))
    (hsz : SizeInv textures visited s) (he : e ∈ s.allTextures) :
    (GL45Texture.preDerez (textures e.texture) (s.objects e.texture)).2.1 ≤ e.size ∧
    (GL45Texture.preDerez (textures e.texture) (s.objects e.texture)).2.1 ≤
      s.allTexturesTargetMemory ∧
    ∀ s1, sweepStepOn textures s e = Except.ok s1 → SizeInv textures visited s1 := by
  obtain ⟨hlen, hentries, hsum, htot⟩ := hsz
  obtain ⟨hv, hsparse, hmax, hbound, hres⟩ := hentries e he
  have hpos : 0 < s.allTextures.length := List.length_pos_of_mem he
  have hr := hrange e.texture hv
  have hfreed : (GL45Texture.preDerez (textures e.texture) (s.objects e.texture)).2.1 =
      (textures e.texture).evalMipSize (s.objects e.texture).targetMinMip % USIZE := by
    show GL45Texture.getMipByteCount _ _ _ = _
    unfold GL45Texture.getMipByteCount
    rw [if_pos (by simp [hsparse])]
  have hmod : (textures e.texture).evalMipSize (s.objects e.texture).targetMinMip % USIZE ≤
      (textures e.texture).evalMipSize (s.objects e.texture).targetMinMip := Nat.mod_le _ _
  have hmip : (textures e.texture).evalMipSize (s.objects e.texture).targetMinMip ≤ e.size := by
    by_cases hin : (s.objects e.texture).targetMinMip < (textures e.texture).evalNumMips
    · have hmin : min (s.objects e.texture).targetMinMip ((textures e.texture).evalNumMips - 1) =
          (s.objects e.texture).targetMinMip := by omega
      rw [hmin, residentBytes_step _ _ hin] at hres
      omega
    · have hmin : min (s.objects e.texture).targetMinMip ((textures e.texture).evalNumMips - 1) =
          (textures e.texture).evalNumMips - 1 := by omega
      rw [hmin] at hres
      have h1 := residentBytes_last (textures e.texture) (by omega)
      have h2 := hmono e.texture hv (s.objects e.texture).targetMinMip (by omega)
      omega
  have hesum : e.size + ((s.allTextures.erase e).map fun x => x.size).sum =
      (s.allTextures.map fun x => x.size).sum :=
    List.sum_map_erase (fun x : TextureAndSize => x.size) he
  have h1 : (textures e.texture).evalMipSize (s.objects e.texture).targetMinMip % USIZE ≤
      e.size := by omega
  rw [hfreed]
  refine ⟨h1, by omega, fun s1 hs1 => ?_⟩
  obtain ⟨hothers, hqueue, htotal⟩ := sweepStepOn_ok textures s s1 e hs1
  obtain ⟨hid, ht⟩ := sweepStepOn_frame textures s s1 e hs1
  have hmle := sweepStepOn_maxMip textures s s1 e (by unfold U16 at *; omega) hs1
  have ht2 : (s1.objects e.texture).targetMinMip = (s.objects e.texture).targetMinMip + 1 := by
    rw [ht]
    unfold add16
    apply Nat.mod_eq_of_lt
    unfold U16 at *
    omega
  have hsp1 : (s1.objects e.texture).sparseInfo.sparse = false := by
    rw [hid.2.2.2.1]
    exact hsparse
  have hsub : subSize e.size
      ((textures e.texture).evalMipSize (s.objects e.texture).targetMinMip % USIZE) =
      e.size - (textures e.texture).evalMipSize (s.objects e.texture).targetMinMip % USIZE :=
    subSize_of_le h1 (by omega)
  have hder : (s1.objects e.texture).derezable = true →
      (s.objects e.texture).targetMinMip + 3 ≤ (textures e.texture).evalNumMips := by
    intro hd
    obtain ⟨_, _, hlt⟩ := (derezable_iff _).mp hd
    unfold GL45Texture.maxMinMip at hlt
    rw [if_neg (by simp [hsp1])] at hlt
    omega
  have hlen1 : s1.allTextures.length =
      s.allTextures.length - 1 + (if (s1.objects e.texture).derezable = true then 1 else 0) := by
    rw [hqueue, List.length_append, List.length_erase_of_mem he]
    split <;> rfl
  have hmono2 : residentBytes (textures e.texture)
      (min (s1.objects e.texture).targetMinMip ((textures e.texture).evalNumMips - 1)) ≤
      residentBytes (textures e.texture)
      (min (s.objects e.texture).targetMinMip ((textures e.texture).evalNumMips - 1)) := by
    apply residentBytes_antitone
    rw [ht2]
    omega
  have hbound1 : (s1.objects e.texture).targetMinMip + s1.allTextures.length + 1 ≤
      (textures e.texture).evalNumMips + visited.length := by
    rw [hlen1, ht2]
    split
    · rename_i hd
      have := hder hd
      omega
    · omega
  refine ⟨?_, ?_, ?_, ?_⟩
  · rw [hlen1]
    split <;> omega
  · intro x hx
    rw [hqueue] at hx
    rcases List.mem_append.mp hx with hx | hx
    · have hx2 := List.mem_of_mem_erase hx
      obtain ⟨xv, xsparse, xmax, xbound, xres⟩ := hentries x hx2
      by_cases hxe : x.texture = e.texture
      · rw [hxe] at xres ⊢
        exact ⟨hv, hsp1, lt_of_le_of_lt hmle hmax, hbound1, le_trans hmono2 xres⟩
      · rw [hothers _ hxe]
        refine ⟨xv, xsparse, xmax, ?_, xres⟩
        rw [hlen1]
        split <;> omega
    · split at hx
      · rename_i hd
        rw [List.mem_singleton.mp hx]
        refine ⟨hv, hsp1, lt_of_le_of_lt hmle hmax, hbound1, ?_⟩
        show residentBytes (textures e.texture) _ ≤ subSize e.size _
        have h3 := hder hd
        have hin : (s.objects e.texture).targetMinMip < (textures e.texture).evalNumMips := by
          omega
        have hmin : min (s.objects e.texture).targetMinMip ((textures e.texture).evalNumMips - 1) =
            (s.objects e.texture).targetMinMip := by omega
        have hmin1 : min (s1.objects e.texture).targetMinMip
            ((textures e.texture).evalNumMips - 1) =
            (s.objects e.texture).targetMinMip + 1 := by
          rw [ht2]
          omega
        rw [hmin, residentBytes_step _ _ hin] at hres
        rw [hmin1, hfreed, hsub]
        omega
      · cases hx
  · rw [hqueue, htotal, hfreed, subSize_of_le (by omega) htot, List.map_append, List.sum_append]
    split
    · rw [List.map_singleton, List.sum_singleton]
      show _ + subSize e.size _ ≤ _
      rw [hsub]
      omega
    · rw [List.map_nil, List.sum_nil]
      omega
  · rw [htotal, hfreed, subSize_of_le (by omega) htot]
    omega

theorem buildPriorityQueue_dense (b : Backend) (h : GLTextureTransferHelper)
    (hdense : ∀ p ∈ visitedTextures h, (b.objects p).sparseInfo.sparse = false) :
    ∃ built, buildPriorityQueue b h = Except.ok built := by
  rw [buildPriorityQueue_eq]
  refine visitTextures_returns b _ (fun p hp => ?_) _
  unfold GL45Texture.getTargetGpuSize
  rw [if_pos (by simp [hdense p hp])]
  exact ⟨_, rfl⟩

/-- The loop starts in a state of `SizeInv` when every visited handle is dense, has a
`_maxMip` that is a mip of its texture and a virtual size that is the sum of the sizes of all
the mips, and the sum of the virtual sizes is a `size_t` value. -/
theorem sizeInv_start (b : Backend) (h : GLTextureTransferHelper)
    (built : Nat × List TextureAndSize)
    (hdense : ∀ p ∈ visitedTextures h, (b.objects p).sparseInfo.sparse = false ∧
      (b.objects p).maxMip < (b.textures p).evalNumMips ∧
      (b.objects p).virtualSize = residentBytes (b.textures p) 0)
    (htotal : ((visitedTextures h).map fun p => (b.objects p).virtualSize).sum < USIZE)
    (hb : buildPriorityQueue b h = Except.ok built) :
    built.1 = ((visitedTextures h).map fun p => (b.objects p).virtualSize).sum ∧
    SizeInv b.textures (visitedTextures h) (sweepStart b built) := by
  obtain ⟨_, h1, h2⟩ := buildPriorityQueue_ok b h built hb
  have hsmall : ∀ p ∈ visitedTextures h, (b.objects p).virtualSize < USIZE := by
    intro p hp
    have h3 : (b.objects p).virtualSize ≤
        ((visitedTextures h).map fun p => (b.objects p).virtualSize).sum :=
      List.single_le_sum (fun _ _ => Nat.zero_le _) _
        (List.mem_map_of_mem (fun p => (b.objects p).virtualSize) hp)
    omega
  have hts : ∀ p ∈ visitedTextures h, targetSize b p = (b.objects p).virtualSize := by
    intro p hp
    unfold targetSize GL45Texture.getTargetGpuSize
    rw [if_pos (by simp [(hdense p hp).1])]
    exact Nat.mod_eq_of_lt (hsmall p hp)
  have hmap : (visitedTextures h).map (fun p => targetSize b p) =
      (visitedTextures h).map fun p => (b.objects p).virtualSize :=
    List.map_congr_left hts
  have hb1 : built.1 = ((visitedTextures h).map fun p => (b.objects p).virtualSize).sum := by
    rw [h1]
    have := foldl_addSize (fun p => targetSize b p) (visitedTextures h) 0
    rw [Nat.zero_mod, Nat.zero_add, hmap, Nat.mod_eq_of_lt htotal] at this
    exact this
  have hlen : (sweepStart b built).allTextures.length ≤ (visitedTextures h).length := by
    show built.2.length ≤ _
    rw [h2, List.length_map]
    exact List.length_filter_le _ _
  refine ⟨hb1, hlen, ?_, ?_, ?_⟩
  · intro e he
    have he2 : e ∈ built.2 := he
    rw [h2] at he2
    obtain ⟨p, hp, hpe⟩ := List.mem_map.mp he2
    have hpv := (List.mem_filter.mp hp).1
    have hpd : (b.objects p).derezable = true := (List.mem_filter.mp hp).2
    obtain ⟨_, _, hlt⟩ := (derezable_iff _).mp hpd
    unfold GL45Texture.maxMinMip at hlt
    rw [if_neg (by simp [(hdense p hpv).1])] at hlt
    have hmax := (hdense p hpv).2.1
    rw [← hpe]
    refine ⟨hpv, (hdense p hpv).1, hmax, ?_, ?_⟩
    · show (b.objects p).targetMinMip + (sweepStart b built).allTextures.length + 1 ≤
        (b.textures p).evalNumMips + (visitedTextures h).length
      omega
    · show residentBytes (b.textures p) _ ≤ targetSize b p
      rw [hts p hpv, (hdense p hpv).2.2]
      exact residentBytes_le _ _
  · show (built.2.map fun e => e.size).sum ≤ built.1
    rw [hb1, h2, List.map_map, ← hmap]
    exact sum_filter_le (fun p => targetSize b p) _ _
  · show built.1 < USIZE
    rw [hb1]
    exact htotal

/-- C30: in a sweep over dense handles whose virtual size is the sum of the byte sizes of all
the mips of the texture and whose `_maxMip` is a mip of the texture (a texture may be visited
several times and so have several entries in the queue), with mip counts that leave the
`uint16` counter `targetMinMip` room for one step per visited texture, levels past the last
mip that are no larger than the last mip, and a sum of virtual sizes that is a `size_t`
value: the queue is built with the sum of the virtual sizes as total, and in every round that
the loop reaches, the memory that `preDerez()` reports as freed is at most the size recorded
in the entry taken and at most the running total.  So both subtractions of the round are
exact, and a round that returns leaves the running total lowered by the freed memory. -/
theorem C30_subtractions_do_not_wrap (allowedTextureMemory : Nat) (tie : Nat → Nat)
    (b : Backend) (h : GLTextureTransferHelper)
    (hdense : ∀ p ∈ visitedTextures h, (b.objects p).sparseInfo.sparse = false ∧
      (b.objects p).maxMip < (b.textures p).evalNumMips ∧
      (b.objects p).virtualSize = residentBytes (b.textures p) 0)
    (hrange : ∀ p ∈ visitedTextures h,
      (b.textures p).evalNumMips + (visitedTextures h).length ≤ U16)
    (hmono : ∀ p ∈ visitedTextures h, ∀ m, (b.textures p).evalNumMips ≤ m →
      (b.textures p).evalMipSize m ≤
        (b.textures p).evalMipSize ((b.textures p).evalNumMips - 1))
    (htotal : ((visitedTextures h).map fun p => (b.objects p).virtualSize).sum < USIZE) :
    ∃ built, buildPriorityQueue b h = Except.ok built ∧
      built.1 = ((visitedTextures h).map fun p => (b.objects p).virtualSize).sum ∧
      ∀ n s, sweepAfter b.textures allowedTextureMemory tie n (sweepStart b built) = some s →
        ∀ choice e, top choice s.allTextures = some e →
          (GL45Texture.preDerez (b.textures e.texture) (s.objects e.texture)).2.1 ≤ e.size ∧
          (GL45Texture.preDerez (b.textures e.texture) (s.objects e.texture)).2.1 ≤
            s.allTexturesTargetMemory ∧
          subSize e.size (GL45Texture.preDerez (b.textures e.texture) (s.objects e.texture)).2.1 =
            e.size - (GL45Texture.preDerez (b.textures e.texture) (s.objects e.texture)).2.1 ∧
          subSize s.allTexturesTargetMemory
              (GL45Texture.preDerez (b.textures e.texture) (s.objects e.texture)).2.1 =
            s.allTexturesTargetMemory -
              (GL45Texture.preDerez (b.textures e.texture) (s.objects e.texture)).2.1 ∧
          ∀ s1, sweepStep b.textures choice s = Except.ok s1 →
            s1.allTexturesTargetMemory = s.allTexturesTargetMemory -
              (GL45Texture.preDerez (b.textures e.texture) (s.objects e.texture)).2.1 := by
  obtain ⟨built, hb⟩ := buildPriorityQueue_dense b h (fun p hp => (hdense p hp).1)
  obtain ⟨hb1, hsz0⟩ := sizeInv_start b h built hdense htotal hb
  refine ⟨built, hb, hb1, fun n s hs choice e he => ?_⟩
  have hsz := sweepAfter_invariant b.textures allowedTextureMemory
    (fun x => SizeInv b.textures (visitedTextures h) x)
    (fun x o x1 hi ho hx =>
      (sizeInv_step b.textures (visitedTextures h) x o hrange hmono hi ho).2.2 x1 hx)
    n tie (sweepStart b built) s hsz0 hs
  have hmem := (top_spec _ _ _ he).1
  obtain ⟨k1, k2, _⟩ := sizeInv_step b.textures (visitedTextures h) s e hrange hmono hsz hmem
  have hes : e.size < USIZE := by
    have h3 : e.size ≤ (s.allTextures.map fun x => x.size).sum :=
      List.single_le_sum (fun _ _ => Nat.zero_le _) _
        (List.mem_map_of_mem (fun x : TextureAndSize => x.size) hmem)
    have h4 := hsz.2.2.1
    have h5 := hsz.2.2.2
    omega
  refine ⟨k1, k2, subSize_of_le k1 hes, subSize_of_le k2 hsz.2.2.2, fun s1 hs1 => ?_⟩
  rw [sweepStep_of_top _ _ _ _ he] at hs1
  rw [(sweepStepOn_ok b.textures s s1 e hs1).2.2]
  exact subSize_of_le k2 hsz.2.2.2

theorem tex4_levels_past_last (m : Nat) (hm : tex4.evalNumMips ≤ m) :
    tex4.evalMipSize m ≤ tex4.evalMipSize (tex4.evalNumMips - 1) := by
  have h3 : 3 ≤ m := hm
  have hz : 4 >>> m = 0 := by
    rw [Nat.shiftRight_eq_div_pow]
    apply Nat.div_eq_of_lt
    calc 4 < 2 ^ 3 := by decide
      _ ≤ 2 ^ m := Nat.pow_le_pow_right (by decide) h3
  show 4 * max (4 >>> m) 1 * max (4 >>> m) 1 ≤ 4 * max (4 >>> 2) 1 * max (4 >>> 2) 1
  rw [hz]
  decide

/-- Witness of C30: texture 0 (4 x 4, mips of 64, 16 and 4 bytes) is in the transferred list
and twice in the transferring list, so its handle has three entries of 84 bytes in the queue
and the total is 252; the first round frees no more than the 84 bytes of the entry it
takes. -/
theorem C30_subtractions_do_not_wrap_witness :
    (visitedTextures helperThrice = [0, 0, 0] ∧
      started4.virtualSize = residentBytes tex4 0 ∧ started4.maxMip < tex4.evalNumMips) ∧
    ∃ built, buildPriorityQueue backendStarted4 helperThrice = Except.ok built ∧
      built.1 = 252 ∧
      ∀ choice e, top choice (sweepStart backendStarted4 built).allTextures = some e →
        (GL45Texture.preDerez (backendStarted4.textures e.texture)
          ((sweepStart backendStarted4 built).objects e.texture)).2.1 ≤ e.size := by
  obtain ⟨built, h1, h2, h3⟩ := C30_subtractions_do_not_wrap 4 (fun _ => 0) backendStarted4
    helperThrice
    (fun _ _ => (⟨rfl, by decide, by decide⟩ :
      started4.sparseInfo.sparse = false ∧ started4.maxMip < tex4.evalNumMips ∧
        started4.virtualSize = residentBytes tex4 0))
    (fun _ _ => (by decide : tex4.evalNumMips + (visitedTextures helperThrice).length ≤ U16))
    (fun _ _ m hm => tex4_levels_past_last m hm)
    (by decide)
  exact ⟨⟨by decide, by decide, by decide⟩, built, h1, h2,
    fun choice e he => (h3 0 _ rfl choice e he).1⟩

end gl45

end gpu
